import Mathlib

/-!
# Stellar Harmony (`src/game.js`): the simulation core

A shallow embedding of the class `StellarHarmonyGame`.

Modelling conventions.

* JavaScript numbers are modelled by exact rationals `ℚ`; rounding of
  IEEE doubles is not modelled.
* The mutable object `this` is the record `Game`; every method becomes a
  function from `Game` to `Game`.
* `Math.random()` is modelled by an explicit list of draws that is threaded
  through every method that draws (`Draws`, `random`); an exhausted list
  yields `0`.  A `Sim` is a game together with the draws not yet consumed.
* `Array.prototype.forEach` is modelled by `forEach`: the number of visits is
  the length of the array when the loop starts, the visited index goes up by
  one at each visit, and an index that is no longer present (because the
  callback spliced the array) is skipped.
* The class body defines several methods twice (`update`, `updatePlayer`,
  `updateStars`, `updateDifficulty`, `updateDifficultySettings`, ...).  In a
  JavaScript class the later definition replaces the earlier one, so the
  embedded method is always the last one; the replaced
  `updateDifficultySettings` of line 772 is kept under the name
  `updateDifficultySettingsShadowed`.
* DOM, canvas drawing and audio calls (`updateUI`, `showScreen`, `playNote`,
  the `shake` class toggle, `console.log`) do not touch the fields of the
  game and are left out.
-/

namespace StellarHarmony

/-! ## Data model -/

/-- The field `gameState`: one of the five screen modes. -/
inductive GameState where
  | menu
  | playing
  | instructions
  | gameOver
  | settings
  deriving DecidableEq, Repr

/-- The field `settings.difficulty`; `other` stands for any string that is
none of `'easy'`, `'normal'`, `'hard'`. -/
inductive Difficulty where
  | easy
  | normal
  | hard
  | other
  deriving DecidableEq, Repr

/-- The keys of `this.powerUps`, in the order of `Object.keys`. -/
inductive PowerUpType where
  | shield
  | speed
  | multiplier
  deriving DecidableEq, Repr

/-- An element of `player.trail`. -/
structure TrailPoint where
  x : ℚ
  y : ℚ
  life : ℚ
  deriving DecidableEq

/-- The object `this.player`; `isShielded` is absent (falsy) until a shield
is activated, which is modelled by `false`. -/
structure Player where
  x : ℚ
  y : ℚ
  size : ℚ
  speed : ℚ
  color : String
  isShielded : Bool
  trail : List TrailPoint
  deriving DecidableEq

/-- An element of `this.stars`. -/
structure Star where
  x : ℚ
  y : ℚ
  size : ℚ
  speed : ℚ
  opacity : ℚ
  deriving DecidableEq

/-- An element of `this.notes`. -/
structure Note where
  x : ℚ
  y : ℚ
  size : ℚ
  color : String
  frequency : ℚ
  collected : Bool
  pulse : ℚ
  deriving DecidableEq

/-- An element of `this.obstacles`. -/
structure Obstacle where
  x : ℚ
  y : ℚ
  width : ℚ
  height : ℚ
  speed : ℚ
  color : String
  rotation : ℚ
  deriving DecidableEq

/-- An element of `this.particles`.  Ambient particles (`spawnParticle`) carry
`speed` and `opacity`; effect particles (`createCollectionEffect`,
`createDamageEffect`, `createPowerUpEffect`) carry `vx`, `vy` instead, which no
method reads and which are not kept.  `speed = none` is the missing property
(`undefined`), and `x = none` is the `NaN` that `x -= undefined` produces. -/
structure Particle where
  x : Option ℚ
  y : ℚ
  size : ℚ
  speed : Option ℚ
  color : String
  life : ℚ
  opacity : Option ℚ
  deriving DecidableEq

/-- The in-flight collectible stored in `powerUps[type].object`. -/
structure PowerUpObject where
  x : ℚ
  y : ℚ
  size : ℚ
  type : PowerUpType
  collected : Bool
  deriving DecidableEq

/-- One slot of `this.powerUps`; `object = none` is `null` or `undefined`. -/
structure PowerUp where
  active : Bool
  duration : ℚ
  object : Option PowerUpObject
  deriving DecidableEq

/-- The object `this.powerUps`; `multiplierValue` is `powerUps.multiplier.value`. -/
structure PowerUps where
  shield : PowerUp
  speed : PowerUp
  multiplier : PowerUp
  multiplierValue : ℚ
  deriving DecidableEq

/-- The object `settings.effects`. -/
structure Effects where
  trails : Bool
  glow : Bool
  shake : Bool
  deriving DecidableEq

/-- The object `this.settings`. -/
structure Settings where
  theme : String
  particleDensity : ℚ
  musicVolume : ℚ
  difficulty : Difficulty
  effects : Effects
  deriving DecidableEq

/-- The entries of `this.keys` that `updatePlayer` reads; a key that was never
pressed is absent (falsy), which is modelled by `false`. -/
structure Keys where
  w : Bool
  arrowup : Bool
  s : Bool
  arrowdown : Bool
  a : Bool
  arrowleft : Bool
  d : Bool
  arrowright : Bool
  deriving DecidableEq

/-- The fields of a `StellarHarmonyGame` that the simulation reads or writes;
`canvasWidth` and `canvasHeight` are `canvas.width` and `canvas.height`. -/
structure Game where
  canvasWidth : ℚ
  canvasHeight : ℚ
  gameState : GameState
  score : ℚ
  health : ℚ
  level : ℚ
  gameSpeed : ℚ
  settings : Settings
  powerUps : PowerUps
  player : Player
  notes : List Note
  obstacles : List Obstacle
  particles : List Particle
  stars : List Star
  keys : Keys
  currentMelody : List ℚ
  lastTime : ℚ
  noteSpawnTimer : ℚ
  obstacleSpawnTimer : ℚ
  particleTimer : ℚ
  deriving DecidableEq

/-- The values of `Math.random()` still to be drawn, first one first. -/
abbrev Draws := List ℚ

/-- A game together with the random draws not yet consumed. -/
abbrev Sim := Game × Draws

/-- One call of `Math.random()`: the value and the remaining draws. -/
def random (r : Draws) : ℚ × Draws := (r.headD 0, r.tail)

/-- The index `Math.floor(v * n)` used to pick from an array literal, for a
draw `v` in `[0, 1)`; the picks below fall back on a default outside this
range, which `Math.random()` never leaves. -/
def floorIndex (v : ℚ) (n : ℚ) : Nat := (⌊v * n⌋ : ℤ).toNat

/-- The test `Math.hypot(dx, dy) < r`, without the square root: the distance is
non-negative, so it is below `r` exactly when `r` is positive and the squared
distance is below `r * r`. -/
def hypotLt (dx dy r : ℚ) : Bool := decide (0 < r ∧ dx * dx + dy * dy < r * r)

/-- The test `t > c / gameSpeed` of `spawnObjects`.  For `gameSpeed = 0` the
quotient of a positive `c` is `Infinity` and the test is false. -/
def exceedsQuotient (t c gameSpeed : ℚ) : Bool :=
  if gameSpeed = 0 then false else decide (t > c / gameSpeed)

/-- `Array.prototype.forEach` over the array `arr` of the game, by a callback
`body element index` that may change the game (the array included).  Called as
`forEach arr body (arr g).length 0 (g, r)`: the first number is the count of
indices still to visit, the second the index visited next. -/
def forEach {α : Type} (arr : Game → List α) (body : α → Nat → Sim → Sim) :
    Nat → Nat → Sim → Sim
  | 0, _, s => s
  | fuel + 1, k, s =>
    match (arr s.1)[k]? with
    | some a => forEach arr body fuel (k + 1) (body a k s)
    | none => forEach arr body fuel (k + 1) s

/-- Access `this.powerUps[type]`. -/
def PowerUps.get (p : PowerUps) : PowerUpType → PowerUp
  | .shield => p.shield
  | .speed => p.speed
  | .multiplier => p.multiplier

/-- Write the slot `this.powerUps[type]`. -/
def PowerUps.set (p : PowerUps) (t : PowerUpType) (v : PowerUp) : PowerUps :=
  match t with
  | .shield => { p with shield := v }
  | .speed => { p with speed := v }
  | .multiplier => { p with multiplier := v }

/-- Change the slot `this.powerUps[type]` of a game. -/
def Game.modifySlot (g : Game) (t : PowerUpType) (f : PowerUp → PowerUp) : Game :=
  { g with powerUps := g.powerUps.set t (f (g.powerUps.get t)) }

/-! ## Construction -/

/-- The method `initializeGameState` (line 16), for a canvas element whose
attributes are `canvasWidth` and `canvasHeight`. -/
def initializeGameState (canvasWidth canvasHeight : ℚ) : Game :=
  { canvasWidth := canvasWidth
    canvasHeight := canvasHeight
    gameState := .menu
    score := 0
    health := 100
    level := 1
    gameSpeed := 2
    settings :=
      { theme := "cosmic", particleDensity := 50, musicVolume := 70, difficulty := .normal,
        effects := { trails := true, glow := true, shake := true } }
    powerUps :=
      { shield := { active := false, duration := 0, object := none }
        speed := { active := false, duration := 0, object := none }
        multiplier := { active := false, duration := 0, object := none }
        multiplierValue := 2 }
    player := { x := 0, y := 0, size := 20, speed := 5, color := "#64ffda", isShielded := false, trail := [] }
    notes := []
    obstacles := []
    particles := []
    stars := []
    keys :=
      { w := false, arrowup := false, s := false, arrowdown := false, a := false,
        arrowleft := false, d := false, arrowright := false }
    currentMelody := []
    lastTime := 0
    noteSpawnTimer := 0
    obstacleSpawnTimer := 0
    particleTimer := 0 }

/-- The method `resizeCanvas` (line 1238, replacing the identical line 205),
for a window of size `innerWidth` by `innerHeight`. -/
def resizeCanvas (innerWidth innerHeight : ℚ) (g : Game) : Game :=
  { g with
    canvasWidth := innerWidth
    canvasHeight := innerHeight
    player := { g.player with x := innerWidth * 0.1, y := innerHeight / 2 } }

/-- The loop of `createStarField`: `count` stars pushed, five draws each. -/
def pushStars : Nat → Sim → Sim
  | 0, s => s
  | count + 1, s =>
    let g := s.1
    let (vx, r1) := random s.2
    let (vy, r2) := random r1
    let (vsize, r3) := random r2
    let (vspeed, r4) := random r3
    let (vopacity, r5) := random r4
    let star : Star :=
      { x := vx * g.canvasWidth, y := vy * g.canvasHeight, size := vsize * 2,
        speed := vspeed * 2 + 0.5, opacity := vopacity * 0.8 + 0.2 }
    pushStars count ({ g with stars := g.stars ++ [star] }, r5)

/-- The method `createStarField` (line 1272, replacing the identical line 373). -/
def createStarField (s : Sim) : Sim :=
  pushStars 100 ({ s.1 with stars := [] }, s.2)

/-! ## Mode changes -/

/-- The method `showMenu` (line 438). -/
def showMenu (g : Game) : Game := { g with gameState := .menu }

/-- The method `showInstructions` (line 444). -/
def showInstructions (g : Game) : Game := { g with gameState := .instructions }

/-- The method `showSettings` (line 789, replacing line 450). -/
def showSettings (g : Game) : Game := { g with gameState := .settings }

/-- The method `showGameOver` (line 473). -/
def showGameOver (g : Game) : Game := { g with gameState := .gameOver }

/-! ## Difficulty -/

/-- The method `updateDifficulty` (line 1366, replacing the identical line 764). -/
def updateDifficulty (g : Game) : Game :=
  let newLevel : ℚ := ((⌊g.score / 1000⌋ : ℤ) : ℚ) + 1
  if newLevel > g.level then
    { g with level := newLevel, gameSpeed := g.gameSpeed + 0.5 }
  else g

/-- The method `updateDifficultySettings` in force (line 1374). -/
def updateDifficultySettings (g : Game) : Game :=
  match g.settings.difficulty with
  | .easy =>
    { g with gameSpeed := max 1.5 (g.gameSpeed * 0.8), player := { g.player with speed := 6 } }
  | .normal =>
    { g with gameSpeed := max 2 g.gameSpeed, player := { g.player with speed := 5 } }
  | .hard =>
    { g with gameSpeed := max 3 (g.gameSpeed * 1.2), player := { g.player with speed := 4 } }
  | .other => g

/-- The first definition of `updateDifficultySettings` (line 772), which the
definition of line 1374 replaces: no call reaches it. -/
def updateDifficultySettingsShadowed (g : Game) : Game :=
  match g.settings.difficulty with
  | .easy => { g with gameSpeed := 1.5, player := { g.player with speed := 6 } }
  | .normal => { g with gameSpeed := 2, player := { g.player with speed := 5 } }
  | .hard => { g with gameSpeed := 3, player := { g.player with speed := 4 } }
  | .other => g

/-- The `change` handler of `difficultySelect` (line 325). -/
def changeDifficulty (g : Game) (d : Difficulty) : Game :=
  updateDifficultySettings { g with settings := { g.settings with difficulty := d } }

/-! ## Starting a run -/

/-- The method `startGame` (line 386). -/
def startGame (g : Game) : Game :=
  let g1 : Game :=
    { g with
      gameState := .playing, score := 0, health := 100, level := 1, gameSpeed := 2,
      notes := [], obstacles := [], particles := [], currentMelody := [] }
  let reset : PowerUp → PowerUp := fun p => { p with active := false, duration := 0, object := none }
  let g2 := [PowerUpType.shield, .speed, .multiplier].foldl (fun acc t => acc.modifySlot t reset) g1
  let g3 : Game :=
    { g2 with
      player := { g2.player with x := g2.canvasWidth * 0.1, y := g2.canvasHeight / 2, trail := [] } }
  updateDifficultySettings g3

/-! ## Movement -/

/-- The method `updatePlayer` (line 1323, replacing line 539). -/
def updatePlayer (g : Game) : Game :=
  let p := g.player
  let y1 := if g.keys.w || g.keys.arrowup then p.y - p.speed else p.y
  let y2 := if g.keys.s || g.keys.arrowdown then y1 + p.speed else y1
  let x1 := if g.keys.a || g.keys.arrowleft then p.x - p.speed else p.x
  let x2 := if g.keys.d || g.keys.arrowright then x1 + p.speed else x1
  let x3 := max p.size (min (g.canvasWidth - p.size) x2)
  let y3 := max p.size (min (g.canvasHeight - p.size) y2)
  let trail :=
    if g.settings.effects.trails then
      let pushed := p.trail ++ [{ x := x3, y := y3, life := 1 }]
      let shifted := if pushed.length > 20 then pushed.tail else pushed
      let decayed := shifted.map fun point => { point with life := point.life - 0.05 }
      decayed.filter fun point => decide (point.life > 0)
    else p.trail
  { g with player := { p with x := x3, y := y3, trail := trail } }

/-- The callback of `updateStars` (line 1357). -/
def updateStarsBody (star : Star) (index : Nat) (s : Sim) : Sim :=
  let g := s.1
  let x := star.x - star.speed * g.gameSpeed
  if x < 0 then
    let (v, r) := random s.2
    ({ g with stars := g.stars.set index { star with x := g.canvasWidth, y := v * g.canvasHeight } }, r)
  else
    ({ g with stars := g.stars.set index { star with x := x } }, s.2)

/-- The method `updateStars` (line 1356, replacing the identical line 570). -/
def updateStars (s : Sim) : Sim :=
  forEach (fun g => g.stars) updateStarsBody s.1.stars.length 0 s

/-- The callback of `updateNotes` (line 649). -/
def updateNotesBody (note : Note) (index : Nat) (s : Sim) : Sim :=
  let g := s.1
  let moved : Note := { note with x := note.x - g.gameSpeed * 2, pulse := note.pulse + 0.1 }
  let notes := g.notes.set index moved
  if moved.x < -moved.size then
    ({ g with notes := notes.eraseIdx index }, s.2)
  else
    ({ g with notes := notes }, s.2)

/-- The method `updateNotes` (line 648). -/
def updateNotes (s : Sim) : Sim :=
  forEach (fun g => g.notes) updateNotesBody s.1.notes.length 0 s

/-- The callback of `updateObstacles` (line 660). -/
def updateObstaclesBody (obstacle : Obstacle) (index : Nat) (s : Sim) : Sim :=
  let g := s.1
  let moved : Obstacle :=
    { obstacle with x := obstacle.x - obstacle.speed, rotation := obstacle.rotation + 0.05 }
  let obstacles := g.obstacles.set index moved
  if moved.x < -moved.width then
    ({ g with obstacles := obstacles.eraseIdx index }, s.2)
  else
    ({ g with obstacles := obstacles }, s.2)

/-- The method `updateObstacles` (line 659). -/
def updateObstacles (s : Sim) : Sim :=
  forEach (fun g => g.obstacles) updateObstaclesBody s.1.obstacles.length 0 s

/-- The subtraction `particle.x -= particle.speed`: `NaN` as soon as the
position is `NaN` or the speed is missing. -/
def particleMove (x speed : Option ℚ) : Option ℚ :=
  match x, speed with
  | some a, some v => some (a - v)
  | _, _ => none

/-- The test `particle.x < 0`, false for `NaN`. -/
def particleLeft (x : Option ℚ) : Bool :=
  match x with
  | some a => decide (a < 0)
  | none => false

/-- The callback of `updateParticles` (line 671). -/
def updateParticlesBody (particle : Particle) (index : Nat) (s : Sim) : Sim :=
  let g := s.1
  let moved : Particle :=
    { particle with x := particleMove particle.x particle.speed, life := particle.life - 0.01 }
  let particles := g.particles.set index moved
  if particleLeft moved.x || decide (moved.life ≤ 0) then
    ({ g with particles := particles.eraseIdx index }, s.2)
  else
    ({ g with particles := particles }, s.2)

/-- The method `updateParticles` (line 670). -/
def updateParticles (s : Sim) : Sim :=
  forEach (fun g => g.particles) updateParticlesBody s.1.particles.length 0 s

/-! ## Spawning -/

/-- The method `getRandomNoteColor` (line 1087). -/
def getRandomNoteColor (r : Draws) : String × Draws :=
  let (v, r1) := random r
  (["#64ffda", "#ffd93d", "#ff8a95", "#a8e6cf", "#dda0dd"].getD (floorIndex v 5) "", r1)

/-- The method `getRandomColor` (line 1092). -/
def getRandomColor (r : Draws) : String × Draws :=
  let (v, r1) := random r
  (["#64ffda", "#ffd93d", "#ff8a95", "#a8e6cf", "#dda0dd", "#87ceeb"].getD (floorIndex v 6) "", r1)

/-- The method `getRandomFrequency` (line 1097). -/
def getRandomFrequency (r : Draws) : ℚ × Draws :=
  let (v, r1) := random r
  (([261.63, 293.66, 329.63, 349.23, 392.00, 440.00, 493.88, 523.25] : List ℚ).getD
    (floorIndex v 8) 0, r1)

/-- The method `spawnNote` (line 609). -/
def spawnNote (s : Sim) : Sim :=
  let g := s.1
  let (v, r1) := random s.2
  let (color, r2) := getRandomNoteColor r1
  let (frequency, r3) := getRandomFrequency r2
  let note : Note :=
    { x := g.canvasWidth, y := v * (g.canvasHeight - 100) + 50, size := 15, color := color,
      frequency := frequency, collected := false, pulse := 0 }
  ({ g with notes := g.notes ++ [note] }, r3)

/-- The method `spawnObstacle` (line 622). -/
def spawnObstacle (s : Sim) : Sim :=
  let g := s.1
  let (v, r1) := random s.2
  let (w, r2) := random r1
  let obstacle : Obstacle :=
    { x := g.canvasWidth, y := v * (g.canvasHeight - 60) + 30, width := 30, height := 60,
      speed := g.gameSpeed + w * 2, color := "#ff6b6b", rotation := 0 }
  ({ g with obstacles := g.obstacles ++ [obstacle] }, r2)

/-- The method `spawnParticle` (line 635). -/
def spawnParticle (s : Sim) : Sim :=
  let g := s.1
  let (vy, r1) := random s.2
  let (vsize, r2) := random r1
  let (vspeed, r3) := random r2
  let (color, r4) := getRandomColor r3
  let (vopacity, r5) := random r4
  let particle : Particle :=
    { x := some g.canvasWidth, y := vy * g.canvasHeight, size := vsize * 3 + 1,
      speed := some (vspeed * 3 + 1), color := color, life := 1,
      opacity := some (vopacity * 0.5 + 0.2) }
  ({ g with particles := g.particles ++ [particle] }, r5)

/-- The pick `types[Math.floor(Math.random() * types.length)]` of `spawnPowerUp`,
for a draw in `[0, 1)`. -/
def pickPowerUpType (v : ℚ) : PowerUpType :=
  match floorIndex v 3 with
  | 0 => .shield
  | 1 => .speed
  | _ => .multiplier

/-- The method `spawnPowerUp` (line 794). -/
def spawnPowerUp (s : Sim) : Sim :=
  let g := s.1
  let (v, r1) := random s.2
  let type := pickPowerUpType v
  let (w, r2) := random r1
  let powerUp : PowerUpObject :=
    { x := g.canvasWidth, y := w * (g.canvasHeight - 60) + 30, size := 20, type := type,
      collected := false }
  (g.modifySlot type fun p => { p with object := some powerUp }, r2)

/-- The method `spawnObjects` (line 580). -/
def spawnObjects (deltaTime : ℚ) (s : Sim) : Sim :=
  let g0 : Game :=
    { s.1 with
      noteSpawnTimer := s.1.noteSpawnTimer + deltaTime,
      obstacleSpawnTimer := s.1.obstacleSpawnTimer + deltaTime,
      particleTimer := s.1.particleTimer + deltaTime }
  let s0 : Sim := (g0, s.2)
  let s1 : Sim :=
    if exceedsQuotient s0.1.noteSpawnTimer 1000 s0.1.gameSpeed then
      let t := spawnNote s0
      ({ t.1 with noteSpawnTimer := 0 }, t.2)
    else s0
  let s2 : Sim :=
    if exceedsQuotient s1.1.obstacleSpawnTimer 2000 s1.1.gameSpeed then
      let t := spawnObstacle s1
      ({ t.1 with obstacleSpawnTimer := 0 }, t.2)
    else s1
  let (v, r3) := random s2.2
  let s3 : Sim := if v < 0.001 then spawnPowerUp (s2.1, r3) else (s2.1, r3)
  if s3.1.particleTimer > 100 then
    let t := spawnParticle s3
    ({ t.1 with particleTimer := 0 }, t.2)
  else s3

/-! ## Effects -/

/-- The loop of an effect method: `count` particles at `(x, y)`, each consuming
`unread` draws for `vx` and `vy` (not kept) and then one draw `v` for its
size `v * scale + base`. -/
def pushEffects (x y : ℚ) (unread : Nat) (scale base : ℚ) (color : String) :
    Nat → Sim → Sim
  | 0, s => s
  | count + 1, s =>
    let (v, r) := random (s.2.drop unread)
    let effect : Particle :=
      { x := some x, y := y, size := v * scale + base, speed := none, color := color,
        life := 1, opacity := none }
    pushEffects x y unread scale base color count ({ s.1 with particles := s.1.particles ++ [effect] }, r)

/-- The method `createCollectionEffect` (line 734). -/
def createCollectionEffect (x y : ℚ) (s : Sim) : Sim :=
  pushEffects x y 2 5 2 "#64ffda" 10 s

/-- The method `createDamageEffect` (line 749). -/
def createDamageEffect (s : Sim) : Sim :=
  pushEffects s.1.player.x s.1.player.y 2 3 1 "#ff6b6b" 15 s

/-- The method `createPowerUpEffect` (line 881). -/
def createPowerUpEffect (type : PowerUpType) (s : Sim) : Sim :=
  let color :=
    match type with
    | .shield => "#4a9eff"
    | .speed => "#ff4a4a"
    | .multiplier => "#ffcc00"
  pushEffects s.1.player.x s.1.player.y 0 3 2 color 20 s

/-! ## Collisions -/

/-- The method `collectNote` (line 701). -/
def collectNote (note : Note) (index : Nat) (s : Sim) : Sim :=
  let g := s.1
  let g1 : Game :=
    { g with
      notes := g.notes.set index { note with collected := true },
      score := g.score + 100,
      health := min 100 (g.health + 5),
      currentMelody := g.currentMelody ++ [note.frequency] }
  let s2 := createCollectionEffect note.x note.y (g1, s.2)
  let g3 : Game := { s2.1 with notes := s2.1.notes.eraseIdx index }
  if g3.currentMelody.length > 5 then
    ({ g3 with score := g3.score + g3.currentMelody.length * 10 }, s2.2)
  else (g3, s2.2)

/-- The method `hitObstacle` (line 722). -/
def hitObstacle (s : Sim) : Sim :=
  createDamageEffect ({ s.1 with health := s.1.health - 20, currentMelody := [] }, s.2)

/-- The callback of the first loop of `checkCollisions` (line 683). -/
def checkNotesBody (note : Note) (index : Nat) (s : Sim) : Sim :=
  let g := s.1
  if hypotLt (g.player.x - note.x) (g.player.y - note.y) (g.player.size + note.size)
      && !note.collected then
    collectNote note index s
  else s

/-- The overlap test of the second loop of `checkCollisions` (line 692). -/
def overlapsObstacle (p : Player) (obstacle : Obstacle) : Bool :=
  decide (p.x + p.size > obstacle.x) && decide (p.x - p.size < obstacle.x + obstacle.width) &&
    decide (p.y + p.size > obstacle.y) && decide (p.y - p.size < obstacle.y + obstacle.height)

/-- The callback of the second loop of `checkCollisions` (line 691). -/
def checkObstaclesBody (obstacle : Obstacle) (_index : Nat) (s : Sim) : Sim :=
  if overlapsObstacle s.1.player obstacle then hitObstacle s else s

/-- The method `checkCollisions` (line 681). -/
def checkCollisions (s : Sim) : Sim :=
  let s1 := forEach (fun g => g.notes) checkNotesBody s.1.notes.length 0 s
  forEach (fun g => g.obstacles) checkObstaclesBody s1.1.obstacles.length 0 s1

/-! ## Power-ups -/

/-- The method `activatePowerUp` (line 842). -/
def activatePowerUp (type : PowerUpType) (s : Sim) : Sim :=
  let g1 := s.1.modifySlot type fun p => { p with active := true, duration := 10000 }
  let g2 : Game :=
    match type with
    | .shield => { g1 with player := { g1.player with isShielded := true } }
    | .speed => { g1 with player := { g1.player with speed := g1.player.speed * 1.5 } }
    | .multiplier => { g1 with powerUps := { g1.powerUps with multiplierValue := 2 } }
  createPowerUpEffect type (g2, s.2)

/-- The method `deactivatePowerUp` (line 863). -/
def deactivatePowerUp (type : PowerUpType) (g : Game) : Game :=
  let g1 := g.modifySlot type fun p => { p with active := false }
  match type with
  | .shield => { g1 with player := { g1.player with isShielded := false } }
  | .speed =>
    { g1 with
      player :=
        { g1.player with
          speed :=
            if g1.settings.difficulty = .easy then 6
            else if g1.settings.difficulty = .normal then 5 else 4 } }
  | .multiplier => { g1 with powerUps := { g1.powerUps with multiplierValue := 1 } }

/-- The first half of the callback of `updatePowerUps` (lines 811 to 817): the
countdown of an active slot. -/
def tickPowerUp (deltaTime : ℚ) (type : PowerUpType) (s : Sim) : Sim :=
  if (s.1.powerUps.get type).active then
    let g1 := s.1.modifySlot type fun p => { p with duration := p.duration - deltaTime }
    if (g1.powerUps.get type).duration ≤ 0 then (deactivatePowerUp type g1, s.2) else (g1, s.2)
  else s

/-- The second half of the callback of `updatePowerUps` (lines 819 to 838): the
in-flight collectible of the slot moves, is collected, or leaves the canvas. -/
def movePowerUpObject (type : PowerUpType) (s : Sim) : Sim :=
  match (s.1.powerUps.get type).object with
  | none => s
  | some object =>
    let moved : PowerUpObject := { object with x := object.x - s.1.gameSpeed * 2 }
    let s2 : Sim := (s.1.modifySlot type fun p => { p with object := some moved }, s.2)
    let s3 : Sim :=
      if hypotLt (s2.1.player.x - moved.x) (s2.1.player.y - moved.y) (s2.1.player.size + moved.size)
      then
        let t := activatePowerUp type s2
        (t.1.modifySlot type fun p => { p with object := none }, t.2)
      else s2
    match (s3.1.powerUps.get type).object with
    | none => s3
    | some left =>
      if left.x < -left.size then (s3.1.modifySlot type fun p => { p with object := none }, s3.2)
      else s3

/-- The callback of `updatePowerUps` (line 808) for one key of `this.powerUps`. -/
def updatePowerUpsBody (deltaTime : ℚ) (type : PowerUpType) (s : Sim) : Sim :=
  movePowerUpObject type (tickPowerUp deltaTime type s)

/-- The method `updatePowerUps` (line 807); `Object.keys(this.powerUps)` is
`shield`, `speed`, `multiplier` in this order. -/
def updatePowerUps (deltaTime : ℚ) (s : Sim) : Sim :=
  [PowerUpType.shield, .speed, .multiplier].foldl (fun acc type => updatePowerUpsBody deltaTime type acc) s

/-! ## The frame -/

/-- The method `update` (line 1304, replacing the identical line 520). -/
def update (deltaTime : ℚ) (s : Sim) : Sim :=
  if s.1.gameState ≠ .playing then s
  else
    let s1 : Sim := (updatePlayer s.1, s.2)
    let s2 := updateStars s1
    let s3 := spawnObjects deltaTime s2
    let s4 := updateNotes s3
    let s5 := updateObstacles s4
    let s6 := updateParticles s5
    let s7 := updatePowerUps deltaTime s6
    let s8 := checkCollisions s7
    let s9 : Sim := (updateDifficulty s8.1, s8.2)
    if s9.1.health ≤ 0 then (showGameOver s9.1, s9.2) else s9

/-- The method `renderMenuParticles` (line 1078). -/
def renderMenuParticles (s : Sim) : Sim :=
  let (v, r) := random s.2
  let s1 : Sim := if v < 0.1 then spawnParticle (s.1, r) else (s.1, r)
  updateParticles s1

/-- The method `render` (line 898), as far as it touches the game: the drawing
calls only read it, `renderMenuParticles` does not. -/
def render (s : Sim) : Sim :=
  if s.1.gameState = .playing then s else renderMenuParticles s

/-- The method `gameLoop` (line 1227), one frame at time `currentTime`. -/
def gameLoop (currentTime : ℚ) (s : Sim) : Sim :=
  let deltaTime := currentTime - s.1.lastTime
  render (update deltaTime ({ s.1 with lastTime := currentTime }, s.2))

/-! ## A reference run

A window 40 wide and 200 high; the hundred stars are drawn alike and never
reach the left edge during the frames considered. -/

/-- The draws of `createStarField` for the reference run: every star gets
`x = 0.9 * width`, `y = 0.5 * height` and the lowest speed `0.5`. -/
def starDraws : Draws := (List.replicate 100 [9 / 10, 1 / 2, 1 / 2, 0, 1 / 2]).flatten

/-- The game as constructed in a window 40 wide and 200 high, at the menu. -/
def narrowMenu : Game :=
  (createStarField (resizeCanvas 40 200 (initializeGameState 300 150), starDraws)).1

/-- The game as constructed in a window 800 wide and 600 high, at the menu. -/
def wideMenu : Game :=
  (createStarField (resizeCanvas 800 600 (initializeGameState 300 150), starDraws)).1

/-- The game of an 800 by 600 window in a run, with the keys `w` and `d` held. -/
def heldGame : Game :=
  { startGame wideMenu with keys := { wideMenu.keys with w := true, d := true } }

/-- The draws of one frame of the reference run: a note at the top edge
(`0`, then colour and tone), an obstacle at mid height with the lowest speed
(`1/2`, `0`), no power-up (`1/2`), an ambient particle (five draws). -/
def frameDraws : Draws := [0, 0, 0, 1 / 2, 0, 1 / 2, 1 / 2, 1 / 2, 1 / 2, 1 / 2, 1 / 2]

/-- Frame `n` of the reference run: `startGame`, then `n` calls of
`update 1001`, each with the draws `frameDraws`.

`startGame` puts the player at `(4, 100)` with health 100 and game speed 2.
In each frame `updatePlayer` clamps `x` to 20, so the player's square is
`[0, 40] × [80, 120]`; both spawn timers read 1001, above `1000 / 2` and
`2000 / 2`, so a note is spawned at `(40, 50)` and an obstacle at `(40, 100)`
with speed 2.  The notes move to `x = 36, 32, 28` and stay more than 35 away
from the player, so none is collected.  The obstacles move by 2 per frame and
their rectangles `[x, x + 30] × [100, 160]` meet the player's square in every
frame, so `checkCollisions` calls `hitObstacle` once per live obstacle: once
in frame 1 (health 80), twice in frame 2 (health 40), three times in frame 3
(health -20). -/
def narrowRun : Nat → Game
  | 0 => startGame narrowMenu
  | n + 1 => (update 1001 (narrowRun n, frameDraws)).1

/-! ## Reachable states -/

/-- The states reachable from `startGame` by `update` steps: any prior state,
and at each frame any `deltaTime`, any held keys and any random draws. -/
inductive Reachable : Game → Prop
  | start (g : Game) : Reachable (startGame g)
  | step (g : Game) (deltaTime : ℚ) (keys : Keys) (r : Draws) :
      Reachable g → Reachable (update deltaTime ({ g with keys := keys }, r)).1

/-- A live note at the place where a run of 800 by 600 puts the player. -/
def seededNote : Note :=
  { x := 80, y := 300, size := 15, color := "#64ffda", frequency := 440, collected := false,
    pulse := 0 }

/-- A run of 800 by 600 with two live notes, the first one on the player, and
a melody of five tones already collected. -/
def seededGame : Game :=
  { startGame wideMenu with
    notes :=
      [seededNote,
       { x := 500, y := 100, size := 15, color := "#ffd93d", frequency := 392, collected := false,
         pulse := 0 }]
    currentMelody := [261.63, 293.66, 329.63, 349.23, 392] }

/-- A shield collectible ten pixels to the right of the place where a run of
800 by 600 puts the player. -/
def shieldObject : PowerUpObject :=
  { x := 90, y := 300, size := 20, type := .shield, collected := false }

/-- A run of 800 by 600 whose shield slot holds `shieldObject`. -/
def shieldInReach : Game :=
  (startGame wideMenu).modifySlot .shield fun p => { p with object := some shieldObject }

/-- A freshly started run (level 1, game speed 2) whose score is 2500. -/
def freshRun2500 : Game := { startGame wideMenu with score := 2500 }

/-- Consecutive frames: `update` once for each `deltaTime` of the list, the
draws being threaded from one frame to the next. -/
def updates (frames : List ℚ) (s : Sim) : Sim :=
  frames.foldl (fun acc deltaTime => update deltaTime acc) s

/-- The calls of `update` in mode `playing` that come before its test of the
health (lines 1307 to 1315). -/
def simulationStep (deltaTime : ℚ) (s : Sim) : Sim :=
  let s8 := checkCollisions (updatePowerUps deltaTime (updateParticles (updateObstacles
    (updateNotes (spawnObjects deltaTime (updateStars (updatePlayer s.1, s.2)))))))
  (updateDifficulty s8.1, s8.2)

/-- Speed of the game and place and size of the player agree in two games:
what the collection test of `updatePowerUps` reads besides the collectible. -/
def SameGeometry (a b : Game) : Prop :=
  a.gameSpeed = b.gameSpeed ∧ a.player.x = b.player.x ∧ a.player.y = b.player.y ∧
    a.player.size = b.player.size

/-- Mode and health of a simulation state are `st` and `h`. -/
def Kept (st : GameState) (h : ℚ) (s : Sim) : Prop := s.1.gameState = st ∧ s.1.health = h

/-- Mode is `st` and health is at most `b`. -/
def Capped (st : GameState) (b : ℚ) (s : Sim) : Prop := s.1.gameState = st ∧ s.1.health ≤ b

/-- The menu of the 40 by 200 window after one `render` whose first draw is
`0`: below `0.1`, so an ambient particle is spawned (the draws that follow
are exhausted and read `0`). -/
def menuRendered : Sim := render (narrowMenu, [0])

/-- The ambient particle that `menuRendered` holds: spawned at `x = 40` with
speed 1 and moved once by `updateParticles`. -/
def menuParticle : Particle :=
  { x := some 39, y := 0, size := 1, speed := some 1, color := "#64ffda", life := 0.99,
    opacity := some 0.2 }

/-- The game `t` differs from the game `g` at most in the power-up slots, the
player and the particles: the fields that `updatePowerUps` may write. -/
def PowerFrame (g t : Game) : Prop :=
  ∃ powerUps player particles,
    t = { g with powerUps := powerUps, player := player, particles := particles }

/-- The three spawn accumulators of a game. -/
def spawnTimers (g : Game) : ℚ × ℚ × ℚ :=
  (g.noteSpawnTimer, g.obstacleSpawnTimer, g.particleTimer)

/-- A run of 800 by 600 whose shield slot is active with 5000 ms left. -/
def shieldActive : Game :=
  (startGame wideMenu).modifySlot .shield fun p => { p with active := true, duration := 5000 }

/-- The effect of a power-up kind is undone in the game `g`: the player is not
shielded, or the player speed is the base speed of the difficulty (6 for easy,
5 for normal, 4 otherwise, as `deactivatePowerUp` computes it), or the
multiplier value is 1. -/
def EffectUndone (type : PowerUpType) (g : Game) : Prop :=
  match type with
  | .shield => g.player.isShielded = false
  | .speed =>
    g.player.speed =
      if g.settings.difficulty = .easy then 6 else if g.settings.difficulty = .normal then 5 else 4
  | .multiplier => g.powerUps.multiplierValue = 1

/-- The effect of a power-up kind is the same in the games `g` and `t`: the
shielded flag, or the player speed, or the multiplier value. -/
def EffectKept (type : PowerUpType) (g t : Game) : Prop :=
  match type with
  | .shield => t.player.isShielded = g.player.isShielded
  | .speed => t.player.speed = g.player.speed
  | .multiplier => t.powerUps.multiplierValue = g.powerUps.multiplierValue

/-- A run of 800 by 600 whose shield slot is active with 5 ms left and holds
the collectible `shieldObject`, ten pixels right of the player. -/
def shieldExpiringInReach : Game :=
  shieldInReach.modifySlot .shield fun p => { p with active := true, duration := 5 }

/-- A run of 800 by 600, shielded, whose shield slot is active with 5 ms left
and holds no collectible. -/
def shieldExpiring : Game :=
  { (startGame wideMenu).modifySlot .shield fun p => { p with active := true, duration := 5 } with
    player := { (startGame wideMenu).player with isShielded := true } }

/-- The slot of a kind, its effect and the settings are the same in the games
`g` and `t`. -/
def SlotKept (type : PowerUpType) (g t : Game) : Prop :=
  t.powerUps.get type = g.powerUps.get type ∧ EffectKept type g t ∧ t.settings = g.settings

/-- A menu of 800 by 600 with the difficulty set to easy. -/
def easyMenu : Game :=
  { wideMenu with settings := { wideMenu.settings with difficulty := .easy } }

/-- A note about to leave the canvas: one more move of `2 * gameSpeed = 4`
takes it to `x = -16`, beyond `-size = -15`. -/
def leavingNote : Note :=
  { x := -12, y := 200, size := 15, color := "#64ffda", frequency := 440, collected := false,
    pulse := 0 }

/-- A note in the middle of the canvas, away from the player. -/
def trailingNote : Note :=
  { x := 400, y := 200, size := 15, color := "#ffd93d", frequency := 392, collected := false,
    pulse := 0 }

/-- A run of 800 by 600 (game speed 2) whose notes are `leavingNote` and,
right after it in the list, `trailingNote`. -/
def leavingNoteGame : Game := { startGame wideMenu with notes := [leavingNote, trailingNote] }

/-- A second live note at the place of the player, with another tone. -/
def secondNote : Note := { seededNote with frequency := 392, color := "#ffd93d" }

/-- A run of 800 by 600 whose notes are two live notes on the player, one
right after the other in the list. -/
def adjacentNotesGame : Game := { startGame wideMenu with notes := [seededNote, secondNote] }

/-- An obstacle whose rectangle covers the place of the player in a run of 800
by 600. -/
def onPlayerObstacle : Obstacle :=
  { x := 70, y := 280, width := 30, height := 60, speed := 3, color := "#ff6b6b", rotation := 0 }

/-- An obstacle far to the right of the player. -/
def farObstacle : Obstacle :=
  { x := 600, y := 280, width := 30, height := 60, speed := 3, color := "#ff6b6b", rotation := 0 }

/-- A run of 800 by 600 without notes and with three obstacles, two of them on
the player. -/
def obstaclesGame : Game :=
  { startGame wideMenu with obstacles := [onPlayerObstacle, farObstacle, onPlayerObstacle] }

/-- The games `a` and `b` agree on everything `checkCollisions` reads or
reports: notes, obstacles, score, health, melody, and place and size of the
player. -/
def SameCollisionView (a b : Game) : Prop :=
  b.notes = a.notes ∧ b.obstacles = a.obstacles ∧ b.score = a.score ∧ b.health = a.health ∧
    b.currentMelody = a.currentMelody ∧ b.player.x = a.player.x ∧ b.player.y = a.player.y ∧
    b.player.size = a.player.size

/-- The game `b` differs from the game `a` at most in the active flags and
durations of the power-up slots, in the multiplier value and in the shielded
flag of the player. -/
def PowerUpVariant (a b : Game) : Prop :=
  b = { a with
        powerUps := b.powerUps
        player := { a.player with isShielded := b.player.isShielded } } ∧
    ∀ type : PowerUpType, (b.powerUps.get type).object = (a.powerUps.get type).object

/-- The run `obstaclesGame` with a note on the player added, no power-up
active and the player not shielded. -/
def plainCollision : Game := { obstaclesGame with notes := [seededNote] }

/-- The run `plainCollision` with shield and multiplier active and the player
shielded. -/
def poweredCollision : Game :=
  { plainCollision with
    powerUps :=
      { plainCollision.powerUps with
        shield := { active := true, duration := 8000, object := none }
        multiplier := { active := true, duration := 8000, object := none }
        multiplierValue := 2 }
    player := { plainCollision.player with isShielded := true } }

/-- The shielded flag of the player agrees with the active flag of the shield
slot. -/
def ShieldFlagAgrees (g : Game) : Prop :=
  g.player.isShielded = (g.powerUps.get .shield).active

/-- The base player speed of a difficulty, as `deactivatePowerUp` computes it
(line 872): 6 for easy, 5 for normal, 4 otherwise. -/
def baseSpeed (d : Difficulty) : ℚ :=
  if d = .easy then 6 else if d = .normal then 5 else 4

/-- The player speed is the base speed of the difficulty while the speed slot
is inactive, and the base speed times a power `1.5 ^ k`, `k ≥ 1`, while it is
active. -/
def SpeedStacked (g : Game) : Prop :=
  ((g.powerUps.get .speed).active = false → g.player.speed = baseSpeed g.settings.difficulty) ∧
  ((g.powerUps.get .speed).active = true →
    ∃ k : ℕ, 1 ≤ k ∧ g.player.speed = baseSpeed g.settings.difficulty * 1.5 ^ k)

/-- The games `a` and `b` agree on the active flags of the slots, on the speed
and the shielded flag of the player, and on the settings. -/
def SamePowerView (a b : Game) : Prop :=
  (∀ type : PowerUpType, (b.powerUps.get type).active = (a.powerUps.get type).active) ∧
    b.player.speed = a.player.speed ∧ b.player.isShielded = a.player.isShielded ∧
    b.settings = a.settings

/-- The player after `activatePowerUp` (lines 847 to 857): shielded for the
shield, 1.5 times as fast for the speed kind, unchanged for the multiplier. -/
def activatedPlayer (type : PowerUpType) (p : Player) : Player :=
  match type with
  | .shield => { p with isShielded := true }
  | .speed => { p with speed := p.speed * 1.5 }
  | .multiplier => p

/-- The states reachable from the constructed game by `startGame` and `update`
steps: any canvas and window size and any star field at construction, and at
each frame any `deltaTime`, any held keys and any random draws. -/
inductive ReachableAcrossRuns : Game → Prop
  | init (canvasWidth canvasHeight innerWidth innerHeight : ℚ) (r : Draws) :
      ReachableAcrossRuns
        (createStarField
          (resizeCanvas innerWidth innerHeight (initializeGameState canvasWidth canvasHeight), r)).1
  | start (g : Game) : ReachableAcrossRuns g → ReachableAcrossRuns (startGame g)
  | step (g : Game) (deltaTime : ℚ) (keys : Keys) (r : Draws) :
      ReachableAcrossRuns g → ReachableAcrossRuns (update deltaTime ({ g with keys := keys }, r)).1

/-- The draws of a frame in which a shield collectible is spawned at mid
height: power-up test `0` (below `0.001`), kind `0` (shield), height `1/2`. -/
def shieldPickupDraws : Draws := [0, 0, 1 / 2]

/-- The first frame of a run in the 40 by 200 window, 16 ms long, with the
draws `shieldPickupDraws`: the shield collectible is spawned at `(40, 100)`,
moved to `(36, 100)` and collected by the player at `(20, 100)`. -/
def shieldedRun : Game := (update 16 (startGame narrowMenu, shieldPickupDraws)).1

/-- The run started after `shieldedRun`, as the restart button does. -/
def restartedRun : Game := startGame shieldedRun

/-- The draws of a frame in which a speed collectible is spawned at mid
height: power-up test `0` (below `0.001`), kind `1/2` (speed), height `1/2`. -/
def speedPickupDraws : Draws := [0, 1 / 2, 1 / 2]

/-- Frame `n` of a run in the 40 by 200 window (normal difficulty, base speed
5) in which every frame, 16 ms long, spawns a speed collectible at `(40, 100)`
that is moved to `(36, 100)` and collected by the player at `(20, 100)`. -/
def speedRun : Nat → Game
  | 0 => startGame narrowMenu
  | n + 1 => (update 16 (speedRun n, speedPickupDraws)).1

/-- The in-flight collectible of a kind, if the slot holds one, is not
collected by the next `updatePowerUps`: moved left by `2 * gameSpeed`, it is at
distance at least `player.size + collectible.size` from the player. -/
def NotCollected (type : PowerUpType) (g : Game) : Prop :=
  ∀ o : PowerUpObject, (g.powerUps.get type).object = some o →
    hypotLt (g.player.x - (o.x - g.gameSpeed * 2)) (g.player.y - o.y) (g.player.size + o.size) =
      false

/-- A shield collectible in flight far to the right of the player. -/
def farShieldObject : PowerUpObject :=
  { x := 700, y := 300, size := 20, type := .shield, collected := false }

/-- The run `shieldExpiring` (shielded, shield active with 5 ms left) with the
collectible `farShieldObject` in flight in the shield slot. -/
def shieldExpiringFar : Game :=
  shieldExpiring.modifySlot .shield fun p => { p with object := some farShieldObject }

/-! ## Auxiliary lemmas -/

/-- A property kept by every call of the callback is kept by the loop. -/
theorem forEach_invariant {α : Type} (arr : Game → List α) (body : α → Nat → Sim → Sim)
    (P : Sim → Prop) (hbody : ∀ a k s, P s → P (body a k s)) :
    ∀ (fuel k : Nat) (s : Sim), P s → P (forEach arr body fuel k s) := by
  intro fuel
  induction fuel with
  | zero => intro k s hs; simpa [forEach] using hs
  | succ n ih =>
    intro k s hs
    unfold forEach
    split
    · exact ih _ _ (hbody _ _ _ hs)
    · exact ih _ _ hs

/-- An effect loop changes nothing but the particles (and the draws). -/
theorem pushEffects_frame (x y : ℚ) (unread : Nat) (scale base : ℚ) (color : String) :
    ∀ (count : Nat) (s : Sim),
      ∃ ps, (pushEffects x y unread scale base color count s).1 = { s.1 with particles := ps } := by
  intro count
  induction count with
  | zero => intro s; exact ⟨s.1.particles, rfl⟩
  | succ n ih =>
    intro s
    unfold pushEffects
    obtain ⟨ps, hps⟩ := ih ({ s.1 with particles := s.1.particles ++
      [{ x := some x, y := y, size := (random (s.2.drop unread)).1 * scale + base, speed := none,
         color := color, life := 1, opacity := none }] }, (random (s.2.drop unread)).2)
    exact ⟨ps, by simpa using hps⟩

/-- The particles pushed by an effect loop leave every other field of the
game as `collectNote` and `hitObstacle` need it. -/
theorem createCollectionEffect_frame (x y : ℚ) (s : Sim) :
    ∃ ps, (createCollectionEffect x y s).1 = { s.1 with particles := ps } :=
  pushEffects_frame x y 2 5 2 "#64ffda" 10 s

/-- The damage burst changes nothing but the particles. -/
theorem createDamageEffect_frame (s : Sim) :
    ∃ ps, (createDamageEffect s).1 = { s.1 with particles := ps } :=
  pushEffects_frame s.1.player.x s.1.player.y 2 3 1 "#ff6b6b" 15 s

/-- The power-up burst changes nothing but the particles. -/
theorem createPowerUpEffect_frame (type : PowerUpType) (s : Sim) :
    ∃ ps, (createPowerUpEffect type s).1 = { s.1 with particles := ps } := by
  unfold createPowerUpEffect
  exact pushEffects_frame _ _ 0 3 2 _ 20 s

/-! ## The player stays on the canvas -/

/-- C1: on a canvas at least `2 * player.size` wide and high, whatever keys are
held and whatever the player speed, `updatePlayer` leaves the player with
`size ≤ x ≤ width - size` and `size ≤ y ≤ height - size`. -/
theorem updatePlayer_within_canvas (g : Game)
    (hw : 2 * g.player.size ≤ g.canvasWidth) (hh : 2 * g.player.size ≤ g.canvasHeight) :
    (updatePlayer g).player.size = g.player.size ∧
    (updatePlayer g).canvasWidth = g.canvasWidth ∧
    (updatePlayer g).canvasHeight = g.canvasHeight ∧
    g.player.size ≤ (updatePlayer g).player.x ∧
    (updatePlayer g).player.x ≤ g.canvasWidth - g.player.size ∧
    g.player.size ≤ (updatePlayer g).player.y ∧
    (updatePlayer g).player.y ≤ g.canvasHeight - g.player.size := by
  have h1 : g.player.size ≤ g.canvasWidth - g.player.size := by linarith
  have h2 : g.player.size ≤ g.canvasHeight - g.player.size := by linarith
  refine ⟨rfl, rfl, rfl, ?_, ?_, ?_, ?_⟩
  · exact le_max_left _ _
  · exact max_le h1 (min_le_left _ _)
  · exact le_max_left _ _
  · exact max_le h2 (min_le_left _ _)

/-- C1, at the game constructed in a window of 800 by 600 with the keys `w` and
`d` held. -/
theorem updatePlayer_within_canvas_witness :
    (2 * heldGame.player.size ≤ heldGame.canvasWidth ∧
      2 * heldGame.player.size ≤ heldGame.canvasHeight) ∧
    (updatePlayer heldGame).player.size = heldGame.player.size ∧
    (updatePlayer heldGame).canvasWidth = heldGame.canvasWidth ∧
    (updatePlayer heldGame).canvasHeight = heldGame.canvasHeight ∧
    heldGame.player.size ≤ (updatePlayer heldGame).player.x ∧
    (updatePlayer heldGame).player.x ≤ heldGame.canvasWidth - heldGame.player.size ∧
    heldGame.player.size ≤ (updatePlayer heldGame).player.y ∧
    (updatePlayer heldGame).player.y ≤ heldGame.canvasHeight - heldGame.player.size :=
  ⟨⟨by decide!, by decide!⟩, updatePlayer_within_canvas heldGame (by decide!) (by decide!)⟩

/-! ## What each step of a frame keeps -/

theorem updateStars_kept (st : GameState) (h : ℚ) (s : Sim) (hs : Kept st h s) :
    Kept st h (updateStars s) := by
  unfold updateStars
  refine forEach_invariant _ _ (Kept st h) ?_ _ _ _ hs
  intro a k t ht
  dsimp only [updateStarsBody, random]
  split_ifs <;> exact ht

theorem updateNotes_kept (st : GameState) (h : ℚ) (s : Sim) (hs : Kept st h s) :
    Kept st h (updateNotes s) := by
  unfold updateNotes
  refine forEach_invariant _ _ (Kept st h) ?_ _ _ _ hs
  intro a k t ht
  dsimp only [updateNotesBody]
  split_ifs <;> exact ht

theorem updateObstacles_kept (st : GameState) (h : ℚ) (s : Sim) (hs : Kept st h s) :
    Kept st h (updateObstacles s) := by
  unfold updateObstacles
  refine forEach_invariant _ _ (Kept st h) ?_ _ _ _ hs
  intro a k t ht
  dsimp only [updateObstaclesBody]
  split_ifs <;> exact ht

theorem updateParticles_kept (st : GameState) (h : ℚ) (s : Sim) (hs : Kept st h s) :
    Kept st h (updateParticles s) := by
  unfold updateParticles
  refine forEach_invariant _ _ (Kept st h) ?_ _ _ _ hs
  intro a k t ht
  dsimp only [updateParticlesBody]
  split_ifs <;> exact ht

theorem spawnObjects_kept (st : GameState) (h : ℚ) (deltaTime : ℚ) (s : Sim) (hs : Kept st h s) :
    Kept st h (spawnObjects deltaTime s) := by
  obtain ⟨h1, h2⟩ := hs
  unfold spawnObjects Kept
  simp only [spawnNote, spawnObstacle, spawnPowerUp, spawnParticle, random, getRandomNoteColor,
    getRandomFrequency, getRandomColor, Game.modifySlot]
  split_ifs <;> exact ⟨h1, h2⟩

theorem modifySlot_kept (st : GameState) (h : ℚ) (type : PowerUpType) (f : PowerUp → PowerUp)
    (s : Sim) (r : Draws) (hs : Kept st h s) : Kept st h (s.1.modifySlot type f, r) :=
  ⟨hs.1, hs.2⟩

theorem activatePowerUp_kept (st : GameState) (h : ℚ) (type : PowerUpType) (s : Sim)
    (hs : Kept st h s) : Kept st h (activatePowerUp type s) := by
  unfold activatePowerUp
  dsimp only
  obtain ⟨ps, hps⟩ := createPowerUpEffect_frame type
    ((match type with
      | .shield =>
        { s.1.modifySlot type fun p => { p with active := true, duration := 10000 } with
          player := { (s.1.modifySlot type fun p => { p with active := true, duration := 10000 }).player with isShielded := true } }
      | .speed =>
        { s.1.modifySlot type fun p => { p with active := true, duration := 10000 } with
          player := { (s.1.modifySlot type fun p => { p with active := true, duration := 10000 }).player with
            speed := (s.1.modifySlot type fun p => { p with active := true, duration := 10000 }).player.speed * 1.5 } }
      | .multiplier =>
        { s.1.modifySlot type fun p => { p with active := true, duration := 10000 } with
          powerUps := { (s.1.modifySlot type fun p => { p with active := true, duration := 10000 }).powerUps with multiplierValue := 2 } }), s.2)
  unfold Kept
  rw [hps]
  cases type <;> exact hs

theorem deactivatePowerUp_kept (st : GameState) (h : ℚ) (type : PowerUpType) (g : Game)
    (r : Draws) (hs : Kept st h (g, r)) : Kept st h (deactivatePowerUp type g, r) := by
  cases type <;> exact hs

theorem tickPowerUp_kept (st : GameState) (h : ℚ) (deltaTime : ℚ) (type : PowerUpType) (s : Sim)
    (hs : Kept st h s) : Kept st h (tickPowerUp deltaTime type s) := by
  unfold tickPowerUp
  dsimp only
  split_ifs
  · exact deactivatePowerUp_kept st h type _ _ (modifySlot_kept st h type _ s s.2 hs)
  · exact modifySlot_kept st h type _ s _ hs
  · exact hs

theorem movePowerUpObject_kept (st : GameState) (h : ℚ) (type : PowerUpType) (s : Sim)
    (hs : Kept st h s) : Kept st h (movePowerUpObject type s) := by
  have tail : ∀ s3 : Sim, Kept st h s3 →
      Kept st h (match (s3.1.powerUps.get type).object with
        | none => s3
        | some left =>
          if left.x < -left.size then (s3.1.modifySlot type fun p => { p with object := none }, s3.2)
          else s3) := by
    intro s3 h3
    split
    · exact h3
    · split_ifs
      · exact modifySlot_kept st h type _ s3 _ h3
      · exact h3
  unfold movePowerUpObject
  split
  · exact hs
  · dsimp only
    refine tail _ ?_
    split_ifs
    · exact modifySlot_kept st h type _ _ _
        (activatePowerUp_kept st h type _ (modifySlot_kept st h type _ s _ hs))
    · exact modifySlot_kept st h type _ s _ hs

theorem updatePowerUps_kept (st : GameState) (h : ℚ) (deltaTime : ℚ) (s : Sim)
    (hs : Kept st h s) : Kept st h (updatePowerUps deltaTime s) := by
  unfold updatePowerUps
  simp only [List.foldl, updatePowerUpsBody]
  exact movePowerUpObject_kept _ _ _ _ (tickPowerUp_kept _ _ _ _ _
    (movePowerUpObject_kept _ _ _ _ (tickPowerUp_kept _ _ _ _ _
      (movePowerUpObject_kept _ _ _ _ (tickPowerUp_kept _ _ _ _ _ hs)))))

/-! ## Collisions -/

theorem eraseIdx_set_self {α : Type} (l : List α) (i : Nat) (a : α) :
    (l.set i a).eraseIdx i = l.eraseIdx i := by
  induction l generalizing i with
  | nil => rfl
  | cons b t ih =>
    cases i with
    | zero => rfl
    | succ j => simp [ih]

/-- The game after `collectNote`, field by field. -/
theorem collectNote_fst (note : Note) (index : Nat) (s : Sim) :
    ∃ ps, (collectNote note index s).1 =
      { s.1 with
        notes := s.1.notes.eraseIdx index
        score := s.1.score + 100 +
          (if s.1.currentMelody.length + 1 > 5 then ((s.1.currentMelody.length + 1 : ℕ) : ℚ) * 10
           else 0)
        health := min 100 (s.1.health + 5)
        currentMelody := s.1.currentMelody ++ [note.frequency]
        particles := ps } := by
  obtain ⟨ps, hps⟩ := createCollectionEffect_frame note.x note.y
    ({ s.1 with
        notes := s.1.notes.set index { note with collected := true },
        score := s.1.score + 100,
        health := min 100 (s.1.health + 5),
        currentMelody := s.1.currentMelody ++ [note.frequency] }, s.2)
  refine ⟨ps, ?_⟩
  unfold collectNote
  dsimp only
  rw [hps]
  dsimp only
  simp only [List.length_append, List.length_singleton, eraseIdx_set_self]
  split_ifs
  · rfl
  · simp

/-- The game after `hitObstacle`, field by field. -/
theorem hitObstacle_fst (s : Sim) :
    ∃ ps, (hitObstacle s).1 =
      { s.1 with health := s.1.health - 20, currentMelody := [], particles := ps } := by
  obtain ⟨ps, hps⟩ := createDamageEffect_frame
    ({ s.1 with health := s.1.health - 20, currentMelody := [] }, s.2)
  exact ⟨ps, hps⟩

theorem collectNote_capped (st : GameState) (b : ℚ) (hb : 100 ≤ b) (note : Note) (index : Nat)
    (s : Sim) (hs : Capped st b s) : Capped st b (collectNote note index s) := by
  obtain ⟨ps, hps⟩ := collectNote_fst note index s
  unfold Capped
  rw [hps]
  exact ⟨hs.1, le_trans (min_le_left _ _) hb⟩

theorem hitObstacle_capped (st : GameState) (b : ℚ) (s : Sim) (hs : Capped st b s) :
    Capped st b (hitObstacle s) := by
  obtain ⟨ps, hps⟩ := hitObstacle_fst s
  unfold Capped
  rw [hps]
  refine ⟨hs.1, ?_⟩
  have := hs.2
  dsimp only
  linarith

theorem checkCollisions_capped (st : GameState) (b : ℚ) (hb : 100 ≤ b) (s : Sim)
    (hs : Capped st b s) : Capped st b (checkCollisions s) := by
  unfold checkCollisions
  dsimp only
  refine forEach_invariant _ _ (Capped st b) ?_ _ _ _ ?_
  · intro a k t ht
    unfold checkObstaclesBody
    split_ifs
    · exact hitObstacle_capped st b t ht
    · exact ht
  · refine forEach_invariant _ _ (Capped st b) ?_ _ _ _ hs
    intro a k t ht
    unfold checkNotesBody
    dsimp only
    split_ifs
    · exact collectNote_capped st b hb a k t ht
    · exact ht

theorem updateDifficulty_gameState (g : Game) : (updateDifficulty g).gameState = g.gameState := by
  unfold updateDifficulty
  dsimp only
  split_ifs <;> rfl

theorem updateDifficulty_health (g : Game) : (updateDifficulty g).health = g.health := by
  unfold updateDifficulty
  dsimp only
  split_ifs <;> rfl

/-- The game that enters the last test of `update` in mode `playing`: mode
still `playing`, health below any bound from 100 up that held before. -/
theorem update_body_capped (deltaTime : ℚ) (b : ℚ) (hb : 100 ≤ b) (s : Sim)
    (hs : s.1.gameState = .playing) (hh : s.1.health ≤ b) :
    Capped .playing b (simulationStep deltaTime s) := by
  have h0 : Kept .playing s.1.health (updatePlayer s.1, s.2) := ⟨hs, rfl⟩
  have h7 := updatePowerUps_kept _ _ deltaTime _ (updateParticles_kept _ _ _
    (updateObstacles_kept _ _ _ (updateNotes_kept _ _ _ (spawnObjects_kept _ _ deltaTime _
      (updateStars_kept _ _ _ h0)))))
  have h8 := checkCollisions_capped .playing b hb _ ⟨h7.1, by rw [h7.2]; exact hh⟩
  unfold simulationStep Capped
  dsimp only
  rw [updateDifficulty_gameState, updateDifficulty_health]
  exact h8

/-- The method `update` unfolded in mode `playing`. -/
theorem update_playing (deltaTime : ℚ) (s : Sim) (hs : s.1.gameState = .playing) :
    update deltaTime s =
      if (simulationStep deltaTime s).1.health ≤ 0 then
        (showGameOver (simulationStep deltaTime s).1, (simulationStep deltaTime s).2)
      else simulationStep deltaTime s := by
  unfold update simulationStep
  rw [if_neg (by simp [hs])]

/-- The method `update` outside mode `playing`. -/
theorem update_not_playing (deltaTime : ℚ) (s : Sim) (hs : s.1.gameState ≠ .playing) :
    update deltaTime s = s := by
  unfold update
  rw [if_pos hs]

/-! ## Health -/

/-- The states reached from `startGame` are in mode `playing` or `gameOver`,
have health at most 100, and have positive health while `playing`. -/
theorem reachable_invariant (g : Game) (hg : Reachable g) :
    g.health ≤ 100 ∧ (g.gameState = .playing → 0 < g.health) ∧
      (g.gameState = .playing ∨ g.gameState = .gameOver) := by
  induction hg with
  | start g0 =>
    have h1 : (startGame g0).health = 100 := by
      unfold startGame updateDifficultySettings
      dsimp only
      split <;> rfl
    have h2 : (startGame g0).gameState = .playing := by
      unfold startGame updateDifficultySettings
      dsimp only
      split <;> rfl
    exact ⟨by rw [h1], fun _ => by rw [h1]; norm_num, Or.inl h2⟩
  | step g0 deltaTime keys r _ ih =>
    obtain ⟨ih1, ih2, ih3⟩ := ih
    rcases ih3 with hp | ho
    · have hb := update_body_capped deltaTime 100 le_rfl ({ g0 with keys := keys }, r) hp ih1
      rw [update_playing deltaTime _ hp]
      revert hb
      generalize simulationStep deltaTime ({ g0 with keys := keys }, r) = t
      intro hb
      split_ifs with hz
      · exact ⟨hb.2, fun hc => by simp [showGameOver] at hc, Or.inr rfl⟩
      · exact ⟨hb.2, fun _ => lt_of_not_le hz, Or.inl hb.1⟩
    · have hne : ({ g0 with keys := keys }, r).1.gameState ≠ GameState.playing := by
        show g0.gameState ≠ GameState.playing
        rw [ho]; decide
      rw [update_not_playing deltaTime _ hne]
      exact ⟨ih1, fun hc => absurd hc hne, Or.inr ho⟩

theorem narrowRun_reachable : ∀ n, Reachable (narrowRun n)
  | 0 => Reachable.start narrowMenu
  | n + 1 => Reachable.step (narrowRun n) 1001 (narrowRun n).keys frameDraws (narrowRun_reachable n)

/-- C2 as amended: in every state reachable from `startGame` by `update` steps
health is at most 100, and it is positive while the mode is `playing`;
`collectNote` never leaves it above 100, and `hitObstacle` lowers it by 20
with no floor at 0. -/
theorem health_of_reachable :
    (∀ g : Game, Reachable g → g.health ≤ 100 ∧ (g.gameState = .playing → 0 < g.health)) ∧
    (∀ (note : Note) (index : Nat) (s : Sim), (collectNote note index s).1.health ≤ 100) ∧
    (∀ s : Sim, (hitObstacle s).1.health = s.1.health - 20) := by
  refine ⟨fun g hg => ⟨(reachable_invariant g hg).1, (reachable_invariant g hg).2.1⟩, ?_, ?_⟩
  · intro note index s
    obtain ⟨ps, hps⟩ := collectNote_fst note index s
    rw [hps]
    exact min_le_left _ _
  · intro s
    obtain ⟨ps, hps⟩ := hitObstacle_fst s
    rw [hps]

/-- C2 as amended, at the second frame of the reference run. -/
theorem health_of_reachable_witness :
    Reachable (narrowRun 2) ∧
      (narrowRun 2).health ≤ 100 ∧ ((narrowRun 2).gameState = .playing → 0 < (narrowRun 2).health) :=
  ⟨narrowRun_reachable 2, health_of_reachable.1 (narrowRun 2) (narrowRun_reachable 2)⟩

/-- C2 fails as stated: three frames after `startGame` in a window 40 wide and
200 high, with an obstacle spawned on the player at every frame, the state is
reachable and its health is `-20`, outside `[0, 100]`. -/
theorem health_below_zero_reachable :
    Reachable (narrowRun 3) ∧ (narrowRun 3).health = -20 ∧
      ¬ (0 ≤ (narrowRun 3).health ∧ (narrowRun 3).health ≤ 100) := by
  have h : (narrowRun 3).health = -20 := by decide!
  refine ⟨narrowRun_reachable 3, h, ?_⟩
  rw [h]
  norm_num

/-! ## Mode -/

/-- C3: from mode `playing`, `update` ends in mode `gameOver` when the
resulting health is at most 0 and in mode `playing` otherwise; from mode
`gameOver`, `update` and any sequence of further frames change nothing. -/
theorem update_gameOver_transition :
    (∀ (deltaTime : ℚ) (s : Sim), s.1.gameState = .playing →
      (update deltaTime s).1.gameState =
        if (update deltaTime s).1.health ≤ 0 then GameState.gameOver else GameState.playing) ∧
    (∀ (deltaTime : ℚ) (s : Sim), s.1.gameState = .gameOver → update deltaTime s = s) ∧
    (∀ (frames : List ℚ) (s : Sim), s.1.gameState = .gameOver → updates frames s = s) := by
  have hover : ∀ (deltaTime : ℚ) (s : Sim), s.1.gameState = .gameOver → update deltaTime s = s := by
    intro deltaTime s hs
    exact update_not_playing deltaTime s (by rw [hs]; decide)
  refine ⟨?_, hover, ?_⟩
  · intro deltaTime s hs
    have hb := update_body_capped deltaTime (max 100 s.1.health) (le_max_left _ _) s hs
      (le_max_right _ _)
    rw [update_playing deltaTime s hs]
    revert hb
    generalize simulationStep deltaTime s = t
    intro hb
    by_cases hz : t.1.health ≤ 0
    · rw [if_pos hz]
      have hz2 : (showGameOver t.1, t.2).1.health ≤ 0 := hz
      rw [if_pos hz2]
      rfl
    · rw [if_neg hz, if_neg hz]
      exact hb.1
  · intro frames
    induction frames with
    | nil => intro s _; rfl
    | cons deltaTime rest ih =>
      intro s hs
      show updates rest (update deltaTime s) = s
      rw [hover deltaTime s hs]
      exact ih s hs

/-- C3, at the third frame of the reference run, where health falls to `-20`. -/
theorem update_gameOver_transition_witness :
    (narrowRun 2).gameState = .playing ∧
      (update 1001 (narrowRun 2, frameDraws)).1.gameState =
        if (update 1001 (narrowRun 2, frameDraws)).1.health ≤ 0 then GameState.gameOver
        else GameState.playing :=
  ⟨by decide!, update_gameOver_transition.1 1001 (narrowRun 2, frameDraws) (by decide!)⟩

/-- C4: outside mode `playing`, `update` returns the state it was given, with
every field (and the pending random draws) as before. -/
theorem update_inert_outside_playing (deltaTime : ℚ) (s : Sim)
    (hs : s.1.gameState ≠ .playing) : update deltaTime s = s :=
  update_not_playing deltaTime s hs

/-- C4, at the menu of the reference run. -/
theorem update_inert_outside_playing_witness :
    narrowMenu.gameState ≠ .playing ∧ update 16 (narrowMenu, frameDraws) = (narrowMenu, frameDraws) :=
  ⟨by decide!, update_inert_outside_playing 16 (narrowMenu, frameDraws) (by decide!)⟩

/-! ## Collecting and colliding -/

/-- C5: when `note` is the live note at index `i`, `collectNote note i` leaves
the notes list equal to the old one with the element at `i` erased (one
shorter, the notes before `i` in place and those after it moved down by one),
raises the score by at least 100, and appends the note's frequency to the
melody, whose length does not decrease. -/
theorem collectNote_removes_and_scores (note : Note) (i : Nat) (s : Sim)
    (hi : s.1.notes[i]? = some note) :
    (collectNote note i s).1.notes = s.1.notes.eraseIdx i ∧
    (collectNote note i s).1.notes.length + 1 = s.1.notes.length ∧
    (∀ j, j < i → (collectNote note i s).1.notes[j]? = s.1.notes[j]?) ∧
    (∀ j, i ≤ j → (collectNote note i s).1.notes[j]? = s.1.notes[j + 1]?) ∧
    s.1.score + 100 ≤ (collectNote note i s).1.score ∧
    (collectNote note i s).1.currentMelody = s.1.currentMelody ++ [note.frequency] ∧
    s.1.currentMelody.length ≤ (collectNote note i s).1.currentMelody.length := by
  obtain ⟨ps, hps⟩ := collectNote_fst note i s
  have hlt : i < s.1.notes.length := by
    by_contra hge
    rw [List.getElem?_eq_none (not_lt.mp hge)] at hi
    exact Option.noConfusion hi
  rw [hps]
  dsimp only
  refine ⟨rfl, ?_, ?_, ?_, ?_, rfl, ?_⟩
  · have := List.length_eraseIdx_of_lt hlt
    omega
  · intro j hj
    exact List.getElem?_eraseIdx_of_lt _ _ _ hj
  · intro j hj
    exact List.getElem?_eraseIdx_of_ge _ _ _ hj
  · split_ifs
    · have : (0 : ℚ) ≤ ((s.1.currentMelody.length + 1 : ℕ) : ℚ) * 10 := by positivity
      linarith
    · linarith
  · simp

/-- C5, at the first note of the seeded run. -/
theorem collectNote_removes_and_scores_witness :
    seededGame.notes[0]? = some seededNote ∧
    (collectNote seededNote 0 (seededGame, [])).1.notes.length + 1 = seededGame.notes.length :=
  ⟨rfl, (collectNote_removes_and_scores seededNote 0 (seededGame, []) rfl).2.1⟩

/-- C6: with a melody of length `n` before the collection, `collectNote` raises
the score by exactly 100 when `n + 1 ≤ 5` and by exactly `100 + 10 * (n + 1)`
when `n + 1 > 5`; with `n = 5` the score rises by 160. -/
theorem collectNote_score_bonus (note : Note) (i : Nat) (s : Sim) :
    (s.1.currentMelody.length + 1 ≤ 5 →
      (collectNote note i s).1.score = s.1.score + 100) ∧
    (s.1.currentMelody.length + 1 > 5 →
      (collectNote note i s).1.score =
        s.1.score + (100 + 10 * ((s.1.currentMelody.length : ℚ) + 1))) ∧
    (s.1.currentMelody.length = 5 → (collectNote note i s).1.score = s.1.score + 160) := by
  obtain ⟨ps, hps⟩ := collectNote_fst note i s
  rw [hps]
  dsimp only
  refine ⟨?_, ?_, ?_⟩
  · intro h
    rw [if_neg (by omega)]
    ring
  · intro h
    rw [if_pos h]
    push_cast
    ring
  · intro h
    rw [if_pos (by omega), h]
    norm_num
    ring

/-- C6, at the seeded run, whose melody has five tones. -/
theorem collectNote_score_bonus_witness :
    seededGame.currentMelody.length = 5 ∧
    (collectNote seededNote 0 (seededGame, [])).1.score = seededGame.score + 160 :=
  ⟨rfl, (collectNote_score_bonus seededNote 0 (seededGame, [])).2.2 rfl⟩

/-- C7: `hitObstacle` leaves health equal to the old health minus 20 and the
melody empty, whatever they were, and leaves score, level, game speed, notes
and obstacles as they were. -/
theorem hitObstacle_effect (s : Sim) :
    (hitObstacle s).1.health = s.1.health - 20 ∧
    (hitObstacle s).1.currentMelody = [] ∧
    (hitObstacle s).1.score = s.1.score ∧
    (hitObstacle s).1.level = s.1.level ∧
    (hitObstacle s).1.gameSpeed = s.1.gameSpeed ∧
    (hitObstacle s).1.notes = s.1.notes ∧
    (hitObstacle s).1.obstacles = s.1.obstacles := by
  obtain ⟨ps, hps⟩ := hitObstacle_fst s
  rw [hps]
  exact ⟨rfl, rfl, rfl, rfl, rfl, rfl, rfl⟩

/-! ## Difficulty -/

/-- C8 as amended: `updateDifficulty` raises the game speed by one step of 0.5
when the level rises, whatever the number of levels gained, and changes
nothing when the level does not rise. -/
theorem updateDifficulty_single_step (g : Game) :
    (((⌊g.score / 1000⌋ : ℤ) : ℚ) + 1 > g.level →
      (updateDifficulty g).level = ((⌊g.score / 1000⌋ : ℤ) : ℚ) + 1 ∧
      (updateDifficulty g).gameSpeed = g.gameSpeed + 0.5) ∧
    (¬ ((⌊g.score / 1000⌋ : ℤ) : ℚ) + 1 > g.level → updateDifficulty g = g) := by
  unfold updateDifficulty
  dsimp only
  constructor
  · intro h
    rw [if_pos h]
    exact ⟨rfl, rfl⟩
  · intro h
    rw [if_neg h]

/-- C8 as amended, at a fresh run with score 2500: two levels gained, one step. -/
theorem updateDifficulty_single_step_witness :
    ((⌊freshRun2500.score / 1000⌋ : ℤ) : ℚ) + 1 > freshRun2500.level ∧
    (updateDifficulty freshRun2500).level = ((⌊freshRun2500.score / 1000⌋ : ℤ) : ℚ) + 1 ∧
    (updateDifficulty freshRun2500).gameSpeed = freshRun2500.gameSpeed + 0.5 :=
  ⟨by decide!, (updateDifficulty_single_step freshRun2500).1 (by decide!)⟩

/-- C8 fails as stated: from a fresh run (level 1, game speed 2) with score
2500, `updateDifficulty` yields level 3 and game speed 2.5, not 3.0, and a
second call changes nothing. -/
theorem updateDifficulty_2500_speed :
    freshRun2500.level = 1 ∧ freshRun2500.gameSpeed = 2 ∧ freshRun2500.score = 2500 ∧
    (updateDifficulty freshRun2500).level = 3 ∧
    (updateDifficulty freshRun2500).gameSpeed = 2.5 ∧
    (updateDifficulty freshRun2500).gameSpeed ≠ 3 ∧
    updateDifficulty (updateDifficulty freshRun2500) = updateDifficulty freshRun2500 := by
  decide!

/-! ## Restart -/

/-- C9: after `startGame`, whatever the state before, the mode is `playing`;
notes, obstacles, particles, melody and trail are empty; every power-up slot is
inactive with duration 0 and no collectible; score is 0, health 100, level 1;
and the game speed is fixed by the difficulty setting alone (1.6 for easy, 2
for normal, 3 for hard, 2 for any other value). -/
theorem startGame_resets (g : Game) :
    (startGame g).gameState = .playing ∧
    (startGame g).notes = [] ∧
    (startGame g).obstacles = [] ∧
    (startGame g).particles = [] ∧
    (startGame g).currentMelody = [] ∧
    (startGame g).player.trail = [] ∧
    (∀ type : PowerUpType,
      (startGame g).powerUps.get type = { active := false, duration := 0, object := none }) ∧
    (startGame g).score = 0 ∧
    (startGame g).health = 100 ∧
    (startGame g).level = 1 ∧
    (startGame g).gameSpeed =
      (match g.settings.difficulty with
        | .easy => 1.6
        | .normal => 2
        | .hard => 3
        | .other => 2) ∧
    (∀ g2 : Game, g2.settings.difficulty = g.settings.difficulty →
      (startGame g2).gameSpeed = (startGame g).gameSpeed) := by
  have hspeed : ∀ g1 : Game, (startGame g1).gameSpeed =
      (match g1.settings.difficulty with
        | .easy => (1.6 : ℚ)
        | .normal => 2
        | .hard => 3
        | .other => 2) := by
    intro g1
    cases hd : g1.settings.difficulty <;>
      simp [startGame, updateDifficultySettings, Game.modifySlot, PowerUps.set, hd] <;> norm_num
  refine ⟨?_, ?_, ?_, ?_, ?_, ?_, ?_, ?_, ?_, ?_, hspeed g, ?_⟩
  iterate 6
    cases hd : g.settings.difficulty <;>
      simp [startGame, updateDifficultySettings, Game.modifySlot, PowerUps.set, hd]
  · intro type
    cases hd : g.settings.difficulty <;> cases type <;>
      simp [startGame, updateDifficultySettings, Game.modifySlot, PowerUps.set, PowerUps.get, hd]
  iterate 3
    cases hd : g.settings.difficulty <;>
      simp [startGame, updateDifficultySettings, Game.modifySlot, PowerUps.set, hd]
  · intro g2 h2
    rw [hspeed g2, hspeed g, h2]

/-! ## Power-ups -/

theorem get_set_same (p : PowerUps) (t : PowerUpType) (v : PowerUp) : (p.set t v).get t = v := by
  cases t <;> rfl

theorem get_set_other (p : PowerUps) (t u : PowerUpType) (v : PowerUp) (h : u ≠ t) :
    (p.set t v).get u = p.get u := by
  cases t <;> cases u <;> first | rfl | exact absurd rfl h

theorem createPowerUpEffect_powerUps (type : PowerUpType) (s : Sim) :
    (createPowerUpEffect type s).1.powerUps = s.1.powerUps := by
  obtain ⟨ps, hps⟩ := createPowerUpEffect_frame type s
  rw [hps]

theorem createPowerUpEffect_player (type : PowerUpType) (s : Sim) :
    (createPowerUpEffect type s).1.player = s.1.player := by
  obtain ⟨ps, hps⟩ := createPowerUpEffect_frame type s
  rw [hps]

theorem createPowerUpEffect_gameSpeed (type : PowerUpType) (s : Sim) :
    (createPowerUpEffect type s).1.gameSpeed = s.1.gameSpeed := by
  obtain ⟨ps, hps⟩ := createPowerUpEffect_frame type s
  rw [hps]

/-- The slot that `activatePowerUp` activates. -/
theorem activatePowerUp_slot (type : PowerUpType) (s : Sim) :
    (activatePowerUp type s).1.powerUps.get type =
      { s.1.powerUps.get type with active := true, duration := 10000 } := by
  unfold activatePowerUp
  dsimp only
  rw [createPowerUpEffect_powerUps]
  cases type <;> rfl

/-- The slots that `activatePowerUp` does not touch. -/
theorem activatePowerUp_other (type t : PowerUpType) (s : Sim) (h : t ≠ type) :
    (activatePowerUp type s).1.powerUps.get t = s.1.powerUps.get t := by
  unfold activatePowerUp
  dsimp only
  rw [createPowerUpEffect_powerUps]
  cases type <;> cases t <;> first | rfl | exact absurd rfl h

/-- Activation keeps the speed of the game and the place and size of the player. -/
theorem activatePowerUp_geometry (type : PowerUpType) (s : Sim) :
    SameGeometry (activatePowerUp type s).1 s.1 := by
  unfold activatePowerUp SameGeometry
  dsimp only
  rw [createPowerUpEffect_player, createPowerUpEffect_gameSpeed]
  cases type <;> exact ⟨rfl, rfl, rfl, rfl⟩

theorem tickPowerUp_geometry (deltaTime : ℚ) (type : PowerUpType) (s : Sim) :
    SameGeometry (tickPowerUp deltaTime type s).1 s.1 := by
  unfold tickPowerUp SameGeometry
  dsimp only
  split_ifs
  · cases type <;> exact ⟨rfl, rfl, rfl, rfl⟩
  · exact ⟨rfl, rfl, rfl, rfl⟩
  · exact ⟨rfl, rfl, rfl, rfl⟩

/-- The countdown of a slot keeps the collectible of every slot. -/
theorem tickPowerUp_object (deltaTime : ℚ) (type t : PowerUpType) (s : Sim) :
    ((tickPowerUp deltaTime type s).1.powerUps.get t).object = (s.1.powerUps.get t).object := by
  unfold tickPowerUp
  dsimp only
  split_ifs
  · cases type <;> cases t <;> rfl
  · cases type <;> cases t <;> rfl
  · rfl

/-- The countdown of a slot keeps the other slots. -/
theorem tickPowerUp_other (deltaTime : ℚ) (type t : PowerUpType) (s : Sim) (h : t ≠ type) :
    (tickPowerUp deltaTime type s).1.powerUps.get t = s.1.powerUps.get t := by
  unfold tickPowerUp
  dsimp only
  split_ifs
  · cases type <;> cases t <;> first | rfl | exact absurd rfl h
  · cases type <;> cases t <;> first | rfl | exact absurd rfl h
  · rfl

/-- A slot without collectible is left alone by the second half of the callback. -/
theorem movePowerUpObject_none (type : PowerUpType) (s : Sim)
    (ho : (s.1.powerUps.get type).object = none) : movePowerUpObject type s = s := by
  unfold movePowerUpObject
  rw [ho]

/-- The state after the collection test of `movePowerUpObject`, for a slot
holding the collectible `o`. -/
theorem movePowerUpObject_some (type : PowerUpType) (s : Sim) (o : PowerUpObject)
    (ho : (s.1.powerUps.get type).object = some o) :
    ∃ s3 : Sim,
      (s3 = ((activatePowerUp type
                (s.1.modifySlot type fun p =>
                  { p with object := some { o with x := o.x - s.1.gameSpeed * 2 } }, s.2)).1.modifySlot
              type fun p => { p with object := none },
             (activatePowerUp type
                (s.1.modifySlot type fun p =>
                  { p with object := some { o with x := o.x - s.1.gameSpeed * 2 } }, s.2)).2) ∧
          hypotLt (s.1.player.x - (o.x - s.1.gameSpeed * 2)) (s.1.player.y - o.y)
            (s.1.player.size + o.size) = true
        ∨
        s3 = (s.1.modifySlot type fun p =>
                { p with object := some { o with x := o.x - s.1.gameSpeed * 2 } }, s.2) ∧
          hypotLt (s.1.player.x - (o.x - s.1.gameSpeed * 2)) (s.1.player.y - o.y)
            (s.1.player.size + o.size) = false) ∧
      (movePowerUpObject type s = s3 ∨
        movePowerUpObject type s = (s3.1.modifySlot type fun p => { p with object := none }, s3.2)) := by
  unfold movePowerUpObject
  rw [ho]
  dsimp only
  by_cases hd : hypotLt (s.1.player.x - (o.x - s.1.gameSpeed * 2)) (s.1.player.y - o.y)
      (s.1.player.size + o.size) = true
  · refine ⟨_, Or.inl ⟨rfl, hd⟩, ?_⟩
    have hd2 : hypotLt ((s.1.modifySlot type fun p =>
        { p with object := some { o with x := o.x - s.1.gameSpeed * 2 } }).player.x -
          (o.x - s.1.gameSpeed * 2))
        ((s.1.modifySlot type fun p =>
          { p with object := some { o with x := o.x - s.1.gameSpeed * 2 } }).player.y - o.y)
        ((s.1.modifySlot type fun p =>
          { p with object := some { o with x := o.x - s.1.gameSpeed * 2 } }).player.size + o.size)
        = true := hd
    rw [if_pos hd2]
    split
    · exact Or.inl rfl
    · split_ifs
      · exact Or.inr rfl
      · exact Or.inl rfl
  · have hf : hypotLt (s.1.player.x - (o.x - s.1.gameSpeed * 2)) (s.1.player.y - o.y)
        (s.1.player.size + o.size) = false := by
      simpa using hd
    refine ⟨_, Or.inr ⟨rfl, hf⟩, ?_⟩
    have hd2 : ¬ hypotLt ((s.1.modifySlot type fun p =>
        { p with object := some { o with x := o.x - s.1.gameSpeed * 2 } }).player.x -
          (o.x - s.1.gameSpeed * 2))
        ((s.1.modifySlot type fun p =>
          { p with object := some { o with x := o.x - s.1.gameSpeed * 2 } }).player.y - o.y)
        ((s.1.modifySlot type fun p =>
          { p with object := some { o with x := o.x - s.1.gameSpeed * 2 } }).player.size + o.size)
        = true := hd
    rw [if_neg hd2]
    split
    · exact Or.inl rfl
    · split_ifs
      · exact Or.inr rfl
      · exact Or.inl rfl

theorem modifySlot_get_same (g : Game) (type : PowerUpType) (f : PowerUp → PowerUp) :
    (g.modifySlot type f).powerUps.get type = f (g.powerUps.get type) :=
  get_set_same _ _ _

theorem modifySlot_get_other (g : Game) (type t : PowerUpType) (f : PowerUp → PowerUp)
    (h : t ≠ type) : (g.modifySlot type f).powerUps.get t = g.powerUps.get t :=
  get_set_other _ _ _ _ h

theorem sameGeometry_trans {a b c : Game} (h1 : SameGeometry a b) (h2 : SameGeometry b c) :
    SameGeometry a c :=
  ⟨h1.1.trans h2.1, h1.2.1.trans h2.2.1, h1.2.2.1.trans h2.2.2.1, h1.2.2.2.trans h2.2.2.2⟩

theorem modifySlot_geometry (g : Game) (type : PowerUpType) (f : PowerUp → PowerUp) :
    SameGeometry (g.modifySlot type f) g :=
  ⟨rfl, rfl, rfl, rfl⟩

/-- The second half of the callback keeps the other slots. -/
theorem movePowerUpObject_other (type t : PowerUpType) (s : Sim) (h : t ≠ type) :
    (movePowerUpObject type s).1.powerUps.get t = s.1.powerUps.get t := by
  cases ho : (s.1.powerUps.get type).object with
  | none => rw [movePowerUpObject_none type s ho]
  | some o =>
    obtain ⟨s3, h3, hfin⟩ := movePowerUpObject_some type s o ho
    have hs3 : s3.1.powerUps.get t = s.1.powerUps.get t := by
      rcases h3 with ⟨h3, _⟩ | ⟨h3, _⟩
      · rw [h3]
        show (Game.modifySlot _ type _).powerUps.get t = _
        rw [modifySlot_get_other _ _ _ _ h, activatePowerUp_other _ _ _ h]
        exact modifySlot_get_other _ _ _ _ h
      · rw [h3]
        exact modifySlot_get_other _ _ _ _ h
    rcases hfin with hfin | hfin
    · rw [hfin, hs3]
    · rw [hfin]
      show (Game.modifySlot _ type _).powerUps.get t = _
      rw [modifySlot_get_other _ _ _ _ h, hs3]

/-- The second half of the callback keeps game speed and player geometry. -/
theorem movePowerUpObject_geometry (type : PowerUpType) (s : Sim) :
    SameGeometry (movePowerUpObject type s).1 s.1 := by
  cases ho : (s.1.powerUps.get type).object with
  | none =>
    rw [movePowerUpObject_none type s ho]
    exact ⟨rfl, rfl, rfl, rfl⟩
  | some o =>
    obtain ⟨s3, h3, hfin⟩ := movePowerUpObject_some type s o ho
    have hs3 : SameGeometry s3.1 s.1 := by
      rcases h3 with ⟨h3, _⟩ | ⟨h3, _⟩
      · rw [h3]
        exact sameGeometry_trans (modifySlot_geometry _ _ _)
          (sameGeometry_trans (activatePowerUp_geometry _ _) (modifySlot_geometry _ _ _))
      · rw [h3]
        exact modifySlot_geometry _ _ _
    rcases hfin with hfin | hfin
    · rw [hfin]
      exact hs3
    · rw [hfin]
      exact sameGeometry_trans (modifySlot_geometry _ _ _) hs3

/-- A collectible within reach of the player activates its slot and is cleared. -/
theorem movePowerUpObject_activates (type : PowerUpType) (s : Sim) (o : PowerUpObject)
    (ho : (s.1.powerUps.get type).object = some o)
    (hd : hypotLt (s.1.player.x - (o.x - s.1.gameSpeed * 2)) (s.1.player.y - o.y)
      (s.1.player.size + o.size) = true) :
    (movePowerUpObject type s).1.powerUps.get type =
      { active := true, duration := 10000, object := none } := by
  obtain ⟨s3, h3, hfin⟩ := movePowerUpObject_some type s o ho
  have hs3 : s3.1.powerUps.get type = { active := true, duration := 10000, object := none } := by
    rcases h3 with ⟨h3, _⟩ | ⟨_, hf⟩
    · rw [h3]
      show (Game.modifySlot _ type _).powerUps.get type = _
      rw [modifySlot_get_same, activatePowerUp_slot]
    · rw [hd] at hf
      exact Bool.noConfusion hf
  rcases hfin with hfin | hfin
  · rw [hfin, hs3]
  · rw [hfin]
    show (Game.modifySlot _ type _).powerUps.get type = _
    rw [modifySlot_get_same, hs3]

/-- The slot after its countdown, as a function of the slot before. -/
theorem tickPowerUp_slot (deltaTime : ℚ) (type : PowerUpType) (s : Sim) :
    (tickPowerUp deltaTime type s).1.powerUps.get type =
      if (s.1.powerUps.get type).active then
        { s.1.powerUps.get type with
          active := decide (¬ (s.1.powerUps.get type).duration - deltaTime ≤ 0)
          duration := (s.1.powerUps.get type).duration - deltaTime }
      else s.1.powerUps.get type := by
  unfold tickPowerUp
  dsimp only
  by_cases ha : (s.1.powerUps.get type).active = true
  · rw [if_pos ha, if_pos ha, modifySlot_get_same]
    dsimp only
    by_cases hz : (s.1.powerUps.get type).duration - deltaTime ≤ 0
    · rw [if_pos hz]
      cases type <;> simp [deactivatePowerUp, Game.modifySlot, PowerUps.get, PowerUps.set] <;>
        simpa [PowerUps.get] using hz
    · rw [if_neg hz]
      simp [modifySlot_get_same, hz, ha]
  · rw [if_neg ha, if_neg ha]

/-- The callback of `updatePowerUps` keeps the other slots. -/
theorem updatePowerUpsBody_other (deltaTime : ℚ) (type t : PowerUpType) (s : Sim) (h : t ≠ type) :
    (updatePowerUpsBody deltaTime type s).1.powerUps.get t = s.1.powerUps.get t := by
  unfold updatePowerUpsBody
  rw [movePowerUpObject_other _ _ _ h, tickPowerUp_other _ _ _ _ h]

/-- The callback of `updatePowerUps` keeps game speed and player geometry. -/
theorem updatePowerUpsBody_geometry (deltaTime : ℚ) (type : PowerUpType) (s : Sim) :
    SameGeometry (updatePowerUpsBody deltaTime type s).1 s.1 :=
  sameGeometry_trans (movePowerUpObject_geometry _ _) (tickPowerUp_geometry _ _ _)

/-- The callback of `updatePowerUps` on a slot whose collectible is in reach. -/
theorem updatePowerUpsBody_activates (deltaTime : ℚ) (type : PowerUpType) (s : Sim)
    (o : PowerUpObject) (ho : (s.1.powerUps.get type).object = some o)
    (hd : hypotLt (s.1.player.x - (o.x - s.1.gameSpeed * 2)) (s.1.player.y - o.y)
      (s.1.player.size + o.size) = true) :
    (updatePowerUpsBody deltaTime type s).1.powerUps.get type =
      { active := true, duration := 10000, object := none } := by
  unfold updatePowerUpsBody
  obtain ⟨g1, g2, g3, g4⟩ := tickPowerUp_geometry deltaTime type s
  refine movePowerUpObject_activates type _ o ?_ ?_
  · rw [tickPowerUp_object, ho]
  · rw [g1, g2, g3, g4]
    exact hd

/-- The callback of `updatePowerUps` on a slot without collectible: only the
countdown. -/
theorem updatePowerUpsBody_none (deltaTime : ℚ) (type : PowerUpType) (s : Sim)
    (ho : (s.1.powerUps.get type).object = none) :
    (updatePowerUpsBody deltaTime type s).1.powerUps.get type =
      (tickPowerUp deltaTime type s).1.powerUps.get type := by
  unfold updatePowerUpsBody
  rw [movePowerUpObject_none]
  rw [tickPowerUp_object, ho]

theorem updatePowerUps_eq (deltaTime : ℚ) (s : Sim) :
    updatePowerUps deltaTime s =
      updatePowerUpsBody deltaTime .multiplier
        (updatePowerUpsBody deltaTime .speed (updatePowerUpsBody deltaTime .shield s)) := rfl

/-- The slot of a kind without collectible after `updatePowerUps`: only its
countdown has run. -/
theorem updatePowerUps_none (deltaTime : ℚ) (type : PowerUpType) (s : Sim)
    (ho : (s.1.powerUps.get type).object = none) :
    (updatePowerUps deltaTime s).1.powerUps.get type =
      if (s.1.powerUps.get type).active then
        { s.1.powerUps.get type with
          active := decide (¬ (s.1.powerUps.get type).duration - deltaTime ≤ 0)
          duration := (s.1.powerUps.get type).duration - deltaTime }
      else s.1.powerUps.get type := by
  rw [updatePowerUps_eq]
  cases type with
  | shield =>
    rw [updatePowerUpsBody_other _ _ _ _ (by decide), updatePowerUpsBody_other _ _ _ _ (by decide),
      updatePowerUpsBody_none _ _ _ ho, tickPowerUp_slot]
  | speed =>
    have h1 := updatePowerUpsBody_other deltaTime .shield .speed s (by decide)
    rw [updatePowerUpsBody_other _ _ _ _ (by decide),
      updatePowerUpsBody_none _ _ _ (by rw [h1]; exact ho), tickPowerUp_slot, h1]
  | multiplier =>
    have h1 := updatePowerUpsBody_other deltaTime .shield .multiplier s (by decide)
    have h2 := updatePowerUpsBody_other deltaTime .speed .multiplier
      (updatePowerUpsBody deltaTime .shield s) (by decide)
    rw [updatePowerUpsBody_none _ _ _ (by rw [h2, h1]; exact ho), tickPowerUp_slot, h2, h1]

/-- C10: when the in-flight collectible of a kind, moved left by
`2 * gameSpeed`, is at distance less than `player.size + collectible.size` from
the player, `updatePowerUps` leaves that slot active with duration exactly
10000 and no collectible; and a slot without collectible is never activated by
`updatePowerUps`: its collectible stays absent, an inactive slot stays
inactive, and its duration is only counted down. -/
theorem updatePowerUps_activates_once (deltaTime : ℚ) (s : Sim) (type : PowerUpType)
    (o : PowerUpObject) (ho : (s.1.powerUps.get type).object = some o)
    (hd : hypotLt (s.1.player.x - (o.x - s.1.gameSpeed * 2)) (s.1.player.y - o.y)
      (s.1.player.size + o.size) = true) :
    (updatePowerUps deltaTime s).1.powerUps.get type =
      { active := true, duration := 10000, object := none } ∧
    (∀ (later : ℚ) (s2 : Sim), (s2.1.powerUps.get type).object = none →
      ((updatePowerUps later s2).1.powerUps.get type).object = none ∧
      (((updatePowerUps later s2).1.powerUps.get type).active = true →
        (s2.1.powerUps.get type).active = true) ∧
      ((updatePowerUps later s2).1.powerUps.get type).duration =
        if (s2.1.powerUps.get type).active then (s2.1.powerUps.get type).duration - later
        else (s2.1.powerUps.get type).duration) := by
  constructor
  · rw [updatePowerUps_eq]
    cases type with
    | shield =>
      rw [updatePowerUpsBody_other _ _ _ _ (by decide),
        updatePowerUpsBody_other _ _ _ _ (by decide)]
      exact updatePowerUpsBody_activates deltaTime .shield s o ho hd
    | speed =>
      have h1 := updatePowerUpsBody_other deltaTime .shield .speed s (by decide)
      obtain ⟨g1, g2, g3, g4⟩ := updatePowerUpsBody_geometry deltaTime .shield s
      rw [updatePowerUpsBody_other _ _ _ _ (by decide)]
      refine updatePowerUpsBody_activates deltaTime .speed _ o (by rw [h1]; exact ho) ?_
      rw [g1, g2, g3, g4]
      exact hd
    | multiplier =>
      have h1 := updatePowerUpsBody_other deltaTime .shield .multiplier s (by decide)
      have h2 := updatePowerUpsBody_other deltaTime .speed .multiplier
        (updatePowerUpsBody deltaTime .shield s) (by decide)
      obtain ⟨g1, g2, g3, g4⟩ := sameGeometry_trans
        (updatePowerUpsBody_geometry deltaTime .speed (updatePowerUpsBody deltaTime .shield s))
        (updatePowerUpsBody_geometry deltaTime .shield s)
      refine updatePowerUpsBody_activates deltaTime .multiplier _ o (by rw [h2, h1]; exact ho) ?_
      rw [g1, g2, g3, g4]
      exact hd
  · intro later s2 h2
    rw [updatePowerUps_none later type s2 h2]
    by_cases ha : (s2.1.powerUps.get type).active = true
    · rw [if_pos ha, if_pos ha]
      exact ⟨h2, fun _ => ha, rfl⟩
    · rw [if_neg ha, if_neg ha]
      exact ⟨h2, fun h => absurd h ha, rfl⟩

/-- C10, at a run of 800 by 600 with a shield collectible ten pixels right of
the player. -/
theorem updatePowerUps_activates_once_witness :
    (shieldInReach.powerUps.get .shield).object = some shieldObject ∧
    hypotLt (shieldInReach.player.x - (shieldObject.x - shieldInReach.gameSpeed * 2))
      (shieldInReach.player.y - shieldObject.y)
      (shieldInReach.player.size + shieldObject.size) = true ∧
    (updatePowerUps 16 (shieldInReach, [])).1.powerUps.get .shield =
      { active := true, duration := 10000, object := none } :=
  ⟨rfl, by decide!,
    (updatePowerUps_activates_once 16 (shieldInReach, []) .shield shieldObject rfl (by decide!)).1⟩

/-! ## Frames: the fields each step may change -/

/-- A property kept by every call of the callback on an element that the loop
really visits is kept by the loop. -/
theorem forEach_invariant_visited {α : Type} (arr : Game → List α)
    (body : α → Nat → Sim → Sim) (P : Sim → Prop)
    (hbody : ∀ a k s, P s → (arr s.1)[k]? = some a → P (body a k s)) :
    ∀ (fuel k : Nat) (s : Sim), P s → P (forEach arr body fuel k s) := by
  intro fuel
  induction fuel with
  | zero => intro k s hs; simpa [forEach] using hs
  | succ n ih =>
    intro k s hs
    unfold forEach
    split
    · next a ha => exact ih _ _ (hbody _ _ _ hs ha)
    · exact ih _ _ hs

/-- The method `updateStars` changes nothing but the stars. -/
theorem updateStars_frame (s : Sim) :
    ∃ stars, (updateStars s).1 = { s.1 with stars := stars } := by
  unfold updateStars
  refine forEach_invariant _ _ (fun t => ∃ stars, t.1 = { s.1 with stars := stars }) ?_ _ _ _
    ⟨s.1.stars, rfl⟩
  rintro a k t ⟨stars, ht⟩
  dsimp only [updateStarsBody, random]
  split_ifs
  · exact ⟨_, by rw [ht]⟩
  · exact ⟨_, by rw [ht]⟩

/-- The method `updateNotes` changes nothing but the notes. -/
theorem updateNotes_frame (s : Sim) :
    ∃ notes, (updateNotes s).1 = { s.1 with notes := notes } ∧ (updateNotes s).2 = s.2 := by
  unfold updateNotes
  refine forEach_invariant _ _ (fun t => ∃ notes, t.1 = { s.1 with notes := notes } ∧ t.2 = s.2)
    ?_ _ _ _ ⟨s.1.notes, rfl, rfl⟩
  rintro a k t ⟨notes, ht, hr⟩
  dsimp only [updateNotesBody]
  split_ifs
  · exact ⟨_, by rw [ht], hr⟩
  · exact ⟨_, by rw [ht], hr⟩

/-- The method `updateObstacles` changes nothing but the obstacles. -/
theorem updateObstacles_frame (s : Sim) :
    ∃ obstacles, (updateObstacles s).1 = { s.1 with obstacles := obstacles } ∧
      (updateObstacles s).2 = s.2 := by
  unfold updateObstacles
  refine forEach_invariant _ _
    (fun t => ∃ obstacles, t.1 = { s.1 with obstacles := obstacles } ∧ t.2 = s.2)
    ?_ _ _ _ ⟨s.1.obstacles, rfl, rfl⟩
  rintro a k t ⟨obstacles, ht, hr⟩
  dsimp only [updateObstaclesBody]
  split_ifs
  · exact ⟨_, by rw [ht], hr⟩
  · exact ⟨_, by rw [ht], hr⟩

/-- The method `updateParticles` changes nothing but the particles. -/
theorem updateParticles_frame (s : Sim) :
    ∃ particles, (updateParticles s).1 = { s.1 with particles := particles } ∧
      (updateParticles s).2 = s.2 := by
  unfold updateParticles
  refine forEach_invariant _ _
    (fun t => ∃ particles, t.1 = { s.1 with particles := particles } ∧ t.2 = s.2)
    ?_ _ _ _ ⟨s.1.particles, rfl, rfl⟩
  rintro a k t ⟨particles, ht, hr⟩
  dsimp only [updateParticlesBody]
  split_ifs
  · exact ⟨_, by rw [ht], hr⟩
  · exact ⟨_, by rw [ht], hr⟩
/-! ## Rendering -/

/-- The method `spawnParticle` changes nothing but the particles. -/
theorem spawnParticle_frame (s : Sim) :
    ∃ particles, (spawnParticle s).1 = { s.1 with particles := particles } :=
  ⟨_, rfl⟩

/-- The method `renderMenuParticles` changes nothing but the particles. -/
theorem renderMenuParticles_frame (s : Sim) :
    ∃ particles, (renderMenuParticles s).1 = { s.1 with particles := particles } := by
  unfold renderMenuParticles
  dsimp only [random]
  split_ifs
  · obtain ⟨ps, hps, _⟩ := updateParticles_frame (spawnParticle (s.1, s.2.tail))
    obtain ⟨qs, hqs⟩ := spawnParticle_frame (s.1, s.2.tail)
    exact ⟨ps, by rw [hps, hqs]⟩
  · obtain ⟨ps, hps, _⟩ := updateParticles_frame (s.1, s.2.tail)
    exact ⟨ps, hps⟩

/-- C11 as amended: in mode `playing`, `render` returns the state it was
given (and draws nothing at random); in every other mode it changes no field
but the particles, which `renderMenuParticles` spawns and moves. -/
theorem render_changes_only_menu_particles (s : Sim) :
    (s.1.gameState = .playing → render s = s) ∧
    (s.1.gameState ≠ .playing → ∃ particles, (render s).1 = { s.1 with particles := particles }) := by
  unfold render
  constructor
  · intro h
    rw [if_pos h]
  · intro h
    rw [if_neg h]
    exact renderMenuParticles_frame s

/-- C11 as amended, at a run of 800 by 600 in mode `playing`. -/
theorem render_changes_only_menu_particles_witness :
    heldGame.gameState = .playing ∧ render (heldGame, frameDraws) = (heldGame, frameDraws) :=
  ⟨by decide!, (render_changes_only_menu_particles (heldGame, frameDraws)).1 (by decide!)⟩

/-- C11 fails as stated: at the menu, a first `render` (draw `0`) turns the
empty particle list into one particle at `x = 39` with life `0.99`, and a
second `render` (draw `1/2`, nothing spawned) moves that particle to `x = 38`
and lowers its life to `0.98`. -/
theorem render_mutates_menu_particles :
    narrowMenu.gameState = .menu ∧ narrowMenu.particles = [] ∧
    menuRendered.1.gameState = .menu ∧ menuRendered.1.particles = [menuParticle] ∧
    (render (menuRendered.1, [1 / 2])).1.particles =
      [{ menuParticle with x := some 38, life := 0.98 }] ∧
    (render (menuRendered.1, [1 / 2])).1 ≠ menuRendered.1 := by
  decide!
/-! ## Spawning -/

/-- C12 as amended: `spawnPowerUp` always records the new collectible, at the
right edge, in the slot of the kind it draws, replacing whatever collectible
that slot held; the activation state of that slot and the other two slots are
left as they were. -/
theorem spawnPowerUp_overwrites (s : Sim) :
    ((spawnPowerUp s).1.powerUps.get (pickPowerUpType (random s.2).1)).object =
      some
        { x := s.1.canvasWidth
          y := (random (random s.2).2).1 * (s.1.canvasHeight - 60) + 30
          size := 20
          type := pickPowerUpType (random s.2).1
          collected := false } ∧
    ((spawnPowerUp s).1.powerUps.get (pickPowerUpType (random s.2).1)).active =
      (s.1.powerUps.get (pickPowerUpType (random s.2).1)).active ∧
    ((spawnPowerUp s).1.powerUps.get (pickPowerUpType (random s.2).1)).duration =
      (s.1.powerUps.get (pickPowerUpType (random s.2).1)).duration ∧
    (∀ t : PowerUpType, t ≠ pickPowerUpType (random s.2).1 →
      (spawnPowerUp s).1.powerUps.get t = s.1.powerUps.get t) := by
  unfold spawnPowerUp
  dsimp only
  refine ⟨?_, ?_, ?_, ?_⟩
  · rw [modifySlot_get_same]
  · rw [modifySlot_get_same]
  · rw [modifySlot_get_same]
  · intro t ht
    rw [modifySlot_get_other _ _ _ _ ht]

/-- C12 as amended, at a run whose shield slot already holds a collectible,
with draws that pick the shield again: the speed slot is untouched. -/
theorem spawnPowerUp_overwrites_witness :
    PowerUpType.speed ≠ pickPowerUpType (random [0, 1 / 2]).1 ∧
    (spawnPowerUp (shieldInReach, [0, 1 / 2])).1.powerUps.get .speed =
      shieldInReach.powerUps.get .speed :=
  ⟨by decide!, (spawnPowerUp_overwrites (shieldInReach, [0, 1 / 2])).2.2.2 .speed (by decide!)⟩

/-- C12 fails as stated: the shield slot holds the collectible `shieldObject`
at `x = 90`; `spawnPowerUp` with a draw that picks the shield replaces it by a
new collectible at the right edge, `x = 800`. -/
theorem spawnPowerUp_replaces_in_flight :
    (shieldInReach.powerUps.get .shield).object = some shieldObject ∧
    pickPowerUpType (random [0, 1 / 2]).1 = .shield ∧
    ((spawnPowerUp (shieldInReach, [0, 1 / 2])).1.powerUps.get .shield).object =
      some { shieldObject with x := 800 } ∧
    ((spawnPowerUp (shieldInReach, [0, 1 / 2])).1.powerUps.get .shield).object ≠
      some shieldObject := by
  decide!
/-- What `spawnObjects` does to the notes and their timer. -/
theorem spawnObjects_notes (deltaTime : ℚ) (s : Sim) :
    (exceedsQuotient (s.1.noteSpawnTimer + deltaTime) 1000 s.1.gameSpeed = true →
      (∃ note, (spawnObjects deltaTime s).1.notes = s.1.notes ++ [note]) ∧
      (spawnObjects deltaTime s).1.noteSpawnTimer = 0) ∧
    (¬ exceedsQuotient (s.1.noteSpawnTimer + deltaTime) 1000 s.1.gameSpeed = true →
      (spawnObjects deltaTime s).1.notes = s.1.notes ∧
      (spawnObjects deltaTime s).1.noteSpawnTimer = s.1.noteSpawnTimer + deltaTime) := by
  unfold spawnObjects
  simp only [spawnNote, spawnObstacle, spawnPowerUp, spawnParticle, random, getRandomNoteColor,
    getRandomFrequency, getRandomColor, Game.modifySlot]
  split_ifs with h1 <;>
    first
    | exact ⟨fun _ => ⟨⟨_, rfl⟩, rfl⟩, fun hc => absurd h1 hc⟩
    | exact ⟨fun hc => absurd hc h1, fun _ => ⟨rfl, rfl⟩⟩

/-- What `spawnObjects` does to the obstacles and their timer. -/
theorem spawnObjects_obstacles (deltaTime : ℚ) (s : Sim) :
    (exceedsQuotient (s.1.obstacleSpawnTimer + deltaTime) 2000 s.1.gameSpeed = true →
      (∃ obstacle, (spawnObjects deltaTime s).1.obstacles = s.1.obstacles ++ [obstacle]) ∧
      (spawnObjects deltaTime s).1.obstacleSpawnTimer = 0) ∧
    (¬ exceedsQuotient (s.1.obstacleSpawnTimer + deltaTime) 2000 s.1.gameSpeed = true →
      (spawnObjects deltaTime s).1.obstacles = s.1.obstacles ∧
      (spawnObjects deltaTime s).1.obstacleSpawnTimer = s.1.obstacleSpawnTimer + deltaTime) := by
  unfold spawnObjects
  simp only [spawnNote, spawnObstacle, spawnPowerUp, spawnParticle, random, getRandomNoteColor,
    getRandomFrequency, getRandomColor, Game.modifySlot]
  split_ifs with h1 h2 h3 h4 h5 h6 h7 <;>
    first
    | exact ⟨fun _ => ⟨⟨_, rfl⟩, rfl⟩, fun hc => absurd ‹_› hc⟩
    | exact ⟨fun hc => absurd hc ‹_›, fun _ => ⟨rfl, rfl⟩⟩

/-- What `spawnObjects` does to the particles and their timer. -/
theorem spawnObjects_particles (deltaTime : ℚ) (s : Sim) :
    (s.1.particleTimer + deltaTime > 100 →
      (∃ particle, (spawnObjects deltaTime s).1.particles = s.1.particles ++ [particle]) ∧
      (spawnObjects deltaTime s).1.particleTimer = 0) ∧
    (¬ s.1.particleTimer + deltaTime > 100 →
      (spawnObjects deltaTime s).1.particles = s.1.particles ∧
      (spawnObjects deltaTime s).1.particleTimer = s.1.particleTimer + deltaTime) := by
  unfold spawnObjects
  simp only [spawnNote, spawnObstacle, spawnPowerUp, spawnParticle, random, getRandomNoteColor,
    getRandomFrequency, getRandomColor, Game.modifySlot]
  split_ifs <;>
    first
    | exact ⟨fun _ => ⟨⟨_, rfl⟩, rfl⟩, fun hc => absurd ‹_› hc⟩
    | exact ⟨fun hc => absurd hc ‹_›, fun _ => ⟨rfl, rfl⟩⟩
theorem exceedsQuotient_iff (t c gameSpeed : ℚ) (h : gameSpeed ≠ 0) :
    exceedsQuotient t c gameSpeed = true ↔ t > c / gameSpeed := by
  unfold exceedsQuotient
  rw [if_neg h]
  exact decide_eq_true_iff

/-- C15: with a positive game speed, `spawnObjects` appends exactly one note
and resets `noteSpawnTimer` to 0 when `noteSpawnTimer + deltaTime` exceeds
`1000 / gameSpeed`, and otherwise appends no note and leaves the timer at
`old + deltaTime`; the same for obstacles with `2000 / gameSpeed` and for
ambient particles with the threshold 100.  So a frame spawns at most one note,
one obstacle and one ambient particle, however large `deltaTime` is. -/
theorem spawnObjects_at_most_one (deltaTime : ℚ) (s : Sim) (hg : 0 < s.1.gameSpeed) :
    (s.1.noteSpawnTimer + deltaTime > 1000 / s.1.gameSpeed →
      (∃ note, (spawnObjects deltaTime s).1.notes = s.1.notes ++ [note]) ∧
      (spawnObjects deltaTime s).1.noteSpawnTimer = 0) ∧
    (¬ s.1.noteSpawnTimer + deltaTime > 1000 / s.1.gameSpeed →
      (spawnObjects deltaTime s).1.notes = s.1.notes ∧
      (spawnObjects deltaTime s).1.noteSpawnTimer = s.1.noteSpawnTimer + deltaTime) ∧
    (s.1.obstacleSpawnTimer + deltaTime > 2000 / s.1.gameSpeed →
      (∃ obstacle, (spawnObjects deltaTime s).1.obstacles = s.1.obstacles ++ [obstacle]) ∧
      (spawnObjects deltaTime s).1.obstacleSpawnTimer = 0) ∧
    (¬ s.1.obstacleSpawnTimer + deltaTime > 2000 / s.1.gameSpeed →
      (spawnObjects deltaTime s).1.obstacles = s.1.obstacles ∧
      (spawnObjects deltaTime s).1.obstacleSpawnTimer = s.1.obstacleSpawnTimer + deltaTime) ∧
    (s.1.particleTimer + deltaTime > 100 →
      (∃ particle, (spawnObjects deltaTime s).1.particles = s.1.particles ++ [particle]) ∧
      (spawnObjects deltaTime s).1.particleTimer = 0) ∧
    (¬ s.1.particleTimer + deltaTime > 100 →
      (spawnObjects deltaTime s).1.particles = s.1.particles ∧
      (spawnObjects deltaTime s).1.particleTimer = s.1.particleTimer + deltaTime) ∧
    (spawnObjects deltaTime s).1.notes.length ≤ s.1.notes.length + 1 ∧
    (spawnObjects deltaTime s).1.obstacles.length ≤ s.1.obstacles.length + 1 := by
  have hne : s.1.gameSpeed ≠ 0 := ne_of_gt hg
  obtain ⟨n1, n2⟩ := spawnObjects_notes deltaTime s
  obtain ⟨o1, o2⟩ := spawnObjects_obstacles deltaTime s
  obtain ⟨p1, p2⟩ := spawnObjects_particles deltaTime s
  rw [exceedsQuotient_iff _ _ _ hne] at n1 n2 o1 o2
  refine ⟨n1, n2, o1, o2, p1, p2, ?_, ?_⟩
  · by_cases h : s.1.noteSpawnTimer + deltaTime > 1000 / s.1.gameSpeed
    · obtain ⟨⟨note, hn⟩, _⟩ := n1 h
      rw [hn]
      simp
    · rw [(n2 h).1]
      exact Nat.le_succ _
  · by_cases h : s.1.obstacleSpawnTimer + deltaTime > 2000 / s.1.gameSpeed
    · obtain ⟨⟨obstacle, hn⟩, _⟩ := o1 h
      rw [hn]
      simp
    · rw [(o2 h).1]
      exact Nat.le_succ _

/-- C15, at the start of a run of 800 by 600 (game speed 2) with a frame of
501 ms: the note timer passes `1000 / 2`, the obstacle timer does not pass
`2000 / 2`. -/
theorem spawnObjects_at_most_one_witness :
    0 < heldGame.gameSpeed ∧
    heldGame.noteSpawnTimer + 501 > 1000 / heldGame.gameSpeed ∧
    (∃ note, (spawnObjects 501 (heldGame, frameDraws)).1.notes = heldGame.notes ++ [note]) ∧
    (spawnObjects 501 (heldGame, frameDraws)).1.noteSpawnTimer = 0 :=
  ⟨by decide!, by decide!,
    (spawnObjects_at_most_one 501 (heldGame, frameDraws) (by decide!)).1 (by decide!)⟩
/-! ## The frame as a whole -/

/-- Recording a collectible in a slot changes no activation state. -/
theorem modifySlot_object_keeps (g : Game) (type t : PowerUpType) (o : Option PowerUpObject) :
    ((g.modifySlot type fun p => { p with object := o }).powerUps.get t).active =
      (g.powerUps.get t).active ∧
    ((g.modifySlot type fun p => { p with object := o }).powerUps.get t).duration =
      (g.powerUps.get t).duration := by
  by_cases h : t = type
  · subst h
    rw [modifySlot_get_same]
    exact ⟨rfl, rfl⟩
  · rw [modifySlot_get_other _ _ _ _ h]
    exact ⟨rfl, rfl⟩

/-- The method `spawnObjects` changes no activation state and neither game
speed nor player. -/
theorem spawnObjects_powerUps (deltaTime : ℚ) (s : Sim) (t : PowerUpType) :
    ((spawnObjects deltaTime s).1.powerUps.get t).active = (s.1.powerUps.get t).active ∧
    ((spawnObjects deltaTime s).1.powerUps.get t).duration = (s.1.powerUps.get t).duration := by
  unfold spawnObjects
  simp only [spawnNote, spawnObstacle, spawnPowerUp, spawnParticle, random, getRandomNoteColor,
    getRandomFrequency, getRandomColor]
  split_ifs <;>
    first
    | exact ⟨rfl, rfl⟩
    | exact modifySlot_object_keeps _ _ _ _

/-- The method `spawnObjects` keeps score, level, game speed and health. -/
theorem spawnObjects_run (deltaTime : ℚ) (s : Sim) :
    (spawnObjects deltaTime s).1.score = s.1.score ∧
    (spawnObjects deltaTime s).1.level = s.1.level ∧
    (spawnObjects deltaTime s).1.gameSpeed = s.1.gameSpeed ∧
    (spawnObjects deltaTime s).1.player = s.1.player := by
  unfold spawnObjects
  simp only [spawnNote, spawnObstacle, spawnPowerUp, spawnParticle, random, getRandomNoteColor,
    getRandomFrequency, getRandomColor, Game.modifySlot]
  split_ifs <;> exact ⟨rfl, rfl, rfl, rfl⟩

/-- The method `checkCollisions` changes nothing but notes, score, health,
melody and particles. -/
theorem checkCollisions_frame (s : Sim) :
    ∃ notes score health melody particles,
      (checkCollisions s).1 =
        { s.1 with
          notes := notes, score := score, health := health, currentMelody := melody,
          particles := particles } := by
  unfold checkCollisions
  dsimp only
  refine forEach_invariant _ _
    (fun t => ∃ notes score health melody particles,
      t.1 = { s.1 with
        notes := notes, score := score, health := health, currentMelody := melody,
        particles := particles }) ?_ _ _ _ ?_
  · rintro a k t ⟨notes, score, health, melody, particles, ht⟩
    unfold checkObstaclesBody
    split_ifs
    · obtain ⟨ps, hps⟩ := hitObstacle_fst t
      exact ⟨_, _, _, _, _, by rw [hps, ht]⟩
    · exact ⟨_, _, _, _, _, ht⟩
  · refine forEach_invariant _ _
      (fun t => ∃ notes score health melody particles,
        t.1 = { s.1 with
          notes := notes, score := score, health := health, currentMelody := melody,
          particles := particles }) ?_ _ _ _ ⟨_, _, _, _, _, rfl⟩
    rintro a k t ⟨notes, score, health, melody, particles, ht⟩
    unfold checkNotesBody
    dsimp only
    split_ifs
    · obtain ⟨ps, hps⟩ := collectNote_fst a k t
      exact ⟨_, _, _, _, _, by rw [hps, ht]⟩
    · exact ⟨_, _, _, _, _, ht⟩

/-- The method `updateDifficulty` changes nothing but level and game speed. -/
theorem updateDifficulty_frame (g : Game) :
    ∃ level gameSpeed, updateDifficulty g = { g with level := level, gameSpeed := gameSpeed } := by
  unfold updateDifficulty
  dsimp only
  split_ifs
  · exact ⟨_, _, rfl⟩
  · exact ⟨_, _, rfl⟩
theorem powerFrame_refl (g : Game) : PowerFrame g g := ⟨_, _, _, rfl⟩

theorem powerFrame_modifySlot (g t : Game) (type : PowerUpType) (f : PowerUp → PowerUp)
    (h : PowerFrame g t) : PowerFrame g (t.modifySlot type f) := by
  obtain ⟨pu, pl, ps, rfl⟩ := h
  exact ⟨_, _, _, rfl⟩

theorem powerFrame_deactivate (g t : Game) (type : PowerUpType) (h : PowerFrame g t) :
    PowerFrame g (deactivatePowerUp type t) := by
  obtain ⟨pu, pl, ps, rfl⟩ := h
  cases type <;> exact ⟨_, _, _, rfl⟩

theorem powerFrame_activate (g : Game) (type : PowerUpType) (s : Sim) (h : PowerFrame g s.1) :
    PowerFrame g (activatePowerUp type s).1 := by
  obtain ⟨pu, pl, ps, hs⟩ := h
  unfold activatePowerUp
  dsimp only
  cases type with
  | shield =>
    obtain ⟨qs, hq⟩ := createPowerUpEffect_frame .shield
      ({ s.1.modifySlot .shield fun p => { p with active := true, duration := 10000 } with
          player := { (s.1.modifySlot .shield fun p =>
            { p with active := true, duration := 10000 }).player with isShielded := true } }, s.2)
    rw [hq, hs]
    exact ⟨_, _, _, rfl⟩
  | speed =>
    obtain ⟨qs, hq⟩ := createPowerUpEffect_frame .speed
      ({ s.1.modifySlot .speed fun p => { p with active := true, duration := 10000 } with
          player := { (s.1.modifySlot .speed fun p =>
            { p with active := true, duration := 10000 }).player with
              speed := (s.1.modifySlot .speed fun p =>
                { p with active := true, duration := 10000 }).player.speed * 1.5 } }, s.2)
    rw [hq, hs]
    exact ⟨_, _, _, rfl⟩
  | multiplier =>
    obtain ⟨qs, hq⟩ := createPowerUpEffect_frame .multiplier
      ({ s.1.modifySlot .multiplier fun p => { p with active := true, duration := 10000 } with
          powerUps := { (s.1.modifySlot .multiplier fun p =>
            { p with active := true, duration := 10000 }).powerUps with multiplierValue := 2 } },
        s.2)
    rw [hq, hs]
    exact ⟨_, _, _, rfl⟩

theorem powerFrame_tick (g : Game) (deltaTime : ℚ) (type : PowerUpType) (s : Sim)
    (h : PowerFrame g s.1) : PowerFrame g (tickPowerUp deltaTime type s).1 := by
  unfold tickPowerUp
  dsimp only
  split_ifs
  · dsimp only
    exact powerFrame_deactivate g _ type (powerFrame_modifySlot g _ type _ h)
  · dsimp only
    exact powerFrame_modifySlot g _ type _ h
  · exact h

theorem powerFrame_move (g : Game) (type : PowerUpType) (s : Sim) (h : PowerFrame g s.1) :
    PowerFrame g (movePowerUpObject type s).1 := by
  cases ho : (s.1.powerUps.get type).object with
  | none => rw [movePowerUpObject_none type s ho]; exact h
  | some o =>
    obtain ⟨s3, h3, hfin⟩ := movePowerUpObject_some type s o ho
    have hs3 : PowerFrame g s3.1 := by
      rcases h3 with ⟨h3, _⟩ | ⟨h3, _⟩
      · rw [h3]
        dsimp only
        refine powerFrame_modifySlot g _ type _ (powerFrame_activate g type _ ?_)
        dsimp only
        exact powerFrame_modifySlot g _ type _ h
      · rw [h3]
        dsimp only
        exact powerFrame_modifySlot g _ type _ h
    rcases hfin with hfin | hfin
    · rw [hfin]; exact hs3
    · rw [hfin]
      dsimp only
      exact powerFrame_modifySlot g _ type _ hs3

/-- The method `updatePowerUps` changes nothing but the power-up slots, the
player and the particles. -/
theorem updatePowerUps_frame (deltaTime : ℚ) (s : Sim) :
    PowerFrame s.1 (updatePowerUps deltaTime s).1 := by
  rw [updatePowerUps_eq]
  unfold updatePowerUpsBody
  exact powerFrame_move _ _ _ (powerFrame_tick _ _ _ _ (powerFrame_move _ _ _
    (powerFrame_tick _ _ _ _ (powerFrame_move _ _ _ (powerFrame_tick _ _ _ _
      (powerFrame_refl s.1))))))

/-- The slot of a kind after the second half of its callback: activated
afresh, or with the activation state it had. -/
theorem movePowerUpObject_slot (type : PowerUpType) (s : Sim) :
    (movePowerUpObject type s).1.powerUps.get type =
        { active := true, duration := 10000, object := none } ∨
      (((movePowerUpObject type s).1.powerUps.get type).active =
          (s.1.powerUps.get type).active ∧
        ((movePowerUpObject type s).1.powerUps.get type).duration =
          (s.1.powerUps.get type).duration) := by
  cases ho : (s.1.powerUps.get type).object with
  | none => rw [movePowerUpObject_none type s ho]; exact Or.inr ⟨rfl, rfl⟩
  | some o =>
    obtain ⟨s3, h3, hfin⟩ := movePowerUpObject_some type s o ho
    rcases h3 with ⟨h3, hd⟩ | ⟨h3, _⟩
    · exact Or.inl (movePowerUpObject_activates type s o ho hd)
    · right
      have hs3 : (s3.1.powerUps.get type).active = (s.1.powerUps.get type).active ∧
          (s3.1.powerUps.get type).duration = (s.1.powerUps.get type).duration := by
        rw [h3]
        exact modifySlot_object_keeps _ _ _ _
      rcases hfin with hfin | hfin
      · rw [hfin]; exact hs3
      · rw [hfin]
        obtain ⟨k1, k2⟩ := modifySlot_object_keeps s3.1 type type none
        exact ⟨k1.trans hs3.1, k2.trans hs3.2⟩

/-- The slot of an active kind after `updatePowerUps`: its duration is the
old one minus `deltaTime`, unless its collectible was collected in this call
and the slot activated afresh. -/
theorem updatePowerUps_duration (deltaTime : ℚ) (type : PowerUpType) (s : Sim)
    (ha : (s.1.powerUps.get type).active = true) :
    (updatePowerUps deltaTime s).1.powerUps.get type =
        { active := true, duration := 10000, object := none } ∨
      ((updatePowerUps deltaTime s).1.powerUps.get type).duration =
        (s.1.powerUps.get type).duration - deltaTime := by
  have body : ∀ t : Sim, (t.1.powerUps.get type).active = true →
      (updatePowerUpsBody deltaTime type t).1.powerUps.get type =
          { active := true, duration := 10000, object := none } ∨
        ((updatePowerUpsBody deltaTime type t).1.powerUps.get type).duration =
          (t.1.powerUps.get type).duration - deltaTime := by
    intro t hta
    unfold updatePowerUpsBody
    rcases movePowerUpObject_slot type (tickPowerUp deltaTime type t) with h | ⟨_, h⟩
    · exact Or.inl h
    · right
      rw [h, tickPowerUp_slot, if_pos hta]
  rw [updatePowerUps_eq]
  cases type with
  | shield =>
    rw [updatePowerUpsBody_other _ _ _ _ (by decide), updatePowerUpsBody_other _ _ _ _ (by decide)]
    exact body s ha
  | speed =>
    have h1 := updatePowerUpsBody_other deltaTime .shield .speed s (by decide)
    rw [updatePowerUpsBody_other _ _ _ _ (by decide)]
    have := body (updatePowerUpsBody deltaTime .shield s) (by rw [h1]; exact ha)
    rw [h1] at this
    exact this
  | multiplier =>
    have h1 := updatePowerUpsBody_other deltaTime .shield .multiplier s (by decide)
    have h2 := updatePowerUpsBody_other deltaTime .speed .multiplier
      (updatePowerUpsBody deltaTime .shield s) (by decide)
    have := body (updatePowerUpsBody deltaTime .speed (updatePowerUpsBody deltaTime .shield s))
      (by rw [h2, h1]; exact ha)
    rw [h2, h1] at this
    exact this
/-- In mode `playing`, the spawn accumulators after `update` are those that
`spawnObjects` leaves, and the power-up slots are those that `updatePowerUps`
leaves. -/
theorem update_playing_fields (deltaTime : ℚ) (s : Sim) (hs : s.1.gameState = .playing) :
    spawnTimers (update deltaTime s).1 =
      spawnTimers (spawnObjects deltaTime (updateStars (updatePlayer s.1, s.2))).1 ∧
    (update deltaTime s).1.powerUps =
      (updatePowerUps deltaTime (updateParticles (updateObstacles (updateNotes
        (spawnObjects deltaTime (updateStars (updatePlayer s.1, s.2))))))).1.powerUps ∧
    (updateParticles (updateObstacles (updateNotes
        (spawnObjects deltaTime (updateStars (updatePlayer s.1, s.2)))))).1.powerUps =
      (spawnObjects deltaTime (updateStars (updatePlayer s.1, s.2))).1.powerUps := by
  obtain ⟨n4, h4, _⟩ := updateNotes_frame
    (spawnObjects deltaTime (updateStars (updatePlayer s.1, s.2)))
  obtain ⟨n5, h5, _⟩ := updateObstacles_frame (updateNotes
    (spawnObjects deltaTime (updateStars (updatePlayer s.1, s.2))))
  obtain ⟨n6, h6, _⟩ := updateParticles_frame (updateObstacles (updateNotes
    (spawnObjects deltaTime (updateStars (updatePlayer s.1, s.2)))))
  obtain ⟨pu, pl, ps, h7⟩ := updatePowerUps_frame deltaTime (updateParticles (updateObstacles
    (updateNotes (spawnObjects deltaTime (updateStars (updatePlayer s.1, s.2))))))
  obtain ⟨c1, c2, c3, c4, c5, h8⟩ := checkCollisions_frame (updatePowerUps deltaTime
    (updateParticles (updateObstacles (updateNotes
      (spawnObjects deltaTime (updateStars (updatePlayer s.1, s.2)))))))
  obtain ⟨l, gs, h9⟩ := updateDifficulty_frame (checkCollisions (updatePowerUps deltaTime
    (updateParticles (updateObstacles (updateNotes
      (spawnObjects deltaTime (updateStars (updatePlayer s.1, s.2)))))))).1
  have hstep : spawnTimers (simulationStep deltaTime s).1 =
        spawnTimers (spawnObjects deltaTime (updateStars (updatePlayer s.1, s.2))).1 ∧
      (simulationStep deltaTime s).1.powerUps =
        (updatePowerUps deltaTime (updateParticles (updateObstacles (updateNotes
          (spawnObjects deltaTime (updateStars (updatePlayer s.1, s.2))))))).1.powerUps := by
    unfold simulationStep
    dsimp only
    rw [h9, h8]
    refine ⟨?_, rfl⟩
    rw [h7, h6, h5, h4]
    rfl
  have e := update_playing deltaTime s hs
  have h3 : (updateParticles (updateObstacles (updateNotes
        (spawnObjects deltaTime (updateStars (updatePlayer s.1, s.2)))))).1.powerUps =
      (spawnObjects deltaTime (updateStars (updatePlayer s.1, s.2))).1.powerUps := by
    rw [h6, h5, h4]
  refine ⟨?_, ?_, h3⟩
  · rw [← hstep.1]
    revert e
    generalize simulationStep deltaTime s = t
    intro e
    rw [e]
    split_ifs <;> rfl
  · rw [← hstep.2]
    revert e
    generalize simulationStep deltaTime s = t
    intro e
    rw [e]
    split_ifs <;> rfl
/-- The method `updateStars` keeps the spawn accumulators, the game speed and
the power-up slots. -/
theorem updateStars_run (s : Sim) :
    spawnTimers (updateStars s).1 = spawnTimers s.1 ∧
    (updateStars s).1.gameSpeed = s.1.gameSpeed ∧
    (updateStars s).1.powerUps = s.1.powerUps ∧
    (updateStars s).1.score = s.1.score ∧
    (updateStars s).1.level = s.1.level := by
  obtain ⟨stars, h⟩ := updateStars_frame s
  rw [h]
  exact ⟨rfl, rfl, rfl, rfl, rfl⟩

/-- C13 as amended: `update` uses `deltaTime` as it is given, negative values
included.  In mode `playing` each spawn accumulator ends at `old + deltaTime`
unless it passed its threshold and was reset to 0, and the duration of every
active slot ends at `old - deltaTime` unless the collectible of that slot was
collected in the same frame (the slot is then active with duration 10000). -/
theorem update_deltaTime_unclamped (deltaTime : ℚ) (s : Sim) (hs : s.1.gameState = .playing) :
    (update deltaTime s).1.noteSpawnTimer =
      (if exceedsQuotient (s.1.noteSpawnTimer + deltaTime) 1000 s.1.gameSpeed = true then 0
       else s.1.noteSpawnTimer + deltaTime) ∧
    (update deltaTime s).1.obstacleSpawnTimer =
      (if exceedsQuotient (s.1.obstacleSpawnTimer + deltaTime) 2000 s.1.gameSpeed = true then 0
       else s.1.obstacleSpawnTimer + deltaTime) ∧
    (update deltaTime s).1.particleTimer =
      (if s.1.particleTimer + deltaTime > 100 then 0 else s.1.particleTimer + deltaTime) ∧
    (∀ type : PowerUpType, (s.1.powerUps.get type).active = true →
      (update deltaTime s).1.powerUps.get type =
          { active := true, duration := 10000, object := none } ∨
        ((update deltaTime s).1.powerUps.get type).duration =
          (s.1.powerUps.get type).duration - deltaTime) := by
  obtain ⟨f1, f2, f3⟩ := update_playing_fields deltaTime s hs
  obtain ⟨t1, t2, t3, _, _⟩ := updateStars_run (updatePlayer s.1, s.2)
  obtain ⟨n1, n2⟩ := spawnObjects_notes deltaTime (updateStars (updatePlayer s.1, s.2))
  obtain ⟨o1, o2⟩ := spawnObjects_obstacles deltaTime (updateStars (updatePlayer s.1, s.2))
  obtain ⟨p1, p2⟩ := spawnObjects_particles deltaTime (updateStars (updatePlayer s.1, s.2))
  have e1 : (updateStars (updatePlayer s.1, s.2)).1.noteSpawnTimer = s.1.noteSpawnTimer :=
    congrArg (fun p : ℚ × ℚ × ℚ => p.1) t1
  have e2 : (updateStars (updatePlayer s.1, s.2)).1.obstacleSpawnTimer = s.1.obstacleSpawnTimer :=
    congrArg (fun p : ℚ × ℚ × ℚ => p.2.1) t1
  have e3 : (updateStars (updatePlayer s.1, s.2)).1.particleTimer = s.1.particleTimer :=
    congrArg (fun p : ℚ × ℚ × ℚ => p.2.2) t1
  have e4 : (updateStars (updatePlayer s.1, s.2)).1.gameSpeed = s.1.gameSpeed := t2
  have g1 : (update deltaTime s).1.noteSpawnTimer =
      (spawnObjects deltaTime (updateStars (updatePlayer s.1, s.2))).1.noteSpawnTimer :=
    congrArg (fun p : ℚ × ℚ × ℚ => p.1) f1
  have g2 : (update deltaTime s).1.obstacleSpawnTimer =
      (spawnObjects deltaTime (updateStars (updatePlayer s.1, s.2))).1.obstacleSpawnTimer :=
    congrArg (fun p : ℚ × ℚ × ℚ => p.2.1) f1
  have g3 : (update deltaTime s).1.particleTimer =
      (spawnObjects deltaTime (updateStars (updatePlayer s.1, s.2))).1.particleTimer :=
    congrArg (fun p : ℚ × ℚ × ℚ => p.2.2) f1
  rw [e1, e4] at n1 n2
  rw [e2, e4] at o1 o2
  rw [e3] at p1 p2
  refine ⟨?_, ?_, ?_, ?_⟩
  · rw [g1]
    split_ifs with h
    · exact (n1 h).2
    · exact (n2 h).2
  · rw [g2]
    split_ifs with h
    · exact (o1 h).2
    · exact (o2 h).2
  · rw [g3]
    split_ifs with h
    · exact (p1 h).2
    · exact (p2 h).2
  · intro type ha
    obtain ⟨a1, a2⟩ := spawnObjects_powerUps deltaTime (updateStars (updatePlayer s.1, s.2)) type
    have hp : (updateStars (updatePlayer s.1, s.2)).1.powerUps = s.1.powerUps := t3
    rw [hp] at a1 a2
    rw [f2]
    have := updatePowerUps_duration deltaTime type (updateParticles (updateObstacles (updateNotes
      (spawnObjects deltaTime (updateStars (updatePlayer s.1, s.2)))))) (by rw [f3, a1]; exact ha)
    rw [f3, a2] at this
    exact this

/-- C13 as amended, at a run with an active shield and a frame of `-5` ms. -/
theorem update_deltaTime_unclamped_witness :
    shieldActive.gameState = .playing ∧
    (update (-5) (shieldActive, [1 / 2])).1.particleTimer =
      (if shieldActive.particleTimer + (-5) > 100 then 0 else shieldActive.particleTimer + (-5)) :=
  ⟨by decide!, (update_deltaTime_unclamped (-5) (shieldActive, [1 / 2]) (by decide!)).2.2.1⟩

/-- C13 fails as stated: in a run with spawn accumulators at 0 and a shield
with 5000 ms left, `update (-5)` leaves the note accumulator at `-5` and the
shield duration at 5005, whereas `update 0` leaves them at 0 and 5000. -/
theorem update_negative_deltaTime :
    shieldActive.gameState = .playing ∧
    shieldActive.noteSpawnTimer = 0 ∧ shieldActive.obstacleSpawnTimer = 0 ∧
    shieldActive.particleTimer = 0 ∧
    (shieldActive.powerUps.get .shield).active = true ∧
    (shieldActive.powerUps.get .shield).duration = 5000 ∧
    spawnTimers (update (-5) (shieldActive, [1 / 2])).1 = (-5, -5, -5) ∧
    ((update (-5) (shieldActive, [1 / 2])).1.powerUps.get .shield).duration = 5005 ∧
    spawnTimers (update 0 (shieldActive, [1 / 2])).1 = (0, 0, 0) ∧
    ((update 0 (shieldActive, [1 / 2])).1.powerUps.get .shield).duration = 5000 := by
  decide!
/-! ## Expiry of power-ups -/

theorem effectKept_refl (t : PowerUpType) (g : Game) : EffectKept t g g := by
  cases t <;> rfl

theorem effectKept_trans (t : PowerUpType) {a b c : Game} (h1 : EffectKept t a b)
    (h2 : EffectKept t b c) : EffectKept t a c := by
  cases t
  · exact Eq.trans h2 h1
  · exact Eq.trans h2 h1
  · exact Eq.trans h2 h1

theorem effectKept_modifySlot (t type : PowerUpType) (g : Game) (f : PowerUp → PowerUp) :
    EffectKept t g (g.modifySlot type f) := by
  cases t <;> cases type <;> rfl

/-- The player after `activatePowerUp`. -/
theorem activatePowerUp_player (type : PowerUpType) (s : Sim) :
    (activatePowerUp type s).1.player =
      match type with
      | .shield => { s.1.player with isShielded := true }
      | .speed => { s.1.player with speed := s.1.player.speed * 1.5 }
      | .multiplier => s.1.player := by
  unfold activatePowerUp
  dsimp only
  rw [createPowerUpEffect_player]
  cases type <;> rfl

/-- The multiplier value after `activatePowerUp`. -/
theorem activatePowerUp_multiplierValue (type : PowerUpType) (s : Sim) :
    (activatePowerUp type s).1.powerUps.multiplierValue =
      match type with
      | .shield => s.1.powerUps.multiplierValue
      | .speed => s.1.powerUps.multiplierValue
      | .multiplier => 2 := by
  unfold activatePowerUp
  dsimp only
  rw [createPowerUpEffect_powerUps]
  cases type <;> rfl

theorem activatePowerUp_effect_other (type t : PowerUpType) (s : Sim) (h : t ≠ type) :
    EffectKept t s.1 (activatePowerUp type s).1 := by
  have hp := activatePowerUp_player type s
  have hm := activatePowerUp_multiplierValue type s
  cases type <;> cases t <;> first
    | exact absurd rfl h
    | (show (activatePowerUp _ s).1.player.isShielded = _; rw [hp])
    | (show (activatePowerUp _ s).1.player.speed = _; rw [hp])
    | (show (activatePowerUp _ s).1.powerUps.multiplierValue = _; rw [hm])

theorem tickPowerUp_effect_other (deltaTime : ℚ) (type t : PowerUpType) (s : Sim) (h : t ≠ type) :
    EffectKept t s.1 (tickPowerUp deltaTime type s).1 := by
  unfold tickPowerUp
  dsimp only
  split_ifs
  · cases type <;> cases t <;> first | exact absurd rfl h | rfl
  · cases type <;> cases t <;> first | exact absurd rfl h | rfl
  · exact effectKept_refl t s.1

theorem movePowerUpObject_effect_other (type t : PowerUpType) (s : Sim) (h : t ≠ type) :
    EffectKept t s.1 (movePowerUpObject type s).1 := by
  cases ho : (s.1.powerUps.get type).object with
  | none => rw [movePowerUpObject_none type s ho]; exact effectKept_refl t s.1
  | some o =>
    obtain ⟨s3, h3, hfin⟩ := movePowerUpObject_some type s o ho
    have hs3 : EffectKept t s.1 s3.1 := by
      rcases h3 with ⟨h3, _⟩ | ⟨h3, _⟩
      · rw [h3]
        exact effectKept_trans t (effectKept_modifySlot t type s.1 _)
          (effectKept_trans t (activatePowerUp_effect_other type t _ h)
            (effectKept_modifySlot t type _ _))
      · rw [h3]
        exact effectKept_modifySlot t type s.1 _
    rcases hfin with hfin | hfin
    · rw [hfin]; exact hs3
    · rw [hfin]
      exact effectKept_trans t hs3 (effectKept_modifySlot t type s3.1 _)

theorem updatePowerUpsBody_effect_other (deltaTime : ℚ) (type t : PowerUpType) (s : Sim)
    (h : t ≠ type) : EffectKept t s.1 (updatePowerUpsBody deltaTime type s).1 :=
  effectKept_trans t (tickPowerUp_effect_other deltaTime type t s h)
    (movePowerUpObject_effect_other type t _ h)

/-- The countdown of an active slot: the effect is undone when the duration
runs out, and player and multiplier value are untouched when it does not. -/
theorem tickPowerUp_effect (deltaTime : ℚ) (type : PowerUpType) (s : Sim)
    (ha : (s.1.powerUps.get type).active = true) :
    ((s.1.powerUps.get type).duration - deltaTime ≤ 0 →
      EffectUndone type (tickPowerUp deltaTime type s).1) ∧
    (¬ (s.1.powerUps.get type).duration - deltaTime ≤ 0 →
      (tickPowerUp deltaTime type s).1.player = s.1.player ∧
      (tickPowerUp deltaTime type s).1.powerUps.multiplierValue = s.1.powerUps.multiplierValue) := by
  unfold tickPowerUp
  dsimp only
  rw [if_pos ha, modifySlot_get_same]
  dsimp only
  constructor
  · intro hz
    rw [if_pos hz]
    cases type <;> rfl
  · intro hz
    rw [if_neg hz]
    cases type <;> exact ⟨rfl, rfl⟩
theorem powerFrame_settings (g t : Game) (h : PowerFrame g t) : t.settings = g.settings := by
  obtain ⟨pu, pl, ps, rfl⟩ := h
  rfl

theorem updatePowerUpsBody_settings (deltaTime : ℚ) (type : PowerUpType) (s : Sim) :
    (updatePowerUpsBody deltaTime type s).1.settings = s.1.settings :=
  powerFrame_settings _ _
    (powerFrame_move _ _ _ (powerFrame_tick _ _ _ _ (powerFrame_refl s.1)))

theorem slotKept_refl (type : PowerUpType) (g : Game) : SlotKept type g g :=
  ⟨rfl, effectKept_refl type g, rfl⟩

theorem slotKept_trans (type : PowerUpType) {a b c : Game} (h1 : SlotKept type a b)
    (h2 : SlotKept type b c) : SlotKept type a c :=
  ⟨h2.1.trans h1.1, effectKept_trans type h1.2.1 h2.2.1, h2.2.2.trans h1.2.2⟩

/-- The callback of `updatePowerUps` for a kind keeps the slot and the effect
of every other kind. -/
theorem updatePowerUpsBody_slotKept (deltaTime : ℚ) (type t : PowerUpType) (s : Sim)
    (h : t ≠ type) : SlotKept t s.1 (updatePowerUpsBody deltaTime type s).1 :=
  ⟨updatePowerUpsBody_other deltaTime type t s h,
    updatePowerUpsBody_effect_other deltaTime type t s h,
    updatePowerUpsBody_settings deltaTime type s⟩

theorem effectUndone_of_slotKept (type : PowerUpType) {a b : Game} (h : SlotKept type a b)
    (hu : EffectUndone type a) : EffectUndone type b := by
  obtain ⟨_, hk, hs⟩ := h
  cases type
  · exact Eq.trans hk hu
  · show b.player.speed = _
    rw [hs]
    exact Eq.trans hk hu
  · exact Eq.trans hk hu

/-- The countdown of an active slot without collectible, seen between a game
`a` before the callbacks of the kinds that precede it and a game `post` after
those that follow it. -/
theorem countdown_between (deltaTime : ℚ) (type : PowerUpType) (a : Game) (pre : Sim)
    (post : Game) (hpre : SlotKept type a pre.1)
    (hpost : SlotKept type (updatePowerUpsBody deltaTime type pre).1 post)
    (ha : (a.powerUps.get type).active = true) (ho : (a.powerUps.get type).object = none) :
    (post.powerUps.get type).duration = (a.powerUps.get type).duration - deltaTime ∧
    ((a.powerUps.get type).duration - deltaTime ≤ 0 →
      (post.powerUps.get type).active = false ∧ EffectUndone type post) ∧
    (¬ (a.powerUps.get type).duration - deltaTime ≤ 0 →
      (post.powerUps.get type).active = true ∧ EffectKept type a post) := by
  have ha2 : (pre.1.powerUps.get type).active = true := by rw [hpre.1]; exact ha
  have ho2 : (pre.1.powerUps.get type).object = none := by rw [hpre.1]; exact ho
  have hbody : updatePowerUpsBody deltaTime type pre = tickPowerUp deltaTime type pre := by
    unfold updatePowerUpsBody
    exact movePowerUpObject_none type _ (by rw [tickPowerUp_object, ho2])
  rw [hbody] at hpost
  have hslot := tickPowerUp_slot deltaTime type pre
  rw [if_pos ha2, hpre.1] at hslot
  obtain ⟨e1, e2⟩ := tickPowerUp_effect deltaTime type pre ha2
  rw [hpre.1] at e1 e2
  rw [hpost.1, hslot]
  refine ⟨rfl, ?_, ?_⟩
  · intro hz
    exact ⟨by simp [hz], effectUndone_of_slotKept type hpost (e1 hz)⟩
  · intro hz
    refine ⟨by simp [hz], ?_⟩
    have hk : EffectKept type pre.1 (tickPowerUp deltaTime type pre).1 := by
      obtain ⟨k1, k2⟩ := e2 hz
      cases type
      · show (tickPowerUp deltaTime _ pre).1.player.isShielded = _
        rw [k1]
      · show (tickPowerUp deltaTime _ pre).1.player.speed = _
        rw [k1]
      · exact k2
    exact effectKept_trans type hpre.2.1 (effectKept_trans type hk hpost.2.1)

theorem modifySlot_multiplierValue (g : Game) (type : PowerUpType) (f : PowerUp → PowerUp) :
    (g.modifySlot type f).powerUps.multiplierValue = g.powerUps.multiplierValue := by
  cases type <;> rfl

/-- The second half of the callback of a kind whose collectible, if any, is
out of reach: the activation state of the slot, the player, the multiplier
value and the settings are as before. -/
theorem movePowerUpObject_idle (type : PowerUpType) (s : Sim) (h : NotCollected type s.1) :
    ((movePowerUpObject type s).1.powerUps.get type).active = (s.1.powerUps.get type).active ∧
    ((movePowerUpObject type s).1.powerUps.get type).duration =
      (s.1.powerUps.get type).duration ∧
    (movePowerUpObject type s).1.player = s.1.player ∧
    (movePowerUpObject type s).1.powerUps.multiplierValue = s.1.powerUps.multiplierValue ∧
    (movePowerUpObject type s).1.settings = s.1.settings := by
  cases ho : (s.1.powerUps.get type).object with
  | none =>
    rw [movePowerUpObject_none type s ho]
    exact ⟨rfl, rfl, rfl, rfl, rfl⟩
  | some o =>
    obtain ⟨s3, h3, hfin⟩ := movePowerUpObject_some type s o ho
    have hs3 : (s3.1.powerUps.get type).active = (s.1.powerUps.get type).active ∧
        (s3.1.powerUps.get type).duration = (s.1.powerUps.get type).duration ∧
        s3.1.player = s.1.player ∧
        s3.1.powerUps.multiplierValue = s.1.powerUps.multiplierValue ∧
        s3.1.settings = s.1.settings := by
      rcases h3 with ⟨_, hd⟩ | ⟨h3, _⟩
      · rw [h o ho] at hd
        exact Bool.noConfusion hd
      · rw [h3]
        dsimp only
        obtain ⟨k1, k2⟩ := modifySlot_object_keeps s.1 type type
          (some { o with x := o.x - s.1.gameSpeed * 2 })
        exact ⟨k1, k2, rfl, modifySlot_multiplierValue _ _ _, rfl⟩
    rcases hfin with hfin | hfin
    · rw [hfin]
      exact hs3
    · rw [hfin]
      dsimp only
      obtain ⟨k1, k2⟩ := modifySlot_object_keeps s3.1 type type none
      exact ⟨k1.trans hs3.1, k2.trans hs3.2.1, hs3.2.2.1,
        (modifySlot_multiplierValue _ _ _).trans hs3.2.2.2.1, hs3.2.2.2.2⟩

/-- The countdown of an active slot whose collectible, if any, is out of
reach, seen between a game `a` before the callbacks of the kinds that precede
it and a game `post` after those that follow it. -/
theorem countdown_between_idle (deltaTime : ℚ) (type : PowerUpType) (a : Game) (pre : Sim)
    (post : Game) (hpre : SlotKept type a pre.1) (hgeo : SameGeometry pre.1 a)
    (hpost : SlotKept type (updatePowerUpsBody deltaTime type pre).1 post)
    (ha : (a.powerUps.get type).active = true) (hnc : NotCollected type a) :
    (post.powerUps.get type).duration = (a.powerUps.get type).duration - deltaTime ∧
    ((a.powerUps.get type).duration - deltaTime ≤ 0 →
      (post.powerUps.get type).active = false ∧ EffectUndone type post) ∧
    (¬ (a.powerUps.get type).duration - deltaTime ≤ 0 →
      (post.powerUps.get type).active = true ∧ EffectKept type a post) := by
  have ha2 : (pre.1.powerUps.get type).active = true := by rw [hpre.1]; exact ha
  have hslot := tickPowerUp_slot deltaTime type pre
  rw [if_pos ha2, hpre.1] at hslot
  obtain ⟨e1, e2⟩ := tickPowerUp_effect deltaTime type pre ha2
  rw [hpre.1] at e1 e2
  have hnc2 : NotCollected type (tickPowerUp deltaTime type pre).1 := by
    obtain ⟨g1, g2, g3, g4⟩ := tickPowerUp_geometry deltaTime type pre
    obtain ⟨p1, p2, p3, p4⟩ := hgeo
    intro o ho
    rw [tickPowerUp_object, hpre.1] at ho
    rw [g1, g2, g3, g4, p1, p2, p3, p4]
    exact hnc o ho
  obtain ⟨i1, i2, i3, i4, i5⟩ := movePowerUpObject_idle type _ hnc2
  have hdur : ((updatePowerUpsBody deltaTime type pre).1.powerUps.get type).duration =
      (a.powerUps.get type).duration - deltaTime := by
    unfold updatePowerUpsBody
    rw [i2, hslot]
  have hact : ((updatePowerUpsBody deltaTime type pre).1.powerUps.get type).active =
      decide (¬ (a.powerUps.get type).duration - deltaTime ≤ 0) := by
    unfold updatePowerUpsBody
    rw [i1, hslot]
  have hkept : EffectKept type (tickPowerUp deltaTime type pre).1
      (updatePowerUpsBody deltaTime type pre).1 := by
    unfold updatePowerUpsBody
    cases type
    · show (movePowerUpObject _ _).1.player.isShielded = _
      rw [i3]
    · show (movePowerUpObject _ _).1.player.speed = _
      rw [i3]
    · exact i4
  have hundone : EffectUndone type (tickPowerUp deltaTime type pre).1 →
      EffectUndone type (updatePowerUpsBody deltaTime type pre).1 := by
    intro hu
    unfold updatePowerUpsBody
    cases type
    · show (movePowerUpObject _ _).1.player.isShielded = false
      rw [i3]
      exact hu
    · show (movePowerUpObject _ _).1.player.speed = _
      rw [i3, i5]
      exact hu
    · show (movePowerUpObject _ _).1.powerUps.multiplierValue = 1
      rw [i4]
      exact hu
  rw [hpost.1, hdur, hact]
  refine ⟨rfl, ?_, ?_⟩
  · intro hz
    exact ⟨by simp [hz], effectUndone_of_slotKept type hpost (hundone (e1 hz))⟩
  · intro hz
    refine ⟨by simp [hz], ?_⟩
    have hk : EffectKept type pre.1 (tickPowerUp deltaTime type pre).1 := by
      obtain ⟨k1, k2⟩ := e2 hz
      cases type
      · show (tickPowerUp deltaTime _ pre).1.player.isShielded = _
        rw [k1]
      · show (tickPowerUp deltaTime _ pre).1.player.speed = _
        rw [k1]
      · exact k2
    exact effectKept_trans type hpre.2.1
      (effectKept_trans type hk (effectKept_trans type hkept hpost.2.1))

/-- C16 as amended: for an active slot with remaining duration `d` whose
in-flight collectible, if it holds one, is not collected in this call (moved
left by `2 * gameSpeed` it is at distance at least `player.size + size` from
the player), `updatePowerUps` leaves the duration at `d - deltaTime`; if
`d - deltaTime ≤ 0` the slot is inactive and its effect is undone (shield:
flag false; speed: base speed of the difficulty; multiplier: value 1); if
`d - deltaTime > 0` the slot stays active, its own effect is as before, and
its countdown touches neither the player nor the multiplier value. -/
theorem updatePowerUps_countdown (deltaTime : ℚ) (s : Sim) (type : PowerUpType)
    (ha : (s.1.powerUps.get type).active = true)
    (hnc : ∀ o : PowerUpObject, (s.1.powerUps.get type).object = some o →
      hypotLt (s.1.player.x - (o.x - s.1.gameSpeed * 2)) (s.1.player.y - o.y)
        (s.1.player.size + o.size) = false) :
    ((updatePowerUps deltaTime s).1.powerUps.get type).duration =
      (s.1.powerUps.get type).duration - deltaTime ∧
    ((s.1.powerUps.get type).duration - deltaTime ≤ 0 →
      ((updatePowerUps deltaTime s).1.powerUps.get type).active = false ∧
      EffectUndone type (updatePowerUps deltaTime s).1) ∧
    (¬ (s.1.powerUps.get type).duration - deltaTime ≤ 0 →
      ((updatePowerUps deltaTime s).1.powerUps.get type).active = true ∧
      EffectKept type s.1 (updatePowerUps deltaTime s).1 ∧
      (tickPowerUp deltaTime type s).1.player = s.1.player ∧
      (tickPowerUp deltaTime type s).1.powerUps.multiplierValue =
        s.1.powerUps.multiplierValue) := by
  have hmain : ((updatePowerUps deltaTime s).1.powerUps.get type).duration =
        (s.1.powerUps.get type).duration - deltaTime ∧
      ((s.1.powerUps.get type).duration - deltaTime ≤ 0 →
        ((updatePowerUps deltaTime s).1.powerUps.get type).active = false ∧
        EffectUndone type (updatePowerUps deltaTime s).1) ∧
      (¬ (s.1.powerUps.get type).duration - deltaTime ≤ 0 →
        ((updatePowerUps deltaTime s).1.powerUps.get type).active = true ∧
        EffectKept type s.1 (updatePowerUps deltaTime s).1) := by
    rw [updatePowerUps_eq]
    cases type with
    | shield =>
      exact countdown_between_idle deltaTime .shield s.1 s _ (slotKept_refl _ _)
        ⟨rfl, rfl, rfl, rfl⟩
        (slotKept_trans _ (updatePowerUpsBody_slotKept deltaTime .speed .shield _ (by decide))
          (updatePowerUpsBody_slotKept deltaTime .multiplier .shield _ (by decide))) ha hnc
    | speed =>
      exact countdown_between_idle deltaTime .speed s.1 (updatePowerUpsBody deltaTime .shield s) _
        (updatePowerUpsBody_slotKept deltaTime .shield .speed s (by decide))
        (updatePowerUpsBody_geometry deltaTime .shield s)
        (updatePowerUpsBody_slotKept deltaTime .multiplier .speed _ (by decide)) ha hnc
    | multiplier =>
      exact countdown_between_idle deltaTime .multiplier s.1
        (updatePowerUpsBody deltaTime .speed (updatePowerUpsBody deltaTime .shield s)) _
        (slotKept_trans _ (updatePowerUpsBody_slotKept deltaTime .shield .multiplier s (by decide))
          (updatePowerUpsBody_slotKept deltaTime .speed .multiplier _ (by decide)))
        (sameGeometry_trans
          (updatePowerUpsBody_geometry deltaTime .speed (updatePowerUpsBody deltaTime .shield s))
          (updatePowerUpsBody_geometry deltaTime .shield s))
        (slotKept_refl _ _) ha hnc
  obtain ⟨m1, m2, m3⟩ := hmain
  refine ⟨m1, m2, fun hz => ⟨(m3 hz).1, (m3 hz).2, (tickPowerUp_effect deltaTime type s ha).2 hz⟩⟩

/-- C16 as amended, at a shielded run whose shield has 5 ms left and whose
shield collectible is in flight at `x = 700`, far from the player, with a
frame of 16 ms: the shield expires with duration `-11` and the flag cleared. -/
theorem updatePowerUps_countdown_witness :
    (shieldExpiringFar.powerUps.get .shield).active = true ∧
    (shieldExpiringFar.powerUps.get .shield).object = some farShieldObject ∧
    hypotLt (shieldExpiringFar.player.x - (farShieldObject.x - shieldExpiringFar.gameSpeed * 2))
      (shieldExpiringFar.player.y - farShieldObject.y)
      (shieldExpiringFar.player.size + farShieldObject.size) = false ∧
    shieldExpiringFar.player.isShielded = true ∧
    (shieldExpiringFar.powerUps.get .shield).duration - 16 ≤ 0 ∧
    ((updatePowerUps 16 (shieldExpiringFar, [])).1.powerUps.get .shield).duration =
      (shieldExpiringFar.powerUps.get .shield).duration - 16 ∧
    ((updatePowerUps 16 (shieldExpiringFar, [])).1.powerUps.get .shield).active = false ∧
    EffectUndone .shield (updatePowerUps 16 (shieldExpiringFar, [])).1 := by
  have hfar : hypotLt
      (shieldExpiringFar.player.x - (farShieldObject.x - shieldExpiringFar.gameSpeed * 2))
      (shieldExpiringFar.player.y - farShieldObject.y)
      (shieldExpiringFar.player.size + farShieldObject.size) = false := by decide!
  have hnc : ∀ o : PowerUpObject,
      ((shieldExpiringFar, ([] : Draws)).1.powerUps.get .shield).object = some o →
      hypotLt ((shieldExpiringFar, ([] : Draws)).1.player.x -
          (o.x - (shieldExpiringFar, ([] : Draws)).1.gameSpeed * 2))
        ((shieldExpiringFar, ([] : Draws)).1.player.y - o.y)
        ((shieldExpiringFar, ([] : Draws)).1.player.size + o.size) = false := by
    intro o ho
    have h : some farShieldObject = some o := ho
    cases h
    exact hfar
  have hz : (shieldExpiringFar.powerUps.get .shield).duration - 16 ≤ 0 := by decide!
  have hc := updatePowerUps_countdown 16 (shieldExpiringFar, []) .shield rfl hnc
  exact ⟨rfl, rfl, hfar, rfl, hz, hc.1, (hc.2.1 hz).1, (hc.2.1 hz).2⟩

/-- C16 fails as stated: an active shield with 5 ms left whose collectible is
within reach of the player is, after `updatePowerUps 16`, still active with
duration 10000 and the player still shielded, not inactive with duration
`-11`. -/
theorem updatePowerUps_expiry_then_pickup :
    (shieldExpiringInReach.powerUps.get .shield).active = true ∧
    (shieldExpiringInReach.powerUps.get .shield).duration = 5 ∧
    (shieldExpiringInReach.powerUps.get .shield).object = some shieldObject ∧
    (updatePowerUps 16 (shieldExpiringInReach, [])).1.powerUps.get .shield =
      { active := true, duration := 10000, object := none } ∧
    (updatePowerUps 16 (shieldExpiringInReach, [])).1.player.isShielded = true ∧
    ((updatePowerUps 16 (shieldExpiringInReach, [])).1.powerUps.get .shield).duration ≠ 5 - 16 := by
  decide!
/-! ## Level and score -/

/-- The method `checkCollisions` never lowers the score. -/
theorem checkCollisions_score (s : Sim) : s.1.score ≤ (checkCollisions s).1.score := by
  unfold checkCollisions
  dsimp only
  refine forEach_invariant _ _ (fun t => s.1.score ≤ t.1.score) ?_ _ _ _ ?_
  · intro a k t ht
    unfold checkObstaclesBody
    split_ifs
    · obtain ⟨ps, hps⟩ := hitObstacle_fst t
      rw [hps]
      exact ht
    · exact ht
  · refine forEach_invariant _ _ (fun t => s.1.score ≤ t.1.score) ?_ _ _ _ le_rfl
    intro a k t ht
    unfold checkNotesBody
    dsimp only
    split_ifs
    · obtain ⟨ps, hps⟩ := collectNote_fst a k t
      rw [hps]
      dsimp only
      have hb : (0 : ℚ) ≤
          (if t.1.currentMelody.length + 1 > 5 then ((t.1.currentMelody.length + 1 : ℕ) : ℚ) * 10
           else 0) := by
        split_ifs
        · positivity
        · exact le_rfl
      have ht2 : s.1.score ≤ t.1.score := ht
      linarith
    · exact ht

/-- The steps of `update` before `checkCollisions` keep score and level. -/
theorem before_collisions_run (deltaTime : ℚ) (s : Sim) :
    (updatePowerUps deltaTime (updateParticles (updateObstacles (updateNotes
      (spawnObjects deltaTime (updateStars (updatePlayer s.1, s.2))))))).1.score = s.1.score ∧
    (updatePowerUps deltaTime (updateParticles (updateObstacles (updateNotes
      (spawnObjects deltaTime (updateStars (updatePlayer s.1, s.2))))))).1.level = s.1.level := by
  obtain ⟨_, _, _, t4, t5⟩ := updateStars_run (updatePlayer s.1, s.2)
  obtain ⟨r1, r2, _, _⟩ := spawnObjects_run deltaTime (updateStars (updatePlayer s.1, s.2))
  obtain ⟨n4, h4, _⟩ := updateNotes_frame
    (spawnObjects deltaTime (updateStars (updatePlayer s.1, s.2)))
  obtain ⟨n5, h5, _⟩ := updateObstacles_frame (updateNotes
    (spawnObjects deltaTime (updateStars (updatePlayer s.1, s.2))))
  obtain ⟨n6, h6, _⟩ := updateParticles_frame (updateObstacles (updateNotes
    (spawnObjects deltaTime (updateStars (updatePlayer s.1, s.2)))))
  obtain ⟨pu, pl, ps, h7⟩ := updatePowerUps_frame deltaTime (updateParticles (updateObstacles
    (updateNotes (spawnObjects deltaTime (updateStars (updatePlayer s.1, s.2))))))
  rw [h7, h6, h5, h4]
  dsimp only
  rw [r1, r2, t4, t5]
  exact ⟨rfl, rfl⟩

/-- The method `updateDifficulty` on the level. -/
theorem updateDifficulty_level (g : Game) :
    (updateDifficulty g).level = max g.level (((⌊g.score / 1000⌋ : ℤ) : ℚ) + 1) ∧
    (updateDifficulty g).score = g.score ∧
    g.level ≤ (updateDifficulty g).level ∧
    g.gameSpeed ≤ (updateDifficulty g).gameSpeed := by
  unfold updateDifficulty
  dsimp only
  split_ifs with h
  · refine ⟨(max_eq_right (le_of_lt h)).symm, rfl, le_of_lt h, ?_⟩
    show g.gameSpeed ≤ g.gameSpeed + 0.5
    norm_num
  · exact ⟨(max_eq_left (not_lt.mp h)).symm, rfl, le_rfl, le_rfl⟩

/-- A frame keeps the level equal to `floor(score / 1000) + 1`. -/
theorem simulationStep_level (deltaTime : ℚ) (s : Sim)
    (h : s.1.level = ((⌊s.1.score / 1000⌋ : ℤ) : ℚ) + 1) :
    (simulationStep deltaTime s).1.level =
      ((⌊(simulationStep deltaTime s).1.score / 1000⌋ : ℤ) : ℚ) + 1 := by
  obtain ⟨b1, b2⟩ := before_collisions_run deltaTime s
  have hsc := checkCollisions_score (updatePowerUps deltaTime (updateParticles (updateObstacles
    (updateNotes (spawnObjects deltaTime (updateStars (updatePlayer s.1, s.2)))))))
  obtain ⟨c1, c2, c3, c4, c5, hc⟩ := checkCollisions_frame (updatePowerUps deltaTime
    (updateParticles (updateObstacles (updateNotes
      (spawnObjects deltaTime (updateStars (updatePlayer s.1, s.2)))))))
  have hlv : (checkCollisions (updatePowerUps deltaTime (updateParticles (updateObstacles
      (updateNotes (spawnObjects deltaTime (updateStars (updatePlayer s.1, s.2)))))))).1.level =
      s.1.level := by
    rw [hc]
    exact b2
  rw [b1] at hsc
  unfold simulationStep
  dsimp only
  revert hsc hlv
  generalize (checkCollisions (updatePowerUps deltaTime (updateParticles (updateObstacles
      (updateNotes (spawnObjects deltaTime (updateStars (updatePlayer s.1, s.2)))))))).1 = g8
  intro hsc hlv
  obtain ⟨d1, d2, _, _⟩ := updateDifficulty_level g8
  rw [d1, d2, hlv, h]
  apply max_eq_right
  have : ⌊s.1.score / 1000⌋ ≤ ⌊g8.score / 1000⌋ :=
    Int.floor_le_floor (div_le_div_of_nonneg_right hsc (by norm_num))
  have : ((⌊s.1.score / 1000⌋ : ℤ) : ℚ) ≤ ((⌊g8.score / 1000⌋ : ℤ) : ℚ) := by exact_mod_cast this
  linarith

/-- Every reachable state has its level equal to `floor(score / 1000) + 1`. -/
theorem reachable_level (g : Game) (hg : Reachable g) :
    g.level = ((⌊g.score / 1000⌋ : ℤ) : ℚ) + 1 := by
  induction hg with
  | start g0 =>
    have h1 : (startGame g0).level = 1 := by
      unfold startGame updateDifficultySettings
      dsimp only
      split <;> rfl
    have h2 : (startGame g0).score = 0 := by
      unfold startGame updateDifficultySettings
      dsimp only
      split <;> rfl
    rw [h1, h2]
    norm_num
  | step g0 deltaTime keys r _ ih =>
    by_cases hp : g0.gameState = .playing
    · have hstep := simulationStep_level deltaTime ({ g0 with keys := keys }, r) ih
      rw [update_playing deltaTime _ hp]
      revert hstep
      generalize simulationStep deltaTime ({ g0 with keys := keys }, r) = t
      intro hstep
      split_ifs
      · exact hstep
      · exact hstep
    · rw [update_not_playing deltaTime _ hp]
      exact ih

/-- C17: in every state reachable from `startGame` by `update` steps the level
equals `floor(score / 1000) + 1`; and `updateDifficulty` sets the level to the
maximum of the old level and `floor(score / 1000) + 1`, lowering neither the
level nor the game speed. -/
theorem level_follows_score :
    (∀ g : Game, Reachable g → g.level = ((⌊g.score / 1000⌋ : ℤ) : ℚ) + 1) ∧
    (∀ g : Game,
      (updateDifficulty g).level = max g.level (((⌊g.score / 1000⌋ : ℤ) : ℚ) + 1) ∧
      g.level ≤ (updateDifficulty g).level ∧
      g.gameSpeed ≤ (updateDifficulty g).gameSpeed) :=
  ⟨reachable_level, fun g =>
    ⟨(updateDifficulty_level g).1, (updateDifficulty_level g).2.2.1,
      (updateDifficulty_level g).2.2.2⟩⟩

/-- C17, at the second frame of the reference run. -/
theorem level_follows_score_witness :
    Reachable (narrowRun 2) ∧
      (narrowRun 2).level = ((⌊(narrowRun 2).score / 1000⌋ : ℤ) : ℚ) + 1 :=
  ⟨narrowRun_reachable 2, level_follows_score.1 (narrowRun 2) (narrowRun_reachable 2)⟩
/-! ## Difficulty at the start of a run -/

/-- C14: what the code does at `startGame` with the easy setting: the game
speed is 1.6 (`max 1.5 (2 * 0.8)`), not the baseline 1.5, because the
definition of `updateDifficultySettings` at line 1374 replaces the one at
line 772, which would give 1.5; player speed is 6.  Normal gives 2 and 5,
hard gives 3 and 4. -/
theorem startGame_easy_speed :
    (startGame easyMenu).gameSpeed = 1.6 ∧
    (startGame easyMenu).gameSpeed ≠ 1.5 ∧
    (startGame easyMenu).player.speed = 6 ∧
    (updateDifficultySettingsShadowed { easyMenu with gameSpeed := 2 }).gameSpeed = 1.5 ∧
    (startGame wideMenu).gameSpeed = 2 ∧ (startGame wideMenu).player.speed = 5 ∧
    (startGame (changeDifficulty wideMenu .hard)).gameSpeed = 3 ∧
    (startGame (changeDifficulty wideMenu .hard)).player.speed = 4 := by
  decide!

/-! ## Loops that splice while they iterate -/

/-- C18: what the code does when the first of two notes leaves the canvas:
`updateNotes` removes it, and the note that followed it in the list is
skipped, keeping `x = 400` and pulse 0 instead of moving to `x = 396` with
pulse 0.1. -/
theorem updateNotes_skips_after_removal :
    leavingNoteGame.gameSpeed = 2 ∧
    (updateNotes (leavingNoteGame, [])).1.notes = [trailingNote] ∧
    (updateNotes (leavingNoteGame, [])).1.notes ≠
      [{ trailingNote with x := 396, pulse := 0.1 }] := by
  decide!

/-- C19: what the code does with two live notes on the player, adjacent in the
list: `checkCollisions` collects the first one only; the second one is still
in the list, uncollected and within reach, and the score has risen by 100, not
by 200. -/
theorem checkCollisions_skips_adjacent_note :
    hypotLt (adjacentNotesGame.player.x - seededNote.x) (adjacentNotesGame.player.y - seededNote.y)
      (adjacentNotesGame.player.size + seededNote.size) = true ∧
    hypotLt (adjacentNotesGame.player.x - secondNote.x) (adjacentNotesGame.player.y - secondNote.y)
      (adjacentNotesGame.player.size + secondNote.size) = true ∧
    adjacentNotesGame.score = 0 ∧
    (checkCollisions (adjacentNotesGame, [])).1.notes = [secondNote] ∧
    (checkCollisions (adjacentNotesGame, [])).1.player = adjacentNotesGame.player ∧
    (checkCollisions (adjacentNotesGame, [])).1.score = 100 := by
  decide!
/-! ## Obstacles -/

/-- The second loop of `checkCollisions` from index `k` on, with `fuel` visits
left: obstacles and player stay, and health falls by 20 for each of the
visited obstacles that overlaps the player. -/
theorem obstacles_loop (obstacles : List Obstacle) (p : Player) :
    ∀ (fuel k : Nat) (t : Sim), t.1.obstacles = obstacles → t.1.player = p →
      (forEach (fun g => g.obstacles) checkObstaclesBody fuel k t).1.obstacles = obstacles ∧
      (forEach (fun g => g.obstacles) checkObstaclesBody fuel k t).1.player = p ∧
      (forEach (fun g => g.obstacles) checkObstaclesBody fuel k t).1.notes = t.1.notes ∧
      (forEach (fun g => g.obstacles) checkObstaclesBody fuel k t).1.health =
        t.1.health - 20 * (((obstacles.drop k).take fuel).countP (overlapsObstacle p) : ℕ) := by
  intro fuel
  induction fuel with
  | zero =>
    intro k t ho hp
    simp [forEach, ho, hp]
  | succ n ih =>
    intro k t ho hp
    unfold forEach
    rw [ho]
    cases hk : obstacles[k]? with
    | none =>
      dsimp only
      have hlen : obstacles.length ≤ k := by
        by_contra hlt
        rw [List.getElem?_eq_getElem (not_le.mp hlt)] at hk
        exact Option.noConfusion hk
      obtain ⟨i1, i2, i3, i4⟩ := ih (k + 1) t ho hp
      refine ⟨i1, i2, i3, ?_⟩
      rw [i4, List.drop_eq_nil_of_le hlen, List.drop_eq_nil_of_le (Nat.le_succ_of_le hlen)]
      simp
    | some a =>
      dsimp only
      have hlt : k < obstacles.length := by
        by_contra hge
        rw [List.getElem?_eq_none (not_lt.mp hge)] at hk
        exact Option.noConfusion hk
      have ha : obstacles[k] = a := by
        rw [List.getElem?_eq_getElem hlt] at hk
        exact Option.some.inj hk
      have hdrop : obstacles.drop k = a :: obstacles.drop (k + 1) := by
        rw [List.drop_eq_getElem_cons hlt, ha]
      rw [hdrop, List.take_succ_cons, List.countP_cons]
      by_cases hov : overlapsObstacle p a = true
      · have hb : checkObstaclesBody a k t = hitObstacle t := by
          unfold checkObstaclesBody
          rw [hp, if_pos hov]
        obtain ⟨ps, hps⟩ := hitObstacle_fst t
        obtain ⟨i1, i2, i3, i4⟩ := ih (k + 1) (checkObstaclesBody a k t)
          (by rw [hb, hps]; exact ho) (by rw [hb, hps]; exact hp)
        refine ⟨i1, i2, ?_, ?_⟩
        · rw [i3, hb, hps]
        · rw [i4, hb, hps, if_pos hov]
          push_cast
          ring
      · have hb : checkObstaclesBody a k t = t := by
          unfold checkObstaclesBody
          rw [hp, if_neg hov]
        rw [hb]
        obtain ⟨i1, i2, i3, i4⟩ := ih (k + 1) t ho hp
        refine ⟨i1, i2, i3, ?_⟩
        rw [i4, if_neg hov]
        simp

/-- The first loop of `checkCollisions` changes nothing when no note is within
reach of the player. -/
theorem notes_loop_idle (s : Sim)
    (hn : ∀ note ∈ s.1.notes,
      hypotLt (s.1.player.x - note.x) (s.1.player.y - note.y) (s.1.player.size + note.size) =
        false) :
    forEach (fun g => g.notes) checkNotesBody s.1.notes.length 0 s = s := by
  refine forEach_invariant_visited _ _ (fun t => t = s) ?_ _ _ _ rfl
  intro a k t ht hk
  subst ht
  have hmem : a ∈ t.1.notes := List.getElem?_mem hk
  unfold checkNotesBody
  dsimp only
  rw [hn a hmem]
  rfl

/-- C20: when no note is within reach of the player, `checkCollisions` leaves
the obstacles (and the notes and the player) as they were and lowers health by
`20 * k`, where `k` counts the obstacles whose rectangle strictly overlaps the
player's square; a second call lowers it by `20 * k` again. -/
theorem checkCollisions_obstacle_damage (s : Sim)
    (hn : ∀ note ∈ s.1.notes,
      hypotLt (s.1.player.x - note.x) (s.1.player.y - note.y) (s.1.player.size + note.size) =
        false) :
    (checkCollisions s).1.obstacles = s.1.obstacles ∧
    (checkCollisions s).1.player = s.1.player ∧
    (checkCollisions s).1.notes = s.1.notes ∧
    (checkCollisions s).1.health =
      s.1.health - 20 * ((s.1.obstacles.countP (overlapsObstacle s.1.player) : ℕ) : ℚ) ∧
    (checkCollisions (checkCollisions s)).1.health =
      s.1.health - 40 * ((s.1.obstacles.countP (overlapsObstacle s.1.player) : ℕ) : ℚ) := by
  have once : ∀ t : Sim,
      (∀ note ∈ t.1.notes,
        hypotLt (t.1.player.x - note.x) (t.1.player.y - note.y) (t.1.player.size + note.size) =
          false) →
      (checkCollisions t).1.obstacles = t.1.obstacles ∧
      (checkCollisions t).1.player = t.1.player ∧
      (checkCollisions t).1.notes = t.1.notes ∧
      (checkCollisions t).1.health =
        t.1.health - 20 * ((t.1.obstacles.countP (overlapsObstacle t.1.player) : ℕ) : ℚ) := by
    intro t ht
    unfold checkCollisions
    dsimp only
    rw [notes_loop_idle t ht]
    obtain ⟨i1, i2, i3, i4⟩ := obstacles_loop t.1.obstacles t.1.player t.1.obstacles.length 0 t
      rfl rfl
    refine ⟨i1, i2, i3, ?_⟩
    rw [i4, List.drop_zero, List.take_length]
  obtain ⟨a1, a2, a3, a4⟩ := once s hn
  have hn2 : ∀ note ∈ (checkCollisions s).1.notes,
      hypotLt ((checkCollisions s).1.player.x - note.x) ((checkCollisions s).1.player.y - note.y)
        ((checkCollisions s).1.player.size + note.size) = false := by
    rw [a2, a3]
    exact hn
  obtain ⟨b1, b2, b3, b4⟩ := once (checkCollisions s) hn2
  refine ⟨a1, a2, a3, a4, ?_⟩
  rw [b4, a1, a2, a4]
  ring

/-- C20, at a run without notes and with three obstacles, two on the player. -/
theorem checkCollisions_obstacle_damage_witness :
    (∀ note ∈ obstaclesGame.notes,
      hypotLt (obstaclesGame.player.x - note.x) (obstaclesGame.player.y - note.y)
        (obstaclesGame.player.size + note.size) = false) ∧
    (checkCollisions (obstaclesGame, [])).1.obstacles = obstaclesGame.obstacles ∧
    (checkCollisions (obstaclesGame, [])).1.health =
      obstaclesGame.health -
        20 * ((obstaclesGame.obstacles.countP (overlapsObstacle obstaclesGame.player) : ℕ) : ℚ) :=
  ⟨by decide!,
    (checkCollisions_obstacle_damage (obstaclesGame, []) (by decide!)).1,
    (checkCollisions_obstacle_damage (obstaclesGame, []) (by decide!)).2.2.2.1⟩

/-! ## Changing the difficulty -/

/-- C21: with current game speed `g`, `updateDifficultySettings` yields, for
normal, game speed `max 2 g` (never lowered, at least 2) and player speed 5;
for easy, `max 1.5 (0.8 * g)` and 6; for hard, `max 3 (1.2 * g)` and 4; for any
other value it leaves both unchanged.  So a game speed of at least 1.5 stays at
least 1.5, hence positive, also through the `change` handler of the difficulty
selector. -/
theorem updateDifficultySettings_values (g : Game) :
    (g.settings.difficulty = .normal →
      (updateDifficultySettings g).gameSpeed = max 2 g.gameSpeed ∧
      (updateDifficultySettings g).player.speed = 5 ∧
      g.gameSpeed ≤ (updateDifficultySettings g).gameSpeed ∧
      2 ≤ (updateDifficultySettings g).gameSpeed) ∧
    (g.settings.difficulty = .easy →
      (updateDifficultySettings g).gameSpeed = max 1.5 (0.8 * g.gameSpeed) ∧
      (updateDifficultySettings g).player.speed = 6) ∧
    (g.settings.difficulty = .hard →
      (updateDifficultySettings g).gameSpeed = max 3 (1.2 * g.gameSpeed) ∧
      (updateDifficultySettings g).player.speed = 4) ∧
    (g.settings.difficulty = .other →
      (updateDifficultySettings g).gameSpeed = g.gameSpeed ∧
      (updateDifficultySettings g).player.speed = g.player.speed) ∧
    (1.5 ≤ g.gameSpeed →
      1.5 ≤ (updateDifficultySettings g).gameSpeed ∧ 0 < (updateDifficultySettings g).gameSpeed) ∧
    (∀ d : Difficulty, 1.5 ≤ g.gameSpeed →
      1.5 ≤ (changeDifficulty g d).gameSpeed ∧ 0 < (changeDifficulty g d).gameSpeed) := by
  have key : ∀ g1 : Game, 1.5 ≤ g1.gameSpeed →
      1.5 ≤ (updateDifficultySettings g1).gameSpeed ∧
        0 < (updateDifficultySettings g1).gameSpeed := by
    intro g1 h
    have h15 : (0 : ℚ) < 1.5 := by norm_num
    have hge : (1.5 : ℚ) ≤ (updateDifficultySettings g1).gameSpeed := by
      unfold updateDifficultySettings
      split
      · exact le_max_left _ _
      · exact le_trans (by norm_num) (le_max_left (2 : ℚ) _)
      · exact le_trans (by norm_num) (le_max_left (3 : ℚ) _)
      · exact h
    exact ⟨hge, lt_of_lt_of_le h15 hge⟩
  refine ⟨?_, ?_, ?_, ?_, key g, ?_⟩
  · intro h
    unfold updateDifficultySettings
    rw [h]
    exact ⟨rfl, rfl, le_max_right _ _, le_max_left _ _⟩
  · intro h
    unfold updateDifficultySettings
    rw [h]
    exact ⟨by dsimp only; rw [mul_comm], rfl⟩
  · intro h
    unfold updateDifficultySettings
    rw [h]
    exact ⟨by dsimp only; rw [mul_comm], rfl⟩
  · intro h
    unfold updateDifficultySettings
    rw [h]
    exact ⟨rfl, rfl⟩
  · intro d h
    exact key { g with settings := { g.settings with difficulty := d } } h

/-- C21, at a run of 800 by 600 (normal, game speed 2) switched to hard. -/
theorem updateDifficultySettings_values_witness :
    (changeDifficulty heldGame .hard).settings.difficulty = .hard ∧
    (updateDifficultySettings { heldGame with
        settings := { heldGame.settings with difficulty := .hard } }).gameSpeed =
      max 3 (1.2 * heldGame.gameSpeed) ∧
    (updateDifficultySettings { heldGame with
        settings := { heldGame.settings with difficulty := .hard } }).player.speed = 4 :=
  ⟨rfl,
    (updateDifficultySettings_values { heldGame with
      settings := { heldGame.settings with difficulty := .hard } }).2.2.1 rfl⟩
/-! ## Collisions do not read the power-ups -/

/-- Two loops over arrays that agree, with states related by `R`, stay
related when each call of the callback keeps them related. -/
theorem forEach_lockstep {α : Type} (arr : Game → List α) (body : α → Nat → Sim → Sim)
    (R : Sim → Sim → Prop) (harr : ∀ s t, R s t → arr t.1 = arr s.1)
    (hbody : ∀ a k s t, R s t → R (body a k s) (body a k t)) :
    ∀ (fuel k : Nat) (s t : Sim), R s t →
      R (forEach arr body fuel k s) (forEach arr body fuel k t) := by
  intro fuel
  induction fuel with
  | zero => intro k s t h; simpa [forEach] using h
  | succ n ih =>
    intro k s t h
    unfold forEach
    rw [harr s t h]
    cases (arr s.1)[k]? with
    | none => exact ih _ _ _ h
    | some a => exact ih _ _ _ (hbody a k s t h)

theorem collectNote_sameView (note : Note) (index : Nat) (s t : Sim)
    (h : SameCollisionView s.1 t.1) :
    SameCollisionView (collectNote note index s).1 (collectNote note index t).1 := by
  obtain ⟨ps, hps⟩ := collectNote_fst note index s
  obtain ⟨qs, hqs⟩ := collectNote_fst note index t
  obtain ⟨h1, h2, h3, h4, h5, h6, h7, h8⟩ := h
  rw [hps, hqs]
  unfold SameCollisionView
  dsimp only
  rw [h1, h3, h4, h5]
  exact ⟨rfl, h2, rfl, rfl, rfl, h6, h7, h8⟩

theorem hitObstacle_sameView (s t : Sim) (h : SameCollisionView s.1 t.1) :
    SameCollisionView (hitObstacle s).1 (hitObstacle t).1 := by
  obtain ⟨ps, hps⟩ := hitObstacle_fst s
  obtain ⟨qs, hqs⟩ := hitObstacle_fst t
  obtain ⟨h1, h2, h3, h4, h5, h6, h7, h8⟩ := h
  rw [hps, hqs]
  unfold SameCollisionView
  dsimp only
  rw [h4]
  exact ⟨h1, h2, h3, rfl, rfl, h6, h7, h8⟩

/-- The method `checkCollisions` on two games that agree on what it reads. -/
theorem checkCollisions_sameView (s t : Sim) (h : SameCollisionView s.1 t.1) :
    SameCollisionView (checkCollisions s).1 (checkCollisions t).1 := by
  unfold checkCollisions
  dsimp only
  have hnotes := forEach_lockstep (fun g => g.notes) checkNotesBody
    (fun a b => SameCollisionView a.1 b.1) (fun a b hab => hab.1) (by
      intro note k a b hab
      unfold checkNotesBody
      dsimp only
      rw [hab.2.2.2.2.2.1, hab.2.2.2.2.2.2.1, hab.2.2.2.2.2.2.2]
      split_ifs
      · exact collectNote_sameView note k a b hab
      · exact hab) s.1.notes.length 0 s t h
  rw [h.1]
  have hobs := forEach_lockstep (fun g => g.obstacles) checkObstaclesBody
    (fun a b => SameCollisionView a.1 b.1) (fun a b hab => hab.2.1) (by
      intro obstacle k a b hab
      have hov : overlapsObstacle b.1.player obstacle = overlapsObstacle a.1.player obstacle := by
        unfold overlapsObstacle
        rw [hab.2.2.2.2.2.1, hab.2.2.2.2.2.2.1, hab.2.2.2.2.2.2.2]
      unfold checkObstaclesBody
      rw [hov]
      split_ifs
      · exact hitObstacle_sameView a b hab
      · exact hab)
    (forEach (fun g => g.notes) checkNotesBody s.1.notes.length 0 s).1.obstacles.length 0 _ _
    hnotes
  rw [hnotes.2.1]
  exact hobs

/-- C24: for two world states that differ only in the active flags and
durations of the power-up slots, in the multiplier value and in the shielded
flag of the player (and whatever the random draws of either), `checkCollisions`
yields the same score, health, melody and notes. -/
theorem checkCollisions_ignores_powerUps (s t : Sim) (h : PowerUpVariant s.1 t.1) :
    (checkCollisions t).1.score = (checkCollisions s).1.score ∧
    (checkCollisions t).1.health = (checkCollisions s).1.health ∧
    (checkCollisions t).1.currentMelody = (checkCollisions s).1.currentMelody ∧
    (checkCollisions t).1.notes = (checkCollisions s).1.notes := by
  have hview : SameCollisionView s.1 t.1 := by
    obtain ⟨ht, _⟩ := h
    rw [ht]
    exact ⟨rfl, rfl, rfl, rfl, rfl, rfl, rfl, rfl⟩
  obtain ⟨h1, _, h3, h4, h5, _⟩ := checkCollisions_sameView s t hview
  exact ⟨h3, h4, h5, h1⟩

/-- C24, at a run with a note and two obstacles on the player, without and
with an active shield and multiplier: score 100 and health 60 in both. -/
theorem checkCollisions_ignores_powerUps_witness :
    PowerUpVariant plainCollision poweredCollision ∧
    poweredCollision.player.isShielded = true ∧
    (checkCollisions (poweredCollision, [])).1.score = (checkCollisions (plainCollision, [])).1.score ∧
    (checkCollisions (poweredCollision, [])).1.health =
      (checkCollisions (plainCollision, [])).1.health ∧
    (checkCollisions (poweredCollision, [])).1.score = 100 ∧
    (checkCollisions (poweredCollision, [])).1.health = 60 := by
  have hv : PowerUpVariant plainCollision poweredCollision :=
    ⟨rfl, fun type => by cases type <;> rfl⟩
  have hc := checkCollisions_ignores_powerUps (plainCollision, []) (poweredCollision, []) hv
  exact ⟨hv, rfl, hc.1, hc.2.1, by decide!, by decide!⟩
/-! ## Effects of the power-ups over a run -/

theorem modifySlot_player (g : Game) (type : PowerUpType) (f : PowerUp → PowerUp) :
    (g.modifySlot type f).player = g.player := rfl

theorem activatePowerUp_activatedPlayer (type : PowerUpType) (s : Sim) :
    (activatePowerUp type s).1.player = activatedPlayer type s.1.player := by
  rw [activatePowerUp_player]
  cases type <;> rfl

/-- The second half of the callback of a kind: either its collectible was
collected, the slot is active afresh and player and multiplier value are those
that `activatePowerUp` sets, or the activation state of the slot, the player
and the multiplier value are as before. -/
theorem movePowerUpObject_cases (type : PowerUpType) (s : Sim) :
    ((movePowerUpObject type s).1.powerUps.get type =
        { active := true, duration := 10000, object := none } ∧
      (movePowerUpObject type s).1.player =
        activatedPlayer type s.1.player) ∨
    (((movePowerUpObject type s).1.powerUps.get type).active = (s.1.powerUps.get type).active ∧
      ((movePowerUpObject type s).1.powerUps.get type).duration =
        (s.1.powerUps.get type).duration ∧
      (movePowerUpObject type s).1.player = s.1.player) := by
  cases ho : (s.1.powerUps.get type).object with
  | none => rw [movePowerUpObject_none type s ho]; exact Or.inr ⟨rfl, rfl, rfl⟩
  | some o =>
    obtain ⟨s3, h3, hfin⟩ := movePowerUpObject_some type s o ho
    rcases h3 with ⟨h3, hd⟩ | ⟨h3, _⟩
    · left
      refine ⟨movePowerUpObject_activates type s o ho hd, ?_⟩
      have hp : s3.1.player = activatedPlayer type s.1.player := by
        rw [h3]
        dsimp only
        rw [modifySlot_player, activatePowerUp_activatedPlayer]
        dsimp only
        rw [modifySlot_player]
      rcases hfin with hfin | hfin
      · rw [hfin, hp]
      · rw [hfin]
        dsimp only
        rw [modifySlot_player]
        exact hp
    · right
      have hs3 : (s3.1.powerUps.get type).active = (s.1.powerUps.get type).active ∧
          (s3.1.powerUps.get type).duration = (s.1.powerUps.get type).duration ∧
          s3.1.player = s.1.player := by
        rw [h3]
        dsimp only
        obtain ⟨k1, k2⟩ := modifySlot_object_keeps s.1 type type
          (some { o with x := o.x - s.1.gameSpeed * 2 })
        exact ⟨k1, k2, modifySlot_player _ _ _⟩
      rcases hfin with hfin | hfin
      · rw [hfin]; exact hs3
      · rw [hfin]
        dsimp only
        obtain ⟨k1, k2⟩ := modifySlot_object_keeps s3.1 type type none
        exact ⟨k1.trans hs3.1, k2.trans hs3.2.1, (modifySlot_player _ _ _).trans hs3.2.2⟩

/-- The countdown of an inactive slot changes nothing. -/
theorem tickPowerUp_inactive (deltaTime : ℚ) (type : PowerUpType) (s : Sim)
    (ha : (s.1.powerUps.get type).active = false) : tickPowerUp deltaTime type s = s := by
  unfold tickPowerUp
  rw [if_neg (by rw [ha]; decide)]

theorem tickPowerUp_settings (deltaTime : ℚ) (type : PowerUpType) (s : Sim) :
    (tickPowerUp deltaTime type s).1.settings = s.1.settings :=
  powerFrame_settings _ _ (powerFrame_tick _ _ _ _ (powerFrame_refl s.1))

theorem movePowerUpObject_settings (type : PowerUpType) (s : Sim) :
    (movePowerUpObject type s).1.settings = s.1.settings :=
  powerFrame_settings _ _ (powerFrame_move _ _ _ (powerFrame_refl s.1))

/-- The countdown of the shield keeps flag and slot in agreement. -/
theorem tickPowerUp_shieldFlag (deltaTime : ℚ) (s : Sim) (h : ShieldFlagAgrees s.1) :
    ShieldFlagAgrees (tickPowerUp deltaTime .shield s).1 := by
  cases ha : (s.1.powerUps.get .shield).active with
  | false => rw [tickPowerUp_inactive deltaTime .shield s ha]; exact h
  | true =>
    have hslot := tickPowerUp_slot deltaTime .shield s
    rw [if_pos ha] at hslot
    obtain ⟨e1, e2⟩ := tickPowerUp_effect deltaTime .shield s ha
    unfold ShieldFlagAgrees
    rw [hslot]
    by_cases hz : (s.1.powerUps.get .shield).duration - deltaTime ≤ 0
    · have hu : (tickPowerUp deltaTime .shield s).1.player.isShielded = false := e1 hz
      rw [hu]
      simp [hz]
    · rw [(e2 hz).1]
      have h0 : s.1.player.isShielded = (s.1.powerUps.get .shield).active := h
      rw [h0, ha]
      simp [hz]

/-- The collection test of the shield keeps flag and slot in agreement. -/
theorem movePowerUpObject_shieldFlag (s : Sim) (h : ShieldFlagAgrees s.1) :
    ShieldFlagAgrees (movePowerUpObject .shield s).1 := by
  unfold ShieldFlagAgrees
  rcases movePowerUpObject_cases .shield s with ⟨h1, h2⟩ | ⟨h1, _, h3⟩
  · rw [h1, h2]
    rfl
  · rw [h1, h3]
    exact h

/-- The countdown of the speed slot keeps the player speed at the base or at
the base times a power of 1.5. -/
theorem tickPowerUp_speedStacked (deltaTime : ℚ) (s : Sim) (h : SpeedStacked s.1) :
    SpeedStacked (tickPowerUp deltaTime .speed s).1 := by
  cases ha : (s.1.powerUps.get .speed).active with
  | false => rw [tickPowerUp_inactive deltaTime .speed s ha]; exact h
  | true =>
    have hslot := tickPowerUp_slot deltaTime .speed s
    rw [if_pos ha] at hslot
    obtain ⟨e1, e2⟩ := tickPowerUp_effect deltaTime .speed s ha
    have hset := tickPowerUp_settings deltaTime .speed s
    unfold SpeedStacked
    rw [hslot, hset]
    by_cases hz : (s.1.powerUps.get .speed).duration - deltaTime ≤ 0
    · have hu : (tickPowerUp deltaTime .speed s).1.player.speed =
          if (tickPowerUp deltaTime .speed s).1.settings.difficulty = .easy then 6
          else if (tickPowerUp deltaTime .speed s).1.settings.difficulty = .normal then 5
          else 4 := e1 hz
      rw [hset] at hu
      refine ⟨fun _ => hu, fun hc => ?_⟩
      simp [hz] at hc
    · rw [(e2 hz).1]
      refine ⟨fun hc => ?_, fun _ => h.2 ha⟩
      simp [hz] at hc

/-- The collection test of the speed slot multiplies the player speed by 1.5
when the collectible is collected, whether or not the slot was active. -/
theorem movePowerUpObject_speedStacked (s : Sim) (h : SpeedStacked s.1) :
    SpeedStacked (movePowerUpObject .speed s).1 := by
  have hset := movePowerUpObject_settings .speed s
  unfold SpeedStacked
  rw [hset]
  rcases movePowerUpObject_cases .speed s with ⟨h1, h2⟩ | ⟨h1, _, h3⟩
  · rw [h1, h2]
    refine ⟨fun hc => Bool.noConfusion hc, fun _ => ?_⟩
    cases ha : (s.1.powerUps.get .speed).active with
    | false =>
      refine ⟨1, le_rfl, ?_⟩
      show s.1.player.speed * 1.5 = _
      rw [h.1 ha, pow_one]
    | true =>
      obtain ⟨k, hk, hs⟩ := h.2 ha
      refine ⟨k + 1, Nat.le_succ_of_le hk, ?_⟩
      show s.1.player.speed * 1.5 = _
      rw [hs, pow_succ, mul_assoc]
  · rw [h1, h3]
    exact h
theorem shieldFlag_of_slotKept {a b : Game} (h : SlotKept .shield a b)
    (ha : ShieldFlagAgrees a) : ShieldFlagAgrees b := by
  obtain ⟨h1, h2, _⟩ := h
  unfold ShieldFlagAgrees
  rw [h1]
  exact Eq.trans h2 ha

theorem speedStacked_of_slotKept {a b : Game} (h : SlotKept .speed a b)
    (ha : SpeedStacked a) : SpeedStacked b := by
  obtain ⟨h1, h2, h3⟩ := h
  have h2s : b.player.speed = a.player.speed := h2
  unfold SpeedStacked
  rw [h1, h2s, h3]
  exact ha

theorem shieldFlag_of_samePowerView {a b : Game} (h : SamePowerView a b)
    (ha : ShieldFlagAgrees a) : ShieldFlagAgrees b := by
  obtain ⟨h1, _, h3, _⟩ := h
  unfold ShieldFlagAgrees
  rw [h1, h3]
  exact ha

theorem speedStacked_of_samePowerView {a b : Game} (h : SamePowerView a b)
    (ha : SpeedStacked a) : SpeedStacked b := by
  obtain ⟨h1, h2, _, h4⟩ := h
  unfold SpeedStacked
  rw [h1, h2, h4]
  exact ha

/-- The method `updatePowerUps` keeps the shielded flag in agreement with the
shield slot. -/
theorem updatePowerUps_shieldFlag (deltaTime : ℚ) (s : Sim) (h : ShieldFlagAgrees s.1) :
    ShieldFlagAgrees (updatePowerUps deltaTime s).1 := by
  rw [updatePowerUps_eq]
  have h1 : ShieldFlagAgrees (updatePowerUpsBody deltaTime .shield s).1 := by
    unfold updatePowerUpsBody
    exact movePowerUpObject_shieldFlag _ (tickPowerUp_shieldFlag deltaTime s h)
  exact shieldFlag_of_slotKept
    (updatePowerUpsBody_slotKept deltaTime .multiplier .shield _ (by decide))
    (shieldFlag_of_slotKept
      (updatePowerUpsBody_slotKept deltaTime .speed .shield _ (by decide)) h1)

/-- The method `updatePowerUps` keeps the player speed at the base or at the
base times a power of 1.5. -/
theorem updatePowerUps_speedStacked (deltaTime : ℚ) (s : Sim) (h : SpeedStacked s.1) :
    SpeedStacked (updatePowerUps deltaTime s).1 := by
  rw [updatePowerUps_eq]
  have h1 : SpeedStacked (updatePowerUpsBody deltaTime .shield s).1 :=
    speedStacked_of_slotKept
      (updatePowerUpsBody_slotKept deltaTime .shield .speed s (by decide)) h
  have h2 : SpeedStacked
      (updatePowerUpsBody deltaTime .speed (updatePowerUpsBody deltaTime .shield s)).1 := by
    unfold updatePowerUpsBody at h1 ⊢
    exact movePowerUpObject_speedStacked _ (tickPowerUp_speedStacked deltaTime _ h1)
  exact speedStacked_of_slotKept
    (updatePowerUpsBody_slotKept deltaTime .multiplier .speed _ (by decide)) h2

/-- The method `spawnObjects` keeps the settings. -/
theorem spawnObjects_settings (deltaTime : ℚ) (s : Sim) :
    (spawnObjects deltaTime s).1.settings = s.1.settings := by
  unfold spawnObjects
  simp only [spawnNote, spawnObstacle, spawnPowerUp, spawnParticle, random, getRandomNoteColor,
    getRandomFrequency, getRandomColor, Game.modifySlot]
  split_ifs <;> rfl

/-- In mode `playing`, the steps of `update` before `updatePowerUps` and those
after it keep the active flags of the slots, the speed and the shielded flag of
the player, and the settings. -/
theorem update_powerView (deltaTime : ℚ) (s : Sim) (hs : s.1.gameState = .playing) :
    SamePowerView s.1 (updateParticles (updateObstacles (updateNotes
      (spawnObjects deltaTime (updateStars (updatePlayer s.1, s.2)))))).1 ∧
    SamePowerView (updatePowerUps deltaTime (updateParticles (updateObstacles (updateNotes
      (spawnObjects deltaTime (updateStars (updatePlayer s.1, s.2))))))).1
      (update deltaTime s).1 := by
  obtain ⟨st, h2⟩ := updateStars_frame (updatePlayer s.1, s.2)
  obtain ⟨_, _, _, r4⟩ := spawnObjects_run deltaTime (updateStars (updatePlayer s.1, s.2))
  have r5 := spawnObjects_settings deltaTime (updateStars (updatePlayer s.1, s.2))
  have r6 := fun t => spawnObjects_powerUps deltaTime (updateStars (updatePlayer s.1, s.2)) t
  obtain ⟨n4, h4, _⟩ := updateNotes_frame
    (spawnObjects deltaTime (updateStars (updatePlayer s.1, s.2)))
  obtain ⟨n5, h5, _⟩ := updateObstacles_frame (updateNotes
    (spawnObjects deltaTime (updateStars (updatePlayer s.1, s.2))))
  obtain ⟨n6, h6, _⟩ := updateParticles_frame (updateObstacles (updateNotes
    (spawnObjects deltaTime (updateStars (updatePlayer s.1, s.2)))))
  obtain ⟨c1, c2, c3, c4, c5, h8⟩ := checkCollisions_frame (updatePowerUps deltaTime
    (updateParticles (updateObstacles (updateNotes
      (spawnObjects deltaTime (updateStars (updatePlayer s.1, s.2)))))))
  obtain ⟨l, gs, h9⟩ := updateDifficulty_frame (checkCollisions (updatePowerUps deltaTime
    (updateParticles (updateObstacles (updateNotes
      (spawnObjects deltaTime (updateStars (updatePlayer s.1, s.2)))))))).1
  constructor
  · rw [h6, h5, h4]
    unfold SamePowerView
    dsimp only
    rw [r4, r5, h2]
    refine ⟨fun t => ?_, rfl, rfl, rfl⟩
    rw [(r6 t).1, h2]
    rfl
  · have hstep : (simulationStep deltaTime s).1.powerUps =
          (updatePowerUps deltaTime (updateParticles (updateObstacles (updateNotes
            (spawnObjects deltaTime (updateStars (updatePlayer s.1, s.2))))))).1.powerUps ∧
        (simulationStep deltaTime s).1.player =
          (updatePowerUps deltaTime (updateParticles (updateObstacles (updateNotes
            (spawnObjects deltaTime (updateStars (updatePlayer s.1, s.2))))))).1.player ∧
        (simulationStep deltaTime s).1.settings =
          (updatePowerUps deltaTime (updateParticles (updateObstacles (updateNotes
            (spawnObjects deltaTime (updateStars (updatePlayer s.1, s.2))))))).1.settings := by
      unfold simulationStep
      dsimp only
      rw [h9, h8]
      dsimp only
      exact ⟨rfl, rfl, rfl⟩
    have e := update_playing deltaTime s hs
    obtain ⟨p1, p2, p3⟩ := hstep
    unfold SamePowerView
    rw [← p1, ← p2, ← p3]
    revert e
    generalize simulationStep deltaTime s = t
    intro e
    rw [e]
    split_ifs <;> exact ⟨fun _ => rfl, rfl, rfl, rfl⟩

/-- The method `update` keeps the shielded flag in agreement with the shield
slot. -/
theorem update_shieldFlag (deltaTime : ℚ) (s : Sim) (h : ShieldFlagAgrees s.1) :
    ShieldFlagAgrees (update deltaTime s).1 := by
  by_cases hs : s.1.gameState = .playing
  · obtain ⟨v1, v2⟩ := update_powerView deltaTime s hs
    exact shieldFlag_of_samePowerView v2
      (updatePowerUps_shieldFlag deltaTime _ (shieldFlag_of_samePowerView v1 h))
  · rw [update_not_playing deltaTime s hs]
    exact h

/-- The method `update` keeps the player speed at the base or at the base
times a power of 1.5. -/
theorem update_speedStacked (deltaTime : ℚ) (s : Sim) (h : SpeedStacked s.1) :
    SpeedStacked (update deltaTime s).1 := by
  by_cases hs : s.1.gameState = .playing
  · obtain ⟨v1, v2⟩ := update_powerView deltaTime s hs
    exact speedStacked_of_samePowerView v2
      (updatePowerUps_speedStacked deltaTime _ (speedStacked_of_samePowerView v1 h))
  · rw [update_not_playing deltaTime s hs]
    exact h
/-- The method `update` keeps the settings. -/
theorem update_settings (deltaTime : ℚ) (s : Sim) :
    (update deltaTime s).1.settings = s.1.settings := by
  by_cases hs : s.1.gameState = .playing
  · obtain ⟨v1, v2⟩ := update_powerView deltaTime s hs
    rw [v2.2.2.2, powerFrame_settings _ _ (updatePowerUps_frame deltaTime _), v1.2.2.2]
  · rw [update_not_playing deltaTime s hs]

/-- What `startGame` does to the shield: the slot is made inactive, the
shielded flag of the player is left as it was. -/
theorem startGame_shield (g : Game) :
    ((startGame g).powerUps.get .shield).active = false ∧
    (startGame g).player.isShielded = g.player.isShielded := by
  cases hd : g.settings.difficulty <;>
    simp [startGame, updateDifficultySettings, Game.modifySlot, PowerUps.set, PowerUps.get, hd]

theorem narrowMenu_reachable : ReachableAcrossRuns narrowMenu := by
  unfold narrowMenu
  exact ReachableAcrossRuns.init 300 150 40 200 starDraws

theorem restartedRun_reachable : ReachableAcrossRuns restartedRun := by
  unfold restartedRun shieldedRun
  refine ReachableAcrossRuns.start _ ?_
  have h := ReachableAcrossRuns.step (startGame narrowMenu) 16 (startGame narrowMenu).keys
    shieldPickupDraws (ReachableAcrossRuns.start _ narrowMenu_reachable)
  exact h

/-- C22: what the code does when a run is started after a run that ended with
an active shield: the state is reachable from the constructed game by
`startGame` and `update` steps, its shield slot is inactive, and the player is
still shielded.  In general `startGame` makes the shield slot inactive and
leaves the shielded flag as it was. -/
theorem startGame_leaves_shielded_flag :
    ReachableAcrossRuns restartedRun ∧
    (shieldedRun.powerUps.get .shield).active = true ∧
    shieldedRun.player.isShielded = true ∧
    (restartedRun.powerUps.get .shield).active = false ∧
    restartedRun.player.isShielded = true ∧
    (∀ g : Game, ((startGame g).powerUps.get .shield).active = false ∧
      (startGame g).player.isShielded = g.player.isShielded) := by
  have h1 : (shieldedRun.powerUps.get .shield).active = true ∧
      shieldedRun.player.isShielded = true := by decide!
  obtain ⟨s1, s2⟩ := startGame_shield shieldedRun
  refine ⟨restartedRun_reachable, h1.1, h1.2, ?_, ?_, startGame_shield⟩
  · unfold restartedRun
    exact s1
  · unfold restartedRun
    rw [s2]
    exact h1.2
/-- After `startGame` with one of the three difficulties, the speed slot is
inactive and the player speed is the base speed. -/
theorem startGame_speedStacked (g : Game) (hd : g.settings.difficulty ≠ .other) :
    SpeedStacked (startGame g) := by
  have h : ((startGame g).powerUps.get .speed).active = false ∧
      (startGame g).player.speed = baseSpeed (startGame g).settings.difficulty := by
    cases hdiff : g.settings.difficulty
    · simp [startGame, updateDifficultySettings, Game.modifySlot, PowerUps.set, PowerUps.get,
        baseSpeed, hdiff]
    · simp [startGame, updateDifficultySettings, Game.modifySlot, PowerUps.set, PowerUps.get,
        baseSpeed, hdiff]
    · simp [startGame, updateDifficultySettings, Game.modifySlot, PowerUps.set, PowerUps.get,
        baseSpeed, hdiff]
    · exact absurd hdiff hd
  refine ⟨fun _ => h.2, fun hc => ?_⟩
  rw [h.1] at hc
  exact Bool.noConfusion hc

theorem startGame_settings (g : Game) : (startGame g).settings = g.settings := by
  cases hd : g.settings.difficulty <;>
    simp [startGame, updateDifficultySettings, Game.modifySlot, hd]

/-- Every state reachable from `startGame` by `update` steps, with one of the
three difficulties, has the player speed at the base or at the base times a
power of 1.5. -/
theorem reachable_speedStacked (g : Game) (hg : Reachable g) :
    g.settings.difficulty ≠ .other → SpeedStacked g := by
  induction hg with
  | start g0 =>
    intro hd
    rw [startGame_settings] at hd
    exact startGame_speedStacked g0 hd
  | step g0 deltaTime keys r _ ih =>
    intro hd
    rw [update_settings] at hd
    exact update_speedStacked deltaTime ({ g0 with keys := keys }, r) (ih hd)

theorem speedRun_reachable : ∀ n, Reachable (speedRun n)
  | 0 => Reachable.start narrowMenu
  | n + 1 => Reachable.step (speedRun n) 16 (speedRun n).keys speedPickupDraws
      (speedRun_reachable n)

/-- C23 as amended: in every state reachable from `startGame` by `update`
steps, with the difficulty easy, normal or hard (no step changes it), the
player speed is the base speed of the difficulty while the speed slot is
inactive and the base speed times `1.5 ^ k` for some `k ≥ 1` while it is
active: `activatePowerUp` multiplies the current speed by 1.5 at every
collection, also when the slot is already active. -/
theorem speed_stacks_per_pickup :
    (∀ g : Game, Reachable g → g.settings.difficulty ≠ .other →
      (((g.powerUps.get .speed).active = false →
          g.player.speed = baseSpeed g.settings.difficulty) ∧
        ((g.powerUps.get .speed).active = true →
          ∃ k : ℕ, 1 ≤ k ∧ g.player.speed = baseSpeed g.settings.difficulty * 1.5 ^ k))) ∧
    (∀ s : Sim, (activatePowerUp .speed s).1.player.speed = s.1.player.speed * 1.5) ∧
    (∀ (deltaTime : ℚ) (s : Sim), (update deltaTime s).1.settings = s.1.settings) := by
  refine ⟨fun g hg hd => reachable_speedStacked g hg hd, ?_, update_settings⟩
  intro s
  rw [activatePowerUp_activatedPlayer]
  rfl

/-- C23 as amended, at the second frame of the run in which every frame
collects a speed collectible. -/
theorem speed_stacks_per_pickup_witness :
    Reachable (speedRun 2) ∧ (speedRun 2).settings.difficulty ≠ .other ∧
    (((speedRun 2).powerUps.get .speed).active = true →
      ∃ k : ℕ, 1 ≤ k ∧
        (speedRun 2).player.speed = baseSpeed (speedRun 2).settings.difficulty * 1.5 ^ k) :=
  ⟨speedRun_reachable 2, by decide!,
    (speed_stacks_per_pickup.1 (speedRun 2) (speedRun_reachable 2) (by decide!)).2⟩

/-- C23 fails as stated: with normal difficulty (base speed 5), collecting a
speed collectible in each of the first two frames of a run leaves the player
speed at 7.5 after the first frame and at 11.25, that is `2.25 * 5`, after the
second, the speed slot being active. -/
theorem speed_pickup_twice :
    Reachable (speedRun 2) ∧
    (speedRun 2).settings.difficulty = .normal ∧
    ((speedRun 1).powerUps.get .speed).active = true ∧
    (speedRun 1).player.speed = 7.5 ∧
    ((speedRun 2).powerUps.get .speed).active = true ∧
    (speedRun 2).player.speed = 11.25 ∧
    (speedRun 2).player.speed ≠ 5 ∧
    (speedRun 2).player.speed ≠ 1.5 * 5 := by
  have h : (speedRun 2).settings.difficulty = .normal ∧
      ((speedRun 1).powerUps.get .speed).active = true ∧
      (speedRun 1).player.speed = 7.5 ∧
      ((speedRun 2).powerUps.get .speed).active = true ∧
      (speedRun 2).player.speed = 11.25 ∧
      (speedRun 2).player.speed ≠ 5 ∧
      (speedRun 2).player.speed ≠ 1.5 * 5 := by decide!
  exact ⟨speedRun_reachable 2, h⟩

end StellarHarmony
